import Mathlib

/-!
# Klusterlet SSAR controller: credential health probe and reconcile guard

A shallow embedding of
`pkg/operators/klusterlet/controllers/ssarcontroller/klusterlet_ssar_controller.go`.

External collaborators (the secret store, the client factory, the
SelfSubjectAccessReview endpoint, the klusterlet status writer, the work
queue) are fields of an environment `Env`.  Every call that leaves the
process is appended to a chronological log (`List Call`), and the answer of
each remote call may depend on the whole log so far, so a theorem quantified
over `Env` covers remote ends whose answers change from call to call.
-/

namespace SSAR

/-! ## Data model -/

/-- Go `error` values as the controller sees them: `errors.IsNotFound` and the text. -/
structure Err where
  notFound : Bool
  msg : String
deriving DecidableEq, Repr

/-- The type `authorizationv1.ResourceAttributes`. -/
structure ResourceAttributes where
  Namespace : String := ""
  Verb : String := ""
  Group : String := ""
  Resource : String := ""
  Subresource : String := ""
  Name : String := ""
deriving DecidableEq, Repr

/-- The type `authorizationv1.SelfSubjectAccessReviewSpec`; the attributes are a pointer in Go. -/
structure SelfSubjectAccessReviewSpec where
  ResourceAttributes : Option ResourceAttributes := none
deriving DecidableEq, Repr

/-- The type `authorizationv1.SubjectAccessReviewStatus`, the field the controller reads. -/
structure SubjectAccessReviewStatus where
  Allowed : Bool := false
deriving DecidableEq, Repr

/-- The type `authorizationv1.SelfSubjectAccessReview`. -/
structure SelfSubjectAccessReview where
  Spec : SelfSubjectAccessReviewSpec := {}
  Status : SubjectAccessReviewStatus := {}
deriving DecidableEq, Repr

/-- The type `metav1.Condition`; `Status` is a string type in Go whose zero value is `""`, and
`LastTransitionTime` is a point in time, `0` for the zero time. -/
structure Condition where
  Type_ : String := ""
  Status : String := ""
  Reason : String := ""
  Message : String := ""
  LastTransitionTime : Nat := 0
deriving DecidableEq, Repr

/-- The constant `metav1.ConditionTrue`. -/
def ConditionTrue : String := "True"

/-- The constant `metav1.ConditionFalse`. -/
def ConditionFalse : String := "False"

/-- The type `corev1.Secret`: its identity and its `Data` map.  A Go map lookup yields nil
for an absent key, which is `none` here. -/
structure Secret where
  Namespace : String
  Name : String
  Data : String → Option String

/-- The fields of `rest.Config` the controller and its helper touch. -/
structure RestConfig where
  Host : String := ""
  CertData : Option String := none
  KeyData : Option String := none
  QPS : ℚ := 0
  Burst : Int := 0
deriving DecidableEq, Repr

/-- A handle on a constructed `kubernetes.Interface`. -/
structure Client where
  handle : Nat
deriving DecidableEq, Repr

/-- The fields of the Klusterlet spec that `sync` reads. -/
structure KlusterletSpec where
  Namespace : String := ""
  ClusterName : String := ""
deriving DecidableEq, Repr

/-- The Klusterlet object handed out by the lister. -/
structure Klusterlet where
  Name : String := ""
  Spec : KlusterletSpec := {}
deriving DecidableEq, Repr

/-- The struct `klusterletAgent`. -/
structure klusterletAgent where
  clusterName : String
  namespace_ : String
deriving DecidableEq, Repr

/-- One call that leaves the controller, in the order the calls are made. -/
inductive Call where
  /-- `kubeClient.CoreV1().Secrets(ns).Get(ctx, name, ...)` -/
  | secretGet (ns name : String)
  /-- `buildKubeClientWithSecret(secret)`, identified by the secret handed in -/
  | buildClient (ns name : String)
  /-- `client.AuthorizationV1().SelfSubjectAccessReviews().Create(ctx, &review, ...)` -/
  | ssarCreate (client : Client) (review : SelfSubjectAccessReview)
  /-- `helpers.UpdateKlusterletStatus(ctx, c.klusterletClient, name, UpdateKlusterletConditionFn(cond))` -/
  | updateStatus (klusterletName : String) (cond : Condition)
  /-- `controllerContext.Queue().AddAfter(key, delay)`, the delay in nanoseconds -/
  | addAfter (key : String) (delay : Nat)
deriving DecidableEq, Repr

/-- The formatting verbs of `fmt.Sprintf` that the messages use, taken as given. -/
structure Fmt where
  /-- `%q` of a string -/
  q : String → String
  /-- `%v` of an error -/
  errV : Err → String
  /-- `%+v` of a `*SelfSubjectAccessReview` -/
  reviewV : Option SelfSubjectAccessReview → String
  /-- `%+v` of a `*ResourceAttributes` -/
  attrsV : Option ResourceAttributes → String

/-- The collaborators of the controller.  Remote answers are functions of the call log so
far; `LoadClientConfigFromSecret` and `NewForConfig` are local computations. -/
structure Env where
  fmt : Fmt
  /-- `helpers.BootstrapHubKubeConfig`, the name of the bootstrap secret -/
  BootstrapHubKubeConfig : String
  /-- `helpers.HubKubeConfig`, the name of the hub kubeconfig secret -/
  HubKubeConfig : String
  /-- `c.klusterletLister.Get(name)` -/
  klusterletGet : List Call → String → Except Err Klusterlet
  /-- `Secrets(ns).Get(ctx, name, ...)` -/
  secretGet : List Call → String → String → Except Err Secret
  /-- `helpers.LoadClientConfigFromSecret(secret)` -/
  LoadClientConfigFromSecret : Secret → Except Err RestConfig
  /-- `kubernetes.NewForConfig(restConfig)` -/
  NewForConfig : RestConfig → Except Err Client
  /-- `SelfSubjectAccessReviews().Create(ctx, &review, ...)`: the review with its status filled in, or an error -/
  ssarCreate : List Call → Client → SelfSubjectAccessReview → Except Err SelfSubjectAccessReview
  /-- `helpers.UpdateKlusterletStatus(...)`: the error it returns, if any -/
  UpdateKlusterletStatus : List Call → String → Condition → Option Err

/-! ## The permission probes -/

/-- The function `createSelfSubjectAccessReviews`: the result triple
`(allowed, failedReview, err)` and the call log after the loop. -/
def createSelfSubjectAccessReviews (env : Env) (kubeClient : Client) :
    List SelfSubjectAccessReview → List Call →
      (Bool × Option SelfSubjectAccessReview × Option Err) × List Call
  | [], log => ((true, none, none), log)
  | subjectAccessReview :: rest, log =>
    let log1 := log ++ [Call.ssarCreate kubeClient subjectAccessReview]
    match env.ssarCreate log kubeClient subjectAccessReview with
    | .error err => ((false, some subjectAccessReview, some err), log1)
    | .ok ssar =>
      if !ssar.Status.Allowed then ((false, some subjectAccessReview, none), log1)
      else createSelfSubjectAccessReviews env kubeClient rest log1

/-- The function `generateSelfSubjectAccessReviews`: one review per verb, in verb order. -/
def generateSelfSubjectAccessReviews (resource : ResourceAttributes) (verbs : List String) :
    List SelfSubjectAccessReview :=
  verbs.map fun verb =>
    let attrs : ResourceAttributes :=
      { Group := resource.Group
        Resource := resource.Resource
        Subresource := resource.Subresource
        Name := resource.Name
        Namespace := resource.Namespace
        Verb := verb }
    { Spec := { ResourceAttributes := some attrs } }

/-- The function `getBootstrapSSARs`. -/
def getBootstrapSSARs : List SelfSubjectAccessReview :=
  let reviews : List SelfSubjectAccessReview := []
  let clusterResource : ResourceAttributes :=
    { Group := "cluster.open-cluster-management.io", Resource := "managedclusters" }
  let reviews := reviews ++ generateSelfSubjectAccessReviews clusterResource ["create", "get"]
  let certResource : ResourceAttributes :=
    { Group := "certificates.k8s.io", Resource := "certificatesigningrequests" }
  reviews ++ generateSelfSubjectAccessReviews certResource ["create", "get", "list", "watch"]

/-- The function `getHubConfigSSARs`. -/
def getHubConfigSSARs (clusterName : String) : List SelfSubjectAccessReview :=
  let reviews : List SelfSubjectAccessReview := []
  let certResource : ResourceAttributes :=
    { Group := "certificates.k8s.io", Resource := "certificatesigningrequests" }
  let reviews := reviews ++ generateSelfSubjectAccessReviews certResource ["get", "list", "watch"]
  let clusterResource : ResourceAttributes :=
    { Group := "cluster.open-cluster-management.io", Resource := "managedclusters",
      Name := clusterName }
  let reviews := reviews ++
    generateSelfSubjectAccessReviews clusterResource ["get", "list", "update", "watch"]
  let clusterStatusResource : ResourceAttributes :=
    { Group := "cluster.open-cluster-management.io", Resource := "managedclusters",
      Subresource := "status", Name := clusterName }
  let reviews := reviews ++
    generateSelfSubjectAccessReviews clusterStatusResource ["patch", "update"]
  let clusterCertResource : ResourceAttributes :=
    { Group := "register.open-cluster-management.io", Resource := "managedclusters",
      Subresource := "clientcertificates" }
  let reviews := reviews ++ generateSelfSubjectAccessReviews clusterCertResource ["renew"]
  let leaseResource : ResourceAttributes :=
    { Group := "coordination.k8s.io", Resource := "leases",
      Name := "cluster-lease-" ++ clusterName, Namespace := clusterName }
  let reviews := reviews ++ generateSelfSubjectAccessReviews leaseResource ["get", "update"]
  let eventResource : ResourceAttributes :=
    { Resource := "events", Namespace := clusterName }
  let reviews := reviews ++
    generateSelfSubjectAccessReviews eventResource ["create", "patch", "update"]
  let eventResource : ResourceAttributes :=
    { Group := "events.k8s.io", Resource := "events", Namespace := clusterName }
  let reviews := reviews ++
    generateSelfSubjectAccessReviews eventResource ["create", "patch", "update"]
  let workResource : ResourceAttributes :=
    { Group := "work.open-cluster-management.io", Resource := "manifestworks",
      Namespace := clusterName }
  let reviews := reviews ++
    generateSelfSubjectAccessReviews workResource ["get", "list", "watch", "update"]
  let workStatusResource : ResourceAttributes :=
    { Group := "work.open-cluster-management.io", Resource := "manifestworks",
      Subresource := "status", Namespace := clusterName }
  reviews ++ generateSelfSubjectAccessReviews workStatusResource ["patch", "update"]

/-! ## The credential checks -/

/-- The function `buildKubeClientWithSecret`: load the configuration, force the reduced
rate ceiling, build the client. -/
def buildKubeClientWithSecret (env : Env) (secret : Secret) : Except Err Client :=
  match env.LoadClientConfigFromSecret secret with
  | .error err => .error err
  | .ok restConfig => env.NewForConfig { restConfig with QPS := 2, Burst := 5 }

/-- The function `checkBootstrapSecret`: the degraded condition (`none` for Go nil) and the
call log afterwards. -/
def checkBootstrapSecret (env : Env) (agent : klusterletAgent) (log : List Call) :
    Option Condition × List Call :=
  let log1 := log ++ [Call.secretGet agent.namespace_ env.BootstrapHubKubeConfig]
  match env.secretGet log agent.namespace_ env.BootstrapHubKubeConfig with
  | .error err =>
    (some { Reason := "BootstrapSecretMissing"
            Message := "Failed to get bootstrap secret " ++ env.fmt.q agent.namespace_ ++ " " ++
              env.fmt.q env.BootstrapHubKubeConfig ++ ": " ++ env.fmt.errV err }, log1)
  | .ok bootstrapSecret =>
    let log2 := log1 ++ [Call.buildClient bootstrapSecret.Namespace bootstrapSecret.Name]
    match buildKubeClientWithSecret env bootstrapSecret with
    | .error err =>
      (some { Reason := "BootstrapSecretError"
              Message := "Failed to build bootstrap kube client with bootstrap secret " ++
                env.fmt.q agent.namespace_ ++ " " ++ env.fmt.q env.BootstrapHubKubeConfig ++
                ": " ++ env.fmt.errV err }, log2)
    | .ok bootstrapClient =>
      match createSelfSubjectAccessReviews env bootstrapClient getBootstrapSSARs log2 with
      | ((_, failedReview, some err), log3) =>
        (some { Reason := "BootstrapSecretError"
                Message := "Failed to create " ++ env.fmt.reviewV failedReview ++
                  " with bootstrap secret " ++ env.fmt.q agent.namespace_ ++ " " ++
                  env.fmt.q env.BootstrapHubKubeConfig ++ ": " ++ env.fmt.errV err }, log3)
      | ((false, failedReview, none), log3) =>
        (some { Reason := "BootstrapSecretUnauthorized"
                Message := "Operation for resource " ++
                  env.fmt.attrsV (failedReview.bind fun r => r.Spec.ResourceAttributes) ++
                  " is not allowed with bootstrap secret " ++ env.fmt.q agent.namespace_ ++
                  " " ++ env.fmt.q env.BootstrapHubKubeConfig }, log3)
      | ((true, _, none), log3) => (none, log3)

/-- The function `checkHubConfigSecret`: the degraded condition (`none` for Go nil) and the
call log afterwards. -/
def checkHubConfigSecret (env : Env) (agent : klusterletAgent) (log : List Call) :
    Option Condition × List Call :=
  let log1 := log ++ [Call.secretGet agent.namespace_ env.HubKubeConfig]
  match env.secretGet log agent.namespace_ env.HubKubeConfig with
  | .error err =>
    (some { Reason := "HubKubeConfigSecretMissing"
            Message := "Failed to get hub kubeconfig secret " ++ env.fmt.q agent.namespace_ ++
              " " ++ env.fmt.q env.HubKubeConfig ++ ": " ++ env.fmt.errV err }, log1)
  | .ok hubConfigSecret =>
    if hubConfigSecret.Data "kubeconfig" = none then
      (some { Reason := "HubKubeConfigMissing"
              Message := "Failed to get kubeconfig from \x60kubectl get secret -n " ++
                env.fmt.q hubConfigSecret.Namespace ++ " " ++ env.fmt.q hubConfigSecret.Name ++
                " -ojsonpath=\x27\x7b.data.kubeconfig\x7d\x27\x60. " ++
                "This is set by the klusterlet registration deployment, but the CSR must be approved by the cluster-admin on the hub." },
        log1)
    else
      let log2 := log1 ++ [Call.buildClient hubConfigSecret.Namespace hubConfigSecret.Name]
      match buildKubeClientWithSecret env hubConfigSecret with
      | .error err =>
        (some { Reason := "HubKubeConfigError"
                Message := "Failed to build hub kube client with hub config secret " ++
                  env.fmt.q hubConfigSecret.Namespace ++ " " ++
                  env.fmt.q hubConfigSecret.Name ++ ": " ++ env.fmt.errV err }, log2)
      | .ok hubClient =>
        let clusterName? : Option String :=
          if agent.clusterName = "" then hubConfigSecret.Data "cluster-name"
          else some agent.clusterName
        match clusterName? with
        | none =>
          (some { Reason := "ClusterNameMissing"
                  Message := "Failed to get cluster name from \x60kubectl get secret -n " ++
                    env.fmt.q hubConfigSecret.Namespace ++ " " ++
                    env.fmt.q hubConfigSecret.Name ++
                    " -ojsonpath=\x27\x7b.data.cluster-name\x7d\x60." ++
                    " This is set by the klusterlet registration deployment." }, log2)
        | some clusterName =>
          match createSelfSubjectAccessReviews env hubClient (getHubConfigSSARs clusterName)
              log2 with
          | ((_, failedReview, some err), log3) =>
            (some { Reason := "HubKubeConfigError"
                    Message := "Failed to create " ++ env.fmt.reviewV failedReview ++
                      " with hub config secret " ++ env.fmt.q hubConfigSecret.Namespace ++
                      " " ++ env.fmt.q hubConfigSecret.Name ++ ": " ++ env.fmt.errV err },
              log3)
          | ((false, failedReview, none), log3) =>
            (some { Reason := "HubKubeConfigUnauthorized"
                    Message := "Operation for resource " ++
                      env.fmt.attrsV (failedReview.bind fun r => r.Spec.ResourceAttributes) ++
                      " is not allowed with hub config secret " ++
                      env.fmt.q hubConfigSecret.Namespace ++ " " ++
                      env.fmt.q hubConfigSecret.Name }, log3)
          | ((true, _, none), log3) => (none, log3)

/-- The type `degradedCheckFunc`, with the client and context closed over. -/
abbrev degradedCheckFunc := klusterletAgent → List Call → Option Condition × List Call

/-- The loop of `checkAgentDegradedCondition`: run each check in order and collect the
reasons and messages of the conditions that are not nil. -/
def checkAgentDegradedConditionLoop (agent : klusterletAgent) :
    List degradedCheckFunc → List String → List String → List Call →
      (List String × List String) × List Call
  | [], degradedConditionReasons, degradedConditionMessages, log =>
    ((degradedConditionReasons, degradedConditionMessages), log)
  | degradedCheckFn :: rest, degradedConditionReasons, degradedConditionMessages, log =>
    match degradedCheckFn agent log with
    | (none, log1) =>
      checkAgentDegradedConditionLoop agent rest degradedConditionReasons
        degradedConditionMessages log1
    | (some currCond, log1) =>
      checkAgentDegradedConditionLoop agent rest (degradedConditionReasons ++ [currCond.Reason])
        (degradedConditionMessages ++ [currCond.Message]) log1

/-- The function `checkAgentDegradedCondition`. -/
def checkAgentDegradedCondition (secretName degradedType : String) (agent : klusterletAgent)
    (degradedCheckFns : List degradedCheckFunc) (log : List Call) : Condition × List Call :=
  match checkAgentDegradedConditionLoop agent degradedCheckFns [] [] log with
  | ((degradedConditionReasons, degradedConditionMessages), log1) =>
    if degradedConditionReasons.length = 0 then
      ({ Type_ := degradedType
         Status := ConditionFalse
         Reason := secretName ++ "Functional"
         Message := secretName ++ " is functioning correctly" }, log1)
    else
      ({ Type_ := degradedType
         Status := ConditionTrue
         Reason := ",".intercalate degradedConditionReasons
         Message := "\n".intercalate degradedConditionMessages }, log1)

/-! ## The reconcile guard -/

/-- The struct `klusterletLocker`: the key set of the Go map `klusterletInChecking`
(a `map[string]struct{}` carries nothing but its keys). -/
structure klusterletLocker where
  klusterletInChecking : Finset String
deriving DecidableEq

/-- The method `inSSARChecking`, the body run under the read lock. -/
def inSSARChecking (l : klusterletLocker) (klusterletName : String) : Bool :=
  decide (klusterletName ∈ l.klusterletInChecking)

/-- The method `addSSARChecking`, the body run under the write lock. -/
def addSSARChecking (l : klusterletLocker) (klusterletName : String) : klusterletLocker :=
  { klusterletInChecking := insert klusterletName l.klusterletInChecking }

/-- The method `deleteSSARChecking`, the body run under the write lock. -/
def deleteSSARChecking (l : klusterletLocker) (klusterletName : String) : klusterletLocker :=
  { klusterletInChecking := l.klusterletInChecking.erase klusterletName }

/-! ## The constants of the controller -/

/-- The variable `SSARReSyncTime`, thirty seconds as a `time.Duration` in nanoseconds. -/
def SSARReSyncTime : Nat := 30 * 1000000000

/-- The constant `klusterletNamespace`. -/
def klusterletNamespace : String := "open-cluster-management-agent"

/-- The constant `bootstrapSecret`. -/
def bootstrapSecret : String := "BootstrapSecret"

/-- The constant `bootstrapSecretDegraded`. -/
def bootstrapSecretDegraded : String := "BootstrapSecretDegraded"

/-- The constant `hubConfigSecret`. -/
def hubConfigSecret : String := "HubConfigSecret"

/-- The constant `hubConfigSecretDegraded`. -/
def hubConfigSecretDegraded : String := "HubConfigSecretDegraded"

/-- The constant `hubConnectionDegraded`. -/
def hubConnectionDegraded : String := "HubConnectionDegraded"

/-! ## The guarded run and `sync` -/

/-- The status write shared by both branches of the goroutine: call
`helpers.UpdateKlusterletStatus` with the condition and, when it returns an error, re-add the
key to the queue after `SSARReSyncTime`. -/
def updateStatusOrRequeue (env : Env) (klusterletName : String) (cond : Condition)
    (log : List Call) : List Call :=
  let log1 := log ++ [Call.updateStatus klusterletName cond]
  match env.UpdateKlusterletStatus log klusterletName cond with
  | some _ => log1 ++ [Call.addAfter klusterletName SSARReSyncTime]
  | none => log1

/-- The agent the goroutine probes for: the cluster name of the klusterlet and its
namespace, `klusterletNamespace` when the spec names none. -/
def agentOf (klusterlet : Klusterlet) : klusterletAgent :=
  { clusterName := klusterlet.Spec.ClusterName
    namespace_ :=
      if klusterlet.Spec.Namespace = "" then klusterletNamespace else klusterlet.Spec.Namespace }

/-- The body of the goroutine started by `sync`, without its deferred release: the call
log after the run. -/
def syncGoroutineBody (env : Env) (klusterletName : String) (klusterlet : Klusterlet)
    (log : List Call) : List Call :=
  match checkAgentDegradedCondition hubConfigSecret hubConfigSecretDegraded (agentOf klusterlet)
      [checkHubConfigSecret env] log with
  | (hubConfigDegradedCondition, log1) =>
    if hubConfigDegradedCondition.Status = ConditionFalse then
      updateStatusOrRequeue env klusterletName
        { Type_ := hubConnectionDegraded
          Status := ConditionFalse
          Reason := "HubConnectionFunctional"
          Message := "Hub connection is functioning correctly" } log1
    else
      match checkAgentDegradedCondition bootstrapSecret bootstrapSecretDegraded
          (agentOf klusterlet) [checkBootstrapSecret env] log1 with
      | (bootstrapDegradedCondition, log2) =>
        updateStatusOrRequeue env klusterletName
          { Type_ := hubConnectionDegraded
            Status := ConditionTrue
            Reason := bootstrapDegradedCondition.Reason ++ "," ++
              hubConfigDegradedCondition.Reason
            Message := bootstrapDegradedCondition.Message ++ "\n" ++
              hubConfigDegradedCondition.Message } log2

/-- The goroutine started by `sync`: the body, then the deferred `deleteSSARChecking` on the
guard as it is when the goroutine finishes. -/
def syncGoroutine (env : Env) (klusterletName : String) (klusterlet : Klusterlet)
    (l : klusterletLocker) (log : List Call) : klusterletLocker × List Call :=
  (deleteSSARChecking l klusterletName, syncGoroutineBody env klusterletName klusterlet log)

/-- What one call of `sync` leaves behind: the error it returns, the guard, the call log,
and the goroutine it started, given by the variables the closure captures. -/
structure SyncResult where
  err : Option Err
  locker : klusterletLocker
  log : List Call
  started : Option (String × Klusterlet)

/-- The method `ssarController.sync` for the queue key `klusterletName`. -/
def sync (env : Env) (klusterletName : String) (l : klusterletLocker) (log : List Call) :
    SyncResult :=
  if klusterletName = "" then { err := none, locker := l, log := log, started := none }
  else
    match env.klusterletGet log klusterletName with
    | .error err =>
      if err.notFound then { err := none, locker := l, log := log, started := none }
      else { err := some err, locker := l, log := log, started := none }
    | .ok klusterlet =>
      if inSSARChecking l klusterletName then
        { err := none, locker := l
          log := log ++ [Call.addAfter klusterletName SSARReSyncTime], started := none }
      else
        { err := none, locker := addSSARChecking l klusterletName, log := log
          started := some (klusterletName, klusterlet) }

/-! ## The condition store and the generation tracker (helpers, spec sections 4.1 and 4.2) -/

/-- Modelled from the spec: the condition upsert of section 4.1.  It is what the helpers
`UpdateKlusterletConditionFn` and `UpdateClusterManagerConditionFn` do to the condition list
of a status document; their source is not among the files of the repository at hand, only
their test `TestUpdateStatusCondition` is.  `now` is the current time.  No entry of the type:
append with `lastTransitionTime = now`, changed.  Entry with another status: replace status,
reason and message, `lastTransitionTime = now`, changed.  Entry with the same status: update
reason and message only if they differ, `lastTransitionTime` unchanged, changed exactly when
reason or message changed. -/
def upsert (now : Nat) : List Condition → Condition → List Condition × Bool
  | [], newCondition => ([{ newCondition with LastTransitionTime := now }], true)
  | existing :: rest, newCondition =>
    if existing.Type_ = newCondition.Type_ then
      if existing.Status ≠ newCondition.Status then
        ({ existing with
            Status := newCondition.Status
            Reason := newCondition.Reason
            Message := newCondition.Message
            LastTransitionTime := now } :: rest, true)
      else if existing.Reason = newCondition.Reason ∧
          existing.Message = newCondition.Message then
        (existing :: rest, false)
      else
        ({ existing with
            Reason := newCondition.Reason
            Message := newCondition.Message } :: rest, true)
    else
      ((upsert now rest newCondition).1.cons existing, (upsert now rest newCondition).2)

/-- The function `newCondition` of `helpers_test.go`; a nil `lastTransition` leaves the zero
time. -/
def newCondition (name status reason message : String) (lastTransition : Option Nat) :
    Condition :=
  { Type_ := name, Status := status, Reason := reason, Message := message
    LastTransitionTime := lastTransition.getD 0 }

/-- The comparison of `TestUpdateStatusCondition`: an expected condition with the zero
transition time matches whatever transition time the actual condition has. -/
def matchesExpected (expected actual : Condition) : Bool :=
  if expected.LastTransitionTime = 0 then
    decide ({ actual with LastTransitionTime := 0 } = expected)
  else decide (actual = expected)

/-- The type `operatorapiv1.GenerationStatus`: the identity of a resource, by group, resource,
namespace and name, and the last generation observed for it. -/
structure GenerationStatus where
  Group : String := ""
  Version : String := ""
  Resource : String := ""
  Namespace : String := ""
  Name : String := ""
  LastGeneration : Int := 0
deriving DecidableEq, Repr

/-- Two generation records name the same resource: same group, resource, namespace and
name. -/
def sameIdentity (a b : GenerationStatus) : Prop :=
  a.Group = b.Group ∧ a.Resource = b.Resource ∧ a.Namespace = b.Namespace ∧ a.Name = b.Name

instance (a b : GenerationStatus) : Decidable (sameIdentity a b) := by
  unfold sameIdentity
  infer_instance

/-- The identity of a generation record. -/
def identityOf (g : GenerationStatus) : String × String × String × String :=
  (g.Group, g.Resource, g.Namespace, g.Name)

/-- Modelled from the spec: the operation `record` of the generation tracker, section 4.2,
done by the helpers `UpdateKlusterletGenerationsFn` and `UpdateClusterManagerGenerationsFn`
whose source is not among the files at hand (their test `TestUpdateGeneration` is).  Match by
(group, resource, namespace, name): found with a different generation, update in place,
changed; found with the same generation, no change; absent, append, changed. -/
def record : List GenerationStatus → GenerationStatus → List GenerationStatus × Bool
  | [], newGeneration => ([newGeneration], true)
  | existing :: rest, newGeneration =>
    if sameIdentity existing newGeneration then
      if existing.LastGeneration = newGeneration.LastGeneration then (existing :: rest, false)
      else ({ existing with LastGeneration := newGeneration.LastGeneration } :: rest, true)
    else ((record rest newGeneration).1.cons existing, (record rest newGeneration).2)

/-- The generation record the test `TestUpdateGeneration` builds with
`NewGenerationStatus(gvr, newDeployment(name, namespace, generation))` for the resource
`apps/v1 deployments`. -/
def deploymentGeneration (name namespace_ : String) (generation : Int) : GenerationStatus :=
  { Group := "apps", Version := "v1", Resource := "deployments"
    Namespace := namespace_, Name := name, LastGeneration := generation }

/-! ## The apply engine (helpers, spec section 4.3) -/

/-- The type `admissionv1.ServiceReference`, the fields the tests set. -/
structure ServiceReference where
  Name : String := ""
  Namespace : String := ""
deriving DecidableEq, Repr

/-- One webhook of a webhook configuration, by the service of its client configuration. -/
structure Webhook where
  Service : Option ServiceReference := none
deriving DecidableEq, Repr

/-- The type `corev1.Toleration`, the fields the tests set. -/
structure Toleration where
  Key : String := ""
  Operator : String := ""
  Value : String := ""
  Effect : String := ""
deriving DecidableEq, Repr

/-- The pod template of a deployment: the node selector, the toleration list and the
containers (name and image). -/
structure PodTemplate where
  NodeSelector : List (String × String) := []
  Tolerations : List Toleration := []
  Containers : List (String × String) := []
deriving DecidableEq, Repr

/-- The desired content of a managed resource, by the shape of its kind: the webhook list of
a validating or mutating webhook configuration, the service of an APIService, the data map of
a secret, the pod template of a deployment, or the fields of anything else. -/
inductive Content where
  | webhooks (webhooks : List Webhook)
  | apiService (service : Option ServiceReference)
  | secretData (data : List (String × String))
  | deployment (template : PodTemplate)
  | fields (fields : List (String × String))
deriving DecidableEq, Repr

/-- A managed resource, as a decoded manifest and as an object in the store.  `Kind`,
`Namespace` and `Name` identify it, `ResourceVersion` and `Generation` are managed by the
server, `Content` is what the manifest asks for. -/
structure ManagedObject where
  APIVersion : String := ""
  Kind : String := ""
  Namespace : String := ""
  Name : String := ""
  ResourceVersion : String := ""
  Generation : Int := 0
  Content : Content := Content.fields []
deriving DecidableEq, Repr

/-- The two objects are the same resource: same kind, namespace and name. -/
def sameObject (a b : ManagedObject) : Prop :=
  a.Kind = b.Kind ∧ a.Namespace = b.Namespace ∧ a.Name = b.Name

instance (a b : ManagedObject) : Decidable (sameObject a b) := by
  unfold sameObject
  infer_instance

/-- Modelled from the spec: step 3 of the apply contract of section 4.3, the fetch of the
current object by kind, namespace and name from the target store (an in-memory store as in
the tests); absence is `none`, not an error.  The source of the object clients is not among
the files at hand. -/
def getObject (store : List ManagedObject) (required : ManagedObject) : Option ManagedObject :=
  store.find? fun o => decide (sameObject o required)

/-- Modelled from the spec: the update of the stored object of the same kind, namespace and
name, part of step 4 of the apply contract of section 4.3; the source is not among the files
at hand. -/
def updateObject (store : List ManagedObject) (updated : ManagedObject) : List ManagedObject :=
  store.map fun o => if sameObject o updated then updated else o

/-- Modelled from the spec: steps 3 and 4 of the apply contract of section 4.3, whose source
(the `Apply...` functions of the helpers package) is not among the files at hand.  Absent:
create.  Present and equal to the desired content, server-managed fields ignored: nothing to
do.  Present and different: update, keeping the server-managed fields of the stored object and
replacing the content wholesale.  The result is the store afterwards, whether the store was
changed, and the error. -/
def applyObject (store : List ManagedObject) (required : ManagedObject) :
    List ManagedObject × Bool × Option Err :=
  match getObject store required with
  | none => (store ++ [required], true, none)
  | some existing =>
    if existing.Content = required.Content then (store, false, none)
    else (updateObject store { existing with Content := required.Content }, true, none)

/-- The function `newValidatingWebhookConfiguration` of `helpers_test.go`. -/
def newValidatingWebhookConfiguration (name svc svcNameSpace : String) : ManagedObject :=
  { APIVersion := "admissionregistration.k8s.io/v1"
    Kind := "ValidatingWebhookConfiguration"
    Name := name
    Content := Content.webhooks [{ Service := some { Name := svc, Namespace := svcNameSpace } }] }

/-- The function `newMutatingWebhookConfiguration` of `helpers_test.go`. -/
def newMutatingWebhookConfiguration (name svc svcNameSpace : String) : ManagedObject :=
  { APIVersion := "admissionregistration.k8s.io/v1"
    Kind := "MutatingWebhookConfiguration"
    Name := name
    Content := Content.webhooks [{ Service := some { Name := svc, Namespace := svcNameSpace } }] }

/-- Modelled from the spec: `ApplyValidatingWebhookConfiguration` of the helpers package
(source not among the files at hand, test `TestApplyValidatingWebhookConfiguration`), the
apply contract of section 4.3 for an object of kind `ValidatingWebhookConfiguration`. -/
def ApplyValidatingWebhookConfiguration (store : List ManagedObject)
    (required : ManagedObject) : List ManagedObject × Bool × Option Err :=
  applyObject store { required with Kind := "ValidatingWebhookConfiguration" }

/-- Modelled from the spec: `ApplyMutatingWebhookConfiguration` of the helpers package
(source not among the files at hand, test `TestApplyMutatingWebhookConfiguration`), the apply
contract of section 4.3 for an object of kind `MutatingWebhookConfiguration`. -/
def ApplyMutatingWebhookConfiguration (store : List ManagedObject)
    (required : ManagedObject) : List ManagedObject × Bool × Option Err :=
  applyObject store { required with Kind := "MutatingWebhookConfiguration" }

/-- The kind tags the apply engine recognises, section 3 of the spec. -/
def supportedKinds : List String :=
  ["ValidatingWebhookConfiguration", "MutatingWebhookConfiguration", "APIService", "Secret",
    "CustomResourceDefinition", "Deployment"]

/-- The error of a resource whose kind tag is not recognised. -/
def UnsupportedResourceKind : Err := { notFound := false, msg := "UnsupportedResourceKind" }

/-- The outcome of applying one resource of a batch, section 4.3 step 6. -/
structure ApplyOutcome where
  resourceName : String
  kind : String
  applied : Bool
  error : Option Err
deriving DecidableEq, Repr

/-- Modelled from the spec: the outcome of one key of a batch, steps 1 to 4 of the apply
contract of section 4.3.  `manifests` is the resolver followed by the decoding of the bytes.
A resolver failure is the outcome of that resource; so is an unrecognised kind tag, with
`UnsupportedResourceKind`; neither touches the store. -/
def applyOne (manifests : String → Except Err ManagedObject) (store : List ManagedObject)
    (file : String) : List ManagedObject × ApplyOutcome :=
  match manifests file with
  | .error err => (store, { resourceName := file, kind := "", applied := false, error := some err })
  | .ok required =>
    if required.Kind ∈ supportedKinds then
      ((applyObject store required).1,
        { resourceName := file, kind := required.Kind
          applied := (applyObject store required).2.1
          error := (applyObject store required).2.2 })
    else
      (store, { resourceName := file, kind := required.Kind, applied := false
                error := some UnsupportedResourceKind })

/-- Modelled from the spec: `ApplyDirectly` of the helpers package (source not among the
files at hand, test `TestApplyDirectly`), the batch apply of section 4.3: every key of the
batch is processed in order against the store left by the keys before it, and the result is
the full list of outcomes, one per key; no outcome stops the batch. -/
def ApplyDirectly (manifests : String → Except Err ManagedObject) :
    List ManagedObject → List String → List ManagedObject × List ApplyOutcome
  | store, [] => (store, [])
  | store, file :: files =>
    ((ApplyDirectly manifests (applyOne manifests store file).1 files).1,
      (applyOne manifests store file).2 ::
        (ApplyDirectly manifests (applyOne manifests store file).1 files).2)

/-- The function `newUnstructured` of `helpers_test.go`, decoded. -/
def newUnstructured (apiVersion kind namespace_ name : String) (content : Content) :
    ManagedObject :=
  { APIVersion := apiVersion, Kind := kind, Namespace := namespace_, Name := name
    Content := content }

/-- The resolver of `TestApplyDirectly`, over the files of both of its cases. -/
def testManifests (name : String) : Except Err ManagedObject :=
  if name = "validatingwebhooks" then
    .ok (newUnstructured "admissionregistration.k8s.io/v1" "ValidatingWebhookConfiguration"
      "" "" (Content.webhooks []))
  else if name = "mutatingwebhooks" then
    .ok (newUnstructured "admissionregistration.k8s.io/v1" "MutatingWebhookConfiguration"
      "" "" (Content.webhooks []))
  else if name = "apiservice" then
    .ok (newUnstructured "apiregistration.k8s.io/v1" "APIService" "" ""
      (Content.apiService (some { Name := "svc1", Namespace := "svc1" })))
  else if name = "secret" then
    .ok (newUnstructured "v1" "Secret" "ns1" "n1" (Content.secretData [("key1", "key1")]))
  else if name = "kind1" then
    .ok (newUnstructured "v1" "Kind1" "ns1" "n1" (Content.fields [("key1", "key1")]))
  else .error { notFound := false, msg := "Failed to find file" }

/-- The apply function `apply` for the kind that `asStored` gives an object behaves as the
claim on webhook configurations says, for every store and every desired object.  On a store
without the object it creates it, reports `applied = true` and no error, and applying the same
desired object again reports `applied = false`, no error, and leaves the store alone.  On a
store holding an object with equal content it reports `applied = false`, no error, store
untouched.  On a store holding an object with different content it reports `applied = true`,
no error, and the stored object then has the desired content and the resource version it
had. -/
def appliesIdempotently
    (apply : List ManagedObject → ManagedObject → List ManagedObject × Bool × Option Err)
    (asStored : ManagedObject → ManagedObject) : Prop :=
  ∀ store required,
    (getObject store (asStored required) = none →
      (apply store required).2 = (true, none) ∧
      getObject (apply store required).1 (asStored required) = some (asStored required) ∧
      apply (apply store required).1 required = ((apply store required).1, false, none)) ∧
    (∀ existing, getObject store (asStored required) = some existing →
      existing.Content = required.Content → apply store required = (store, false, none)) ∧
    (∀ existing, getObject store (asStored required) = some existing →
      existing.Content ≠ required.Content →
      (apply store required).2 = (true, none) ∧
      getObject (apply store required).1 (asStored required) =
        some { existing with Content := required.Content })

/-- The outcome of a key that fails before the store is touched: the resolver's error, or
`UnsupportedResourceKind` for a kind tag that is not recognised; `none` for a key that is
applied. -/
def failedOutcome (manifests : String → Except Err ManagedObject) (file : String) :
    Option ApplyOutcome :=
  match manifests file with
  | .error err => some { resourceName := file, kind := "", applied := false, error := some err }
  | .ok required =>
    if required.Kind ∈ supportedKinds then none
    else some { resourceName := file, kind := required.Kind, applied := false
                error := some UnsupportedResourceKind }

/-! ## The deletion path, the credential loader and the deployment apply (helpers) -/

/-- The error of an operation on an object the store does not hold. -/
def NotFound : Err := { notFound := true, msg := "not found" }

/-- Modelled from the spec: the delete of the object client of section 6 against the target
store (an in-memory store as in the tests; the source of the object clients is not among the
files at hand).  An object of the same kind, namespace and name is removed; when there is
none the store is left alone and the error is `NotFound`. -/
def deleteObject (store : List ManagedObject) (required : ManagedObject) :
    List ManagedObject × Option Err :=
  match getObject store required with
  | none => (store, some NotFound)
  | some _ => (store.filter fun o => decide (¬ sameObject o required), none)

/-- Modelled from the spec: `CleanUpStaticObject` of the helpers package (source not among
the files at hand, test `TestDeleteStaticObject`), the deletion path of section 4.3 for one
resource key.  It mirrors apply: the manifest is resolved and decoded, a resolver failure or
a kind tag that is not recognised is the error returned, and otherwise the object is deleted
from the store; a `NotFound` on that delete is treated as success. -/
def CleanUpStaticObject (manifests : String → Except Err ManagedObject)
    (store : List ManagedObject) (file : String) : List ManagedObject × Option Err :=
  match manifests file with
  | .error err => (store, some err)
  | .ok required =>
    if required.Kind ∈ supportedKinds then
      match deleteObject store required with
      | (store1, none) => (store1, none)
      | (store1, some err) => if err.notFound then (store1, none) else (store1, some err)
    else (store, some UnsupportedResourceKind)

/-- Modelled from the spec: the deletion path `CleanUp` of section 4.3 over a list of
resource keys (the loop over `CleanUpStaticObject` is not among the files at hand).  It is
all-or-nothing: the keys are processed in order, each against the store the keys before it
left, and the first error stops the path and is returned. -/
def CleanUp (manifests : String → Except Err ManagedObject) :
    List ManagedObject → List String → List ManagedObject × Option Err
  | store, [] => (store, none)
  | store, file :: files =>
    match CleanUpStaticObject manifests store file with
    | (store1, some err) => (store1, some err)
    | (store1, none) => CleanUp manifests store1 files

/-- The resolver of `TestDeleteStaticObject`: the files of `TestApplyDirectly` and `crd`. -/
def deleteTestManifests (name : String) : Except Err ManagedObject :=
  if name = "crd" then
    .ok (newUnstructured "apiextensions.k8s.io/v1beta1" "CustomResourceDefinition" "" ""
      (Content.fields []))
  else testManifests name

/-- A decoded kubeconfig: the server of the cluster of the current context and the client
certificate and key files its user names, `""` for a file that is not named. -/
structure KubeConfig where
  Server : String := ""
  ClientCertificate : String := ""
  ClientKey : String := ""
deriving DecidableEq, Repr

/-- The bytes of the secret entry a kubeconfig refers to as a file: nothing to read (`some
none`) when no file is named, the entry of that name when the secret has one, and `none` when
the file is named and the secret has no such entry. -/
def referencedEntry (secret : Secret) (file : String) : Option (Option String) :=
  if file = "" then some none else (secret.Data file).map some

/-- Modelled from the spec: `LoadClientConfigFromSecret` of the helpers package (source not
among the files at hand, test `TestLoadClientConfigFromSecret`), step 2 of the health probe
of section 4.4 and the `CredentialSecret` of section 3.  The entry `kubeconfig` of the secret
is the embedded serialized configuration; without it the error names the secret, namespace
and name both quoted (`fmt.q`).  `decode` is the decoding of the kubeconfig bytes, which
fails on bytes that cannot be parsed.  The certificate and key files the kubeconfig refers to
are read from the entries of the same secret; a referenced file that is not an entry of the
secret makes the secret unreadable. -/
def LoadClientConfigFromSecret (fmt : Fmt) (decode : String → Except Err KubeConfig)
    (secret : Secret) : Except Err RestConfig :=
  match secret.Data "kubeconfig" with
  | none =>
    .error { notFound := false
             msg := "unable to find kubeconfig in secret " ++ fmt.q secret.Namespace ++ " " ++
               fmt.q secret.Name }
  | some kubeconfigData =>
    match decode kubeconfigData with
    | .error err => .error err
    | .ok config =>
      match referencedEntry secret config.ClientCertificate,
          referencedEntry secret config.ClientKey with
      | some certData, some keyData =>
        .ok { Host := config.Server, CertData := certData, KeyData := keyData }
      | _, _ =>
        .error { notFound := false
                 msg := "unable to read the certificate or key of the kubeconfig in secret " ++
                   fmt.q secret.Namespace ++ " " ++ fmt.q secret.Name }

/-- The function `newKubeConfig` of `helpers_test.go`, as the bytes it encodes to: here the
server and the two file names, one per line. -/
def newKubeConfig (certFile keyFile : String) : String :=
  "https://test-host:443\n" ++ certFile ++ "\n" ++ keyFile

/-- The decoding of the bytes that `newKubeConfig` makes, for the two kubeconfigs of
`TestLoadClientConfigFromSecret`; other bytes do not parse. -/
def decodeTestKubeConfig (bytes : String) : Except Err KubeConfig :=
  if bytes = newKubeConfig "" "" then .ok { Server := "https://test-host:443" }
  else if bytes = newKubeConfig "tls.crt" "tls.key" then
    .ok { Server := "https://test-host:443", ClientCertificate := "tls.crt"
          ClientKey := "tls.key" }
  else .error { notFound := false, msg := "cannot parse kubeconfig" }

/-- The function `newKubeConfigSecret` of `helpers_test.go`; an empty argument leaves the
entry out. -/
def newKubeConfigSecret (namespace_ name kubeConfigData certData keyData : String) : Secret :=
  { Namespace := namespace_, Name := name
    Data := fun k =>
      if k = "kubeconfig" ∧ kubeConfigData ≠ "" then some kubeConfigData
      else if k = "tls.crt" ∧ certData ≠ "" then some certData
      else if k = "tls.key" ∧ keyData ≠ "" then some keyData
      else none }

/-- The type `operatorapiv1.NodePlacement`. -/
structure NodePlacement where
  NodeSelector : List (String × String) := []
  Tolerations : List Toleration := []
deriving DecidableEq, Repr

/-- The generation record of a stored deployment. -/
def generationOf (deployment : ManagedObject) : GenerationStatus :=
  deploymentGeneration deployment.Name deployment.Namespace deployment.Generation

/-- The generation last recorded for the deployment in the generation list, if any. -/
def recordedGeneration (generationStatuses : List GenerationStatus)
    (deployment : ManagedObject) : Option Int :=
  (generationStatuses.find? fun g => decide (sameIdentity g (generationOf deployment))).map
    fun g => g.LastGeneration

/-- Modelled from the spec: `ApplyDeployment` of the helpers package (source not among the
files at hand, test `TestApplyDeployment`), step 5 of the apply contract of section 4.3.  The
manifest is resolved and decoded as a deployment; the node selector and the toleration list
of the node placement are put into the desired pod template before anything is compared.
Absent: create.  Present: the update is skipped when the stored content equals the desired
one and the generation last recorded for the deployment is the generation of the stored
object; otherwise the content is replaced and the generation of the stored object, which the
server manages, goes up by one.  The result is the store afterwards, the generation record of
the stored deployment, and the error. -/
def ApplyDeployment (store : List ManagedObject) (generationStatuses : List GenerationStatus)
    (nodePlacement : NodePlacement) (manifests : String → Except Err ManagedObject)
    (file : String) : List ManagedObject × GenerationStatus × Option Err :=
  match manifests file with
  | .error err => (store, {}, some err)
  | .ok deployment =>
    match decide (deployment.Kind = "Deployment"), deployment.Content with
    | true, Content.deployment template =>
      let required : ManagedObject :=
        { deployment with
          Content := Content.deployment
            { template with
              NodeSelector := nodePlacement.NodeSelector
              Tolerations := nodePlacement.Tolerations } }
      match getObject store required with
      | none => (store ++ [required], generationOf required, none)
      | some existing =>
        if existing.Content = required.Content ∧
            recordedGeneration generationStatuses existing = some existing.Generation then
          (store, generationOf existing, none)
        else
          let updated : ManagedObject :=
            { existing with Content := required.Content, Generation := existing.Generation + 1 }
          (updateObject store updated, generationOf updated, none)
    | _, _ => (store, {}, some UnsupportedResourceKind)

/-- The function `newDeploymentUnstructured` of `helpers_test.go`, decoded. -/
def newDeploymentUnstructured (name namespace_ : String) : ManagedObject :=
  newUnstructured "apps/v1" "Deployment" namespace_ name
    (Content.deployment
      { Containers := [("hub-registration-controller",
          "quay.io/open-cluster-management/registration:latest")] })

/-- The pod template of the stored object, when it is a deployment. -/
def podTemplateOf (o : ManagedObject) : Option PodTemplate :=
  match o.Content with
  | Content.deployment template => some template
  | _ => none

/-! ## Observations used to state the properties -/

/-- The calls that submit the given probes through one client, in list order. -/
def submitted (kubeClient : Client) (reviews : List SelfSubjectAccessReview) : List Call :=
  reviews.map (Call.ssarCreate kubeClient)

/-- The answer of the permission-check RPC to probe number `i` of `reviews`, asked after the
probes before it have been submitted on top of `log`; `none` when there is no such probe. -/
def probeAnswer (env : Env) (kubeClient : Client) (reviews : List SelfSubjectAccessReview)
    (log : List Call) (i : Nat) : Option (Except Err SelfSubjectAccessReview) :=
  match reviews[i]? with
  | none => none
  | some review => some (env.ssarCreate (log ++ submitted kubeClient (reviews.take i)) kubeClient review)

/-- Probe number `i` is answered allowed, without error. -/
def probeAllowed (env : Env) (kubeClient : Client) (reviews : List SelfSubjectAccessReview)
    (log : List Call) (i : Nat) : Bool :=
  match probeAnswer env kubeClient reviews log i with
  | some (.ok ssar) => ssar.Status.Allowed
  | _ => false

/-- The error probe number `i` is answered with, if it is answered with one. -/
def probeError (env : Env) (kubeClient : Client) (reviews : List SelfSubjectAccessReview)
    (log : List Call) (i : Nat) : Option Err :=
  match probeAnswer env kubeClient reviews log i with
  | some (.error err) => some err
  | _ => none

/-- Probe number `k` is the first one in list order that is denied or answered with an error. -/
def firstFailing (env : Env) (kubeClient : Client) (reviews : List SelfSubjectAccessReview)
    (log : List Call) (k : Nat) : Prop :=
  k < reviews.length ∧ (∀ i, i < k → probeAllowed env kubeClient reviews log i = true) ∧
    probeAllowed env kubeClient reviews log k = false

/-- Every probe of the list is answered allowed, without error. -/
def allAllowed (env : Env) (kubeClient : Client) (reviews : List SelfSubjectAccessReview)
    (log : List Call) : Prop :=
  ∀ i, i < reviews.length → probeAllowed env kubeClient reviews log i = true

/-- The terminal state of a credential check is decided by the probes alone: no condition
exactly when every probe is allowed, the reason `unauthorized` exactly when the first failing
probe was denied without error, the reason `errored` exactly when it returned an error. -/
def decidedByProbes (result : Option Condition) (env : Env) (kubeClient : Client)
    (reviews : List SelfSubjectAccessReview) (log : List Call)
    (unauthorized errored : String) : Prop :=
  (result = none ↔ allAllowed env kubeClient reviews log) ∧
  ((∃ cond, result = some cond ∧ cond.Reason = unauthorized) ↔
    ∃ k, firstFailing env kubeClient reviews log k ∧
      probeError env kubeClient reviews log k = none) ∧
  ((∃ cond, result = some cond ∧ cond.Reason = errored) ↔
    ∃ k, firstFailing env kubeClient reviews log k ∧
      (probeError env kubeClient reviews log k).isSome = true)

/-- The status writes recorded in a call log, in order. -/
def statusWrites (log : List Call) : List (String × Condition) :=
  log.filterMap fun call =>
    match call with
    | .updateStatus klusterletName cond => some (klusterletName, cond)
    | _ => none

/-- The delayed re-adds recorded in a call log, in order. -/
def requeues (log : List Call) : List (String × Nat) :=
  log.filterMap fun call =>
    match call with
    | .addAfter key delay => some (key, delay)
    | _ => none

/-- The call is part of probing a credential: a secret fetch, a client construction or a
permission probe. -/
def isCredentialCall : Call → Bool
  | .secretGet _ _ => true
  | .buildClient _ _ => true
  | .ssarCreate _ _ => true
  | _ => false

/-- The condition the goroutine writes when the hub-config check is functional. -/
def hubConnectionFunctionalCondition : Condition :=
  { Type_ := hubConnectionDegraded
    Status := ConditionFalse
    Reason := "HubConnectionFunctional"
    Message := "Hub connection is functioning correctly" }

/-- The delayed re-add that follows a status write: present exactly when the write returned
an error. -/
def requeueAfterWrite (env : Env) (klusterletName : String) (cond : Condition)
    (log : List Call) : List Call :=
  if (env.UpdateKlusterletStatus log klusterletName cond).isSome then
    [Call.addAfter klusterletName SSARReSyncTime]
  else []

/-- The value of the variable `hubConfigDegradedCondition` in the goroutine, with the call
log after the hub-config check. -/
def hubConfigDegradedCondition (env : Env) (klusterlet : Klusterlet) (log : List Call) :
    Condition × List Call :=
  checkAgentDegradedCondition hubConfigSecret hubConfigSecretDegraded (agentOf klusterlet)
    [checkHubConfigSecret env] log

/-- The value of the variable `bootstrapDegradedCondition` in the goroutine, evaluated after
the hub-config check, with the call log after the bootstrap check. -/
def bootstrapDegradedCondition (env : Env) (klusterlet : Klusterlet) (log : List Call) :
    Condition × List Call :=
  checkAgentDegradedCondition bootstrapSecret bootstrapSecretDegraded (agentOf klusterlet)
    [checkBootstrapSecret env] (hubConfigDegradedCondition env klusterlet log).2

/-- The merged condition the goroutine writes when the hub-config check is not functional. -/
def mergedDegradedCondition (env : Env) (klusterlet : Klusterlet) (log : List Call) :
    Condition :=
  { Type_ := hubConnectionDegraded
    Status := ConditionTrue
    Reason := (bootstrapDegradedCondition env klusterlet log).1.Reason ++ "," ++
      (hubConfigDegradedCondition env klusterlet log).1.Reason
    Message := (bootstrapDegradedCondition env klusterlet log).1.Message ++ "\n" ++
      (hubConfigDegradedCondition env klusterlet log).1.Message }

/-- One operation on the guard by some sync call or goroutine. -/
inductive GuardOp where
  | add (klusterletName : String)
  | delete (klusterletName : String)
deriving DecidableEq, Repr

/-- The guard after one operation. -/
def applyGuardOp (l : klusterletLocker) : GuardOp → klusterletLocker
  | .add k => addSSARChecking l k
  | .delete k => deleteSSARChecking l k

/-- The guard after a sequence of operations, oldest first. -/
def applyGuardOps (l : klusterletLocker) (ops : List GuardOp) : klusterletLocker :=
  ops.foldl applyGuardOp l

/-- Where one call of `sync` and the goroutine it starts stand between their lock-protected
steps: before `c.inSSARChecking` (line 115), between the check and `c.addSSARChecking` (line
121), after the insert with the goroutine started and its run in flight, after the run with
the deferred `c.deleteSSARChecking` (line 123) done, or returned after the delayed re-add
without a run. -/
inductive SyncPc where
  | atCheck
  | atAdd
  | started
  | finished
  | requeued
deriving DecidableEq, Repr

/-- One lock-protected step of a call of `sync` for `klusterletName` and of its goroutine:
`inSSARChecking` holds the read lock for the membership test only, `addSSARChecking` takes the
write lock afterwards for the insert only, and the goroutine, when its run is over, takes the
write lock once more for the deferred `deleteSSARChecking`. -/
def stepSync (klusterletName : String) (l : klusterletLocker) :
    SyncPc → klusterletLocker × SyncPc
  | .atCheck => if inSSARChecking l klusterletName then (l, .requeued) else (l, .atAdd)
  | .atAdd => (addSSARChecking l klusterletName, .started)
  | .started => (deleteSSARChecking l klusterletName, .finished)
  | .finished => (l, .finished)
  | .requeued => (l, .requeued)

/-- Two calls of `sync` for the same key, with their goroutines, sharing one guard. -/
structure TwoSyncs where
  locker : klusterletLocker
  first : SyncPc
  second : SyncPc
deriving DecidableEq

/-- One step of the interleaving: the first call moves when `firstMoves`, else the second. -/
def stepTwoSyncs (klusterletName : String) (s : TwoSyncs) (firstMoves : Bool) : TwoSyncs :=
  if firstMoves then
    { s with locker := (stepSync klusterletName s.locker s.first).1
             first := (stepSync klusterletName s.locker s.first).2 }
  else
    { s with locker := (stepSync klusterletName s.locker s.second).1
             second := (stepSync klusterletName s.locker s.second).2 }

/-- The two calls run under a schedule that says which call takes each next step. -/
def runSchedule (klusterletName : String) (schedule : List Bool) (s : TwoSyncs) : TwoSyncs :=
  schedule.foldl (stepTwoSyncs klusterletName) s

/-- Both calls of `sync` have started a guarded run and neither run is over: two runs for
the key are in flight at once. -/
def bothStarted (s : TwoSyncs) : Prop :=
  s.first = SyncPc.started ∧ s.second = SyncPc.started

/-- The probe that asks about exactly the given resource attributes and carries no answer
yet. -/
def probeFor (attrs : ResourceAttributes) : SelfSubjectAccessReview :=
  { Spec := { ResourceAttributes := some attrs } }

/-- The results of the check functions when each is called once, in list order, on the call
log the one before it left behind. -/
def checkResults (agent : klusterletAgent) :
    List degradedCheckFunc → List Call → List (Option Condition)
  | [], _ => []
  | degradedCheckFn :: rest, log =>
    (degradedCheckFn agent log).1 :: checkResults agent rest (degradedCheckFn agent log).2

/-- The call log after each check function has been called once, in list order. -/
def checkLog (agent : klusterletAgent) (degradedCheckFns : List degradedCheckFunc)
    (log : List Call) : List Call :=
  degradedCheckFns.foldl (fun log1 degradedCheckFn => (degradedCheckFn agent log1).2) log

/-- The conditions among the check results that are not nil, in check order. -/
def degradedResults (agent : klusterletAgent) (degradedCheckFns : List degradedCheckFunc)
    (log : List Call) : List Condition :=
  (checkResults agent degradedCheckFns log).filterMap id

/-- The secret fetches recorded in a call log, in order: namespace and name. -/
def secretFetches (log : List Call) : List (String × String) :=
  log.filterMap fun call =>
    match call with
    | .secretGet ns name => some (ns, name)
    | _ => none

/-- The namespace the guarded run probes in: the namespace of the klusterlet spec, or
`klusterletNamespace` when the spec names none. -/
def probeNamespace (klusterlet : Klusterlet) : String :=
  if klusterlet.Spec.Namespace = "" then "open-cluster-management-agent"
  else klusterlet.Spec.Namespace

/-- The error of a call whose context was cancelled. -/
def contextCanceled : Err := { notFound := false, msg := "context canceled" }

/-- The context handed to the network calls is cancelled when the call log is `cancelPoint`,
and a cancelled context stays cancelled: every secret fetch, every permission probe and every
status write made on a call log that extends `cancelPoint` honours the cancellation and fails
with `contextCanceled`. -/
def cancelledAt (env : Env) (cancelPoint : List Call) : Prop :=
  ∀ log, cancelPoint <+: log →
    (∀ ns name, env.secretGet log ns name = .error contextCanceled) ∧
    (∀ client review, env.ssarCreate log client review = .error contextCanceled) ∧
    (∀ klusterletName cond,
      env.UpdateKlusterletStatus log klusterletName cond = some contextCanceled)

/-- The status writes among `calls` that took effect, when `calls` were made after the calls
`before`: a call of `helpers.UpdateKlusterletStatus` changes the stored conditions exactly
when it returns no error. -/
def storedWritesFrom (env : Env) : List Call → List Call → List (String × Condition)
  | _, [] => []
  | before, call :: rest =>
    (match call with
      | .updateStatus klusterletName cond =>
        if (env.UpdateKlusterletStatus before klusterletName cond).isNone then
          [(klusterletName, cond)]
        else []
      | _ => []) ++ storedWritesFrom env (before ++ [call]) rest

/-- The status writes of a call log that took effect, in order: what has been stored. -/
def storedWrites (env : Env) (log : List Call) : List (String × Condition) :=
  storedWritesFrom env [] log

/-- The call log of the guarded run when its probes are over, right before its status write:
after the hub-config check on the hub-functional path, after the bootstrap check on the
degraded path. -/
def logBeforeWrite (env : Env) (klusterlet : Klusterlet) (log : List Call) : List Call :=
  if (checkHubConfigSecret env (agentOf klusterlet) log).1 = none then
    (checkHubConfigSecret env (agentOf klusterlet) log).2
  else (bootstrapDegradedCondition env klusterlet log).2

/-! ## Concrete collaborators for worked examples -/

/-- A formatter for the worked examples: `%q` puts double quotes around the string. -/
def exampleFmt : Fmt :=
  { q := fun s => "\"" ++ s ++ "\""
    errV := fun e => e.msg
    reviewV := fun r => (r.bind fun x => x.Spec.ResourceAttributes.map fun a => a.Verb).getD "nil"
    attrsV := fun a => (a.map fun x => x.Verb).getD "nil" }

/-- The verb a review asks about, `""` when it carries no resource attributes. -/
def verbOf (review : SelfSubjectAccessReview) : String :=
  (review.Spec.ResourceAttributes.map fun a => a.Verb).getD ""

/-- The secret of the worked examples: a kubeconfig and the cluster name `cluster1`. -/
def exampleSecret (ns n : String) : Secret :=
  { Namespace := ns, Name := n
    Data := fun k =>
      if k = "kubeconfig" then some "config"
      else if k = "cluster-name" then some "cluster1" else none }

/-- An environment for the worked examples.  The secrets named in `missing` cannot be
fetched; every other secret holds a kubeconfig and the cluster name `cluster1`.  The
permission check answers with an error for the verb `erroredVerb`, denies the verb
`deniedVerb` and allows every other verb.  The status write fails exactly when `writeFails`. -/
def exampleEnv (missing : List String) (deniedVerb erroredVerb : String) (writeFails : Bool) :
    Env :=
  { fmt := exampleFmt
    BootstrapHubKubeConfig := "bootstrap-hub-kubeconfig"
    HubKubeConfig := "hub-kubeconfig-secret"
    klusterletGet := fun _ n => .ok { Name := n }
    secretGet := fun _ ns n =>
      if n ∈ missing then .error { notFound := true, msg := "not found" }
      else .ok (exampleSecret ns n)
    LoadClientConfigFromSecret := fun _ => .ok { Host := "https://hub:443" }
    NewForConfig := fun _ => .ok { handle := 0 }
    ssarCreate := fun _ _ r =>
      if verbOf r = erroredVerb then .error { notFound := false, msg := "timeout" }
      else .ok { r with Status := { Allowed := decide (verbOf r ≠ deniedVerb) } }
    UpdateKlusterletStatus := fun _ _ _ =>
      if writeFails then some { notFound := false, msg := "conflict" } else none }

/-- An environment whose context is cancelled once `n` calls are on the call log.  Until
then the secrets are those of the worked examples, every probe is allowed and the status
write succeeds; from then on every secret fetch, every permission probe and the status write
fail with `contextCanceled`, all of them being handed the same context. -/
def cancelledAfterEnv (n : Nat) : Env :=
  { exampleEnv [] "none" "none" false with
    secretGet := fun log ns name =>
      if n ≤ log.length then .error contextCanceled else .ok (exampleSecret ns name)
    ssarCreate := fun log _ r =>
      if n ≤ log.length then .error contextCanceled
      else .ok { r with Status := { Allowed := true } }
    UpdateKlusterletStatus := fun log _ _ =>
      if n ≤ log.length then some contextCanceled else none }

/-- An environment whose secrets exist but hold no data at all. -/
def emptySecretEnv : Env :=
  { exampleEnv [] "none" "none" false with
    secretGet := fun _ ns n => .ok { Namespace := ns, Name := n, Data := fun _ => none } }

/-- An environment whose loaded configuration carries a high rate ceiling (QPS 100, burst
200) and whose client constructor reports in the handle whether the configuration it was
given has QPS 2 and burst 5.  A secret without kubeconfig cannot be loaded. -/
def throttleEnv : Env :=
  { exampleEnv [] "none" "none" false with
    LoadClientConfigFromSecret := fun secret =>
      if secret.Data "kubeconfig" = none then
        .error { notFound := false, msg := "unable to find kubeconfig" }
      else .ok { Host := "https://hub:443", QPS := 100, Burst := 200 }
    NewForConfig := fun restConfig =>
      .ok { handle := if restConfig.QPS = 2 ∧ restConfig.Burst = 5 then 1 else 0 } }

/-- A check function that reports the given reason and message and logs one secret fetch. -/
def failingCheck (reason message : String) : degradedCheckFunc :=
  fun agent log =>
    (some { Reason := reason, Message := message }, log ++ [Call.secretGet agent.namespace_ reason])

/-- A check function that reports nothing and logs one secret fetch. -/
def passingCheck (name : String) : degradedCheckFunc :=
  fun agent log => (none, log ++ [Call.secretGet agent.namespace_ name])

/-- An environment whose klusterlet lookup fails for every key with an error that is not
`NotFound`. -/
def listerDownEnv : Env :=
  { exampleEnv [] "none" "none" false with
    klusterletGet := fun _ _ => .error { notFound := false, msg := "lister unavailable" } }

/-! ## Helper lemmas on the probe loop -/

theorem probeAnswer_zero (env : Env) (c : Client) (r : SelfSubjectAccessReview)
    (rs : List SelfSubjectAccessReview) (log : List Call) :
    probeAnswer env c (r :: rs) log 0 = some (env.ssarCreate log c r) := by
  simp [probeAnswer, submitted]

theorem probeAnswer_succ (env : Env) (c : Client) (r : SelfSubjectAccessReview)
    (rs : List SelfSubjectAccessReview) (log : List Call) (i : Nat) :
    probeAnswer env c (r :: rs) log (i + 1) =
      probeAnswer env c rs (log ++ [Call.ssarCreate c r]) i := by
  simp [probeAnswer, submitted]

theorem probeAllowed_succ (env : Env) (c : Client) (r : SelfSubjectAccessReview)
    (rs : List SelfSubjectAccessReview) (log : List Call) (i : Nat) :
    probeAllowed env c (r :: rs) log (i + 1) =
      probeAllowed env c rs (log ++ [Call.ssarCreate c r]) i := by
  simp [probeAllowed, probeAnswer_succ]

theorem probeError_succ (env : Env) (c : Client) (r : SelfSubjectAccessReview)
    (rs : List SelfSubjectAccessReview) (log : List Call) (i : Nat) :
    probeError env c (r :: rs) log (i + 1) =
      probeError env c rs (log ++ [Call.ssarCreate c r]) i := by
  simp [probeError, probeAnswer_succ]

theorem allAllowed_cons (env : Env) (c : Client) (r : SelfSubjectAccessReview)
    (rs : List SelfSubjectAccessReview) (log : List Call) :
    allAllowed env c (r :: rs) log ↔
      probeAllowed env c (r :: rs) log 0 = true ∧
        allAllowed env c rs (log ++ [Call.ssarCreate c r]) := by
  constructor
  · intro h
    refine ⟨h 0 (by simp), fun i hi => ?_⟩
    rw [← probeAllowed_succ]
    exact h (i + 1) (by simpa using hi)
  · rintro ⟨h0, hrest⟩ i hi
    cases i with
    | zero => exact h0
    | succ j =>
      rw [probeAllowed_succ]
      exact hrest j (by simpa using hi)

theorem firstFailing_succ (env : Env) (c : Client) (r : SelfSubjectAccessReview)
    (rs : List SelfSubjectAccessReview) (log : List Call) (k : Nat) :
    firstFailing env c (r :: rs) log (k + 1) ↔
      probeAllowed env c (r :: rs) log 0 = true ∧
        firstFailing env c rs (log ++ [Call.ssarCreate c r]) k := by
  constructor
  · rintro ⟨hk, hbefore, hfail⟩
    refine ⟨hbefore 0 (by omega), by simpa using hk, fun i hi => ?_, ?_⟩
    · rw [← probeAllowed_succ]
      exact hbefore (i + 1) (by omega)
    · rw [← probeAllowed_succ]
      exact hfail
  · rintro ⟨h0, hk, hbefore, hfail⟩
    refine ⟨by simpa using hk, fun i hi => ?_, ?_⟩
    · cases i with
      | zero => exact h0
      | succ j =>
        rw [probeAllowed_succ]
        exact hbefore j (by omega)
    · rw [probeAllowed_succ]
      exact hfail

/-- The loop, characterised: either every probe is allowed and the whole list was submitted,
or there is a first failing probe `k`, the probes up to and including `k` were submitted, and
the result carries probe `k` and its error. -/
theorem createSelfSubjectAccessReviews_cases (env : Env) (c : Client)
    (reviews : List SelfSubjectAccessReview) (log : List Call) :
    (allAllowed env c reviews log ∧
      createSelfSubjectAccessReviews env c reviews log =
        ((true, none, none), log ++ submitted c reviews)) ∨
    (∃ k, firstFailing env c reviews log k ∧
      createSelfSubjectAccessReviews env c reviews log =
        ((false, reviews[k]?, probeError env c reviews log k),
          log ++ submitted c (reviews.take (k + 1)))) := by
  induction reviews generalizing log with
  | nil =>
    left
    exact ⟨fun i hi => absurd hi (by simp), by simp [createSelfSubjectAccessReviews, submitted]⟩
  | cons r rs ih =>
    cases hans : env.ssarCreate log c r with
    | error err =>
      right
      refine ⟨0, ⟨by simp, fun i hi => absurd hi (by omega), ?_⟩, ?_⟩
      · simp [probeAllowed, probeAnswer_zero, hans]
      · simp [createSelfSubjectAccessReviews, hans, probeError, probeAnswer_zero, submitted]
    | ok ssar =>
      cases hal : ssar.Status.Allowed with
      | false =>
        right
        refine ⟨0, ⟨by simp, fun i hi => absurd hi (by omega), ?_⟩, ?_⟩
        · simp [probeAllowed, probeAnswer_zero, hans, hal]
        · simp [createSelfSubjectAccessReviews, hans, hal, probeError, probeAnswer_zero,
            submitted]
      | true =>
        have h0 : probeAllowed env c (r :: rs) log 0 = true := by
          simp [probeAllowed, probeAnswer_zero, hans, hal]
        have hstep : createSelfSubjectAccessReviews env c (r :: rs) log =
            createSelfSubjectAccessReviews env c rs (log ++ [Call.ssarCreate c r]) := by
          simp [createSelfSubjectAccessReviews, hans, hal]
        rcases ih (log ++ [Call.ssarCreate c r]) with ⟨hall, hres⟩ | ⟨k, hk, hres⟩
        · left
          refine ⟨(allAllowed_cons env c r rs log).2 ⟨h0, hall⟩, ?_⟩
          rw [hstep, hres]
          simp [submitted]
        · right
          refine ⟨k + 1, (firstFailing_succ env c r rs log k).2 ⟨h0, hk⟩, ?_⟩
          rw [hstep, hres, probeError_succ]
          simp [submitted]

/-- The first failing probe is unique. -/
theorem firstFailing_unique (env : Env) (c : Client) (reviews : List SelfSubjectAccessReview)
    (log : List Call) (k k2 : Nat) (h : firstFailing env c reviews log k)
    (h2 : firstFailing env c reviews log k2) : k = k2 := by
  rcases Nat.lt_trichotomy k k2 with hlt | heq | hgt
  · have := h2.2.1 k hlt
    rw [h.2.2] at this
    exact absurd this (by simp)
  · exact heq
  · have := h.2.1 k2 hgt
    rw [h2.2.2] at this
    exact absurd this (by simp)

/-- A first failing probe excludes that all probes are allowed. -/
theorem firstFailing_not_allAllowed (env : Env) (c : Client)
    (reviews : List SelfSubjectAccessReview) (log : List Call) (k : Nat)
    (h : firstFailing env c reviews log k) : ¬ allAllowed env c reviews log := by
  intro hall
  have := hall k h.1
  rw [h.2.2] at this
  exact absurd this (by simp)

/-! ## C1, C2: the probe loop -/

/-- C1: `createSelfSubjectAccessReviews` submits the probes in list order and stops at the
first probe that is denied or answered with an error: when probe `k` is the first failing
one the calls it adds to the log are exactly the probes `0..k` in list order, when every
probe is allowed they are the whole list in order, and one of the two cases always holds. -/
theorem createSelfSubjectAccessReviews_submits_until_first_failure (env : Env) (c : Client)
    (reviews : List SelfSubjectAccessReview) (log : List Call) :
    (∀ k, firstFailing env c reviews log k →
      (createSelfSubjectAccessReviews env c reviews log).2 =
        log ++ submitted c (reviews.take (k + 1))) ∧
    (allAllowed env c reviews log →
      (createSelfSubjectAccessReviews env c reviews log).2 = log ++ submitted c reviews) ∧
    (allAllowed env c reviews log ∨ ∃ k, firstFailing env c reviews log k) := by
  rcases createSelfSubjectAccessReviews_cases env c reviews log with ⟨hall, hres⟩ | ⟨k, hk, hres⟩
  · refine ⟨fun k2 hk2 => ?_, fun _ => by rw [hres], Or.inl hall⟩
    exact absurd hall (firstFailing_not_allAllowed env c reviews log k2 hk2)
  · refine ⟨fun k2 hk2 => ?_, fun hall => ?_, Or.inr ⟨k, hk⟩⟩
    · rw [hres, firstFailing_unique env c reviews log k2 k hk2 hk]
    · exact absurd hall (firstFailing_not_allAllowed env c reviews log k hk)

/-- Worked example for C1: with `get` denied, the second bootstrap probe is the first failing
one and exactly the first two bootstrap probes are submitted. -/
theorem createSelfSubjectAccessReviews_submits_until_first_failure_witness :
    firstFailing (exampleEnv [] "get" "none" false) ⟨0⟩ getBootstrapSSARs [] 1 ∧
    (createSelfSubjectAccessReviews (exampleEnv [] "get" "none" false) ⟨0⟩ getBootstrapSSARs
        []).2 = [] ++ submitted ⟨0⟩ (getBootstrapSSARs.take (1 + 1)) :=
  have h : firstFailing (exampleEnv [] "get" "none" false) ⟨0⟩ getBootstrapSSARs [] 1 := by
    unfold firstFailing
    decide
  ⟨h, (createSelfSubjectAccessReviews_submits_until_first_failure
    (exampleEnv [] "get" "none" false) ⟨0⟩ getBootstrapSSARs []).1 1 h⟩

/-- C2: `createSelfSubjectAccessReviews` returns `(true, nil, nil)` exactly when every probe
is answered allowed without error, in particular for the empty list; otherwise it returns
`allowed = false` with the first failing probe of the list, and the error it returns is the
error that probe was answered with, nil when the probe was denied without error. -/
theorem createSelfSubjectAccessReviews_result (env : Env) (c : Client)
    (reviews : List SelfSubjectAccessReview) (log : List Call) :
    ((createSelfSubjectAccessReviews env c reviews log).1 = (true, none, none) ↔
      allAllowed env c reviews log) ∧
    (createSelfSubjectAccessReviews env c [] log).1 = (true, none, none) ∧
    (∀ k, firstFailing env c reviews log k →
      ∃ review, reviews[k]? = some review ∧
        (createSelfSubjectAccessReviews env c reviews log).1 =
          (false, some review, probeError env c reviews log k) ∧
        (probeError env c reviews log k = none ↔
          ∃ ssar, probeAnswer env c reviews log k = some (.ok ssar) ∧
            ssar.Status.Allowed = false)) ∧
    (allAllowed env c reviews log ∨ ∃ k, firstFailing env c reviews log k) := by
  have hfail : ∀ k, firstFailing env c reviews log k →
      ∃ review, reviews[k]? = some review ∧
        (probeError env c reviews log k = none ↔
          ∃ ssar, probeAnswer env c reviews log k = some (.ok ssar) ∧
            ssar.Status.Allowed = false) := by
    intro k hk
    obtain ⟨hlen, -, hdenied⟩ := hk
    refine ⟨reviews[k], List.getElem?_eq_getElem hlen, ?_⟩
    unfold probeAllowed at hdenied
    unfold probeError
    cases hans : probeAnswer env c reviews log k with
    | none => simp [probeAnswer, List.getElem?_eq_getElem hlen] at hans
    | some ans =>
      cases ans with
      | error err => simp
      | ok ssar =>
        rw [hans] at hdenied
        simpa using hdenied
  rcases createSelfSubjectAccessReviews_cases env c reviews log with ⟨hall, hres⟩ | ⟨k, hk, hres⟩
  · refine ⟨⟨fun _ => hall, fun _ => by rw [hres]⟩, rfl, fun k2 hk2 => ?_, Or.inl hall⟩
    exact absurd hall (firstFailing_not_allAllowed env c reviews log k2 hk2)
  · refine ⟨⟨fun h => ?_, fun hall => ?_⟩, rfl, fun k2 hk2 => ?_, Or.inr ⟨k, hk⟩⟩
    · rw [hres] at h
      simp at h
    · exact absurd hall (firstFailing_not_allAllowed env c reviews log k hk)
    · obtain ⟨review, hrev, hiff⟩ := hfail k2 hk2
      have hkk := firstFailing_unique env c reviews log k2 k hk2 hk
      refine ⟨review, hrev, ?_, hiff⟩
      rw [hres, ← hkk, hrev]

/-- Worked example for C2: with `list` answered by an error, the fifth bootstrap probe is the
first failing one, and the result is `allowed = false` with that probe and the error. -/
theorem createSelfSubjectAccessReviews_result_witness :
    firstFailing (exampleEnv [] "none" "list" false) ⟨0⟩ getBootstrapSSARs [] 4 ∧
    ∃ review, getBootstrapSSARs[4]? = some review ∧
      (createSelfSubjectAccessReviews (exampleEnv [] "none" "list" false) ⟨0⟩ getBootstrapSSARs
        []).1 = (false, some review,
          probeError (exampleEnv [] "none" "list" false) ⟨0⟩ getBootstrapSSARs [] 4) ∧
      (probeError (exampleEnv [] "none" "list" false) ⟨0⟩ getBootstrapSSARs [] 4 = none ↔
        ∃ ssar, probeAnswer (exampleEnv [] "none" "list" false) ⟨0⟩ getBootstrapSSARs [] 4 =
          some (.ok ssar) ∧ ssar.Status.Allowed = false) :=
  have h : firstFailing (exampleEnv [] "none" "list" false) ⟨0⟩ getBootstrapSSARs [] 4 := by
    unfold firstFailing
    decide
  ⟨h, (createSelfSubjectAccessReviews_result
    (exampleEnv [] "none" "list" false) ⟨0⟩ getBootstrapSSARs []).2.2.1 4 h⟩

/-! ## C5, C6: the credential checks -/

/-- C5: when the fetch of the named secret fails, `checkBootstrapSecret` returns the reason
`BootstrapSecretMissing` and `checkHubConfigSecret` the reason `HubKubeConfigSecretMissing`,
and the only call either makes is the secret fetch: no client construction, no probe. -/
theorem check_secret_missing_short_circuit (env : Env) (agent : klusterletAgent)
    (log : List Call) :
    (∀ err, env.secretGet log agent.namespace_ env.BootstrapHubKubeConfig = .error err →
      ∃ cond, cond.Reason = "BootstrapSecretMissing" ∧
        checkBootstrapSecret env agent log =
          (some cond, log ++ [Call.secretGet agent.namespace_ env.BootstrapHubKubeConfig])) ∧
    (∀ err, env.secretGet log agent.namespace_ env.HubKubeConfig = .error err →
      ∃ cond, cond.Reason = "HubKubeConfigSecretMissing" ∧
        checkHubConfigSecret env agent log =
          (some cond, log ++ [Call.secretGet agent.namespace_ env.HubKubeConfig])) := by
  constructor
  · intro err h
    simp [checkBootstrapSecret, h]
  · intro err h
    simp [checkHubConfigSecret, h]

/-- Worked example for C5: with the bootstrap secret missing, the bootstrap check reports
`BootstrapSecretMissing` after the single fetch. -/
theorem check_secret_missing_short_circuit_witness :
    (exampleEnv ["bootstrap-hub-kubeconfig"] "none" "none" false).secretGet []
        "ns1" "bootstrap-hub-kubeconfig" = .error { notFound := true, msg := "not found" } ∧
    ∃ cond, cond.Reason = "BootstrapSecretMissing" ∧
      checkBootstrapSecret (exampleEnv ["bootstrap-hub-kubeconfig"] "none" "none" false)
          { clusterName := "", namespace_ := "ns1" } [] =
        (some cond, [] ++ [Call.secretGet "ns1" "bootstrap-hub-kubeconfig"]) :=
  ⟨rfl, (check_secret_missing_short_circuit
    (exampleEnv ["bootstrap-hub-kubeconfig"] "none" "none" false)
    { clusterName := "", namespace_ := "ns1" } []).1
      { notFound := true, msg := "not found" } rfl⟩

/-- A result of the probe loop mapped to a condition the way both checks do it is decided by
the probes. -/
theorem decidedByProbes_of_loop (env : Env) (c : Client)
    (reviews : List SelfSubjectAccessReview) (log : List Call) (unauthorized errored : String)
    (hne : unauthorized ≠ errored) (result : Option Condition)
    (hall : ∀ log3, createSelfSubjectAccessReviews env c reviews log = ((true, none, none), log3) →
      result = none)
    (hdenied : ∀ review log3,
      createSelfSubjectAccessReviews env c reviews log = ((false, review, none), log3) →
      ∃ cond, result = some cond ∧ cond.Reason = unauthorized)
    (herr : ∀ review err log3,
      createSelfSubjectAccessReviews env c reviews log = ((false, review, some err), log3) →
      ∃ cond, result = some cond ∧ cond.Reason = errored) :
    decidedByProbes result env c reviews log unauthorized errored := by
  rcases createSelfSubjectAccessReviews_cases env c reviews log with ⟨hA, hres⟩ | ⟨k, hk, hres⟩
  · have hnone := hall _ hres
    have hno : ∀ k, ¬ firstFailing env c reviews log k := fun k hk =>
      firstFailing_not_allAllowed env c reviews log k hk hA
    refine ⟨⟨fun _ => hA, fun _ => hnone⟩, ⟨?_, ?_⟩, ⟨?_, ?_⟩⟩
    · rintro ⟨cond, h, -⟩
      rw [hnone] at h
      exact absurd h (by simp)
    · rintro ⟨k, hk, -⟩
      exact absurd hk (hno k)
    · rintro ⟨cond, h, -⟩
      rw [hnone] at h
      exact absurd h (by simp)
    · rintro ⟨k, hk, -⟩
      exact absurd hk (hno k)
  · have hnotall := firstFailing_not_allAllowed env c reviews log k hk
    cases hpe : probeError env c reviews log k with
    | none =>
      rw [hpe] at hres
      obtain ⟨cond, hcond, hreason⟩ := hdenied _ _ hres
      refine ⟨⟨fun h => ?_, fun h => absurd h hnotall⟩, ⟨fun _ => ⟨k, hk, hpe⟩,
        fun _ => ⟨cond, hcond, hreason⟩⟩, ⟨?_, ?_⟩⟩
      · rw [hcond] at h
        exact absurd h (by simp)
      · rintro ⟨cond2, h2, hr2⟩
        rw [hcond] at h2
        have : cond = cond2 := by simpa using h2
        rw [← this, hreason] at hr2
        exact absurd hr2 hne
      · rintro ⟨k2, hk2, hsome⟩
        rw [firstFailing_unique env c reviews log k2 k hk2 hk, hpe] at hsome
        exact absurd hsome (by simp)
    | some err =>
      rw [hpe] at hres
      obtain ⟨cond, hcond, hreason⟩ := herr _ _ _ hres
      refine ⟨⟨fun h => ?_, fun h => absurd h hnotall⟩, ⟨?_, ?_⟩,
        ⟨fun _ => ⟨k, hk, by simp [hpe]⟩, fun _ => ⟨cond, hcond, hreason⟩⟩⟩
      · rw [hcond] at h
        exact absurd h (by simp)
      · rintro ⟨cond2, h2, hr2⟩
        rw [hcond] at h2
        have : cond = cond2 := by simpa using h2
        rw [← this, hreason] at hr2
        exact absurd hr2.symm hne
      · rintro ⟨k2, hk2, hnone⟩
        rw [firstFailing_unique env c reviews log k2 k hk2 hk, hpe] at hnone
        exact absurd hnone (by simp)

/-- C6: for both credential roles, once the secret fetch, the required-field checks and the
client construction have succeeded, the outcome of the check is decided by the probes alone:
no condition exactly when every probe of the role is allowed, the role's `Unauthorized`
reason exactly when the first failing probe was denied without error, and the role's `Error`
reason exactly when the first failing probe returned an error. -/
theorem check_decided_by_probes (env : Env) (agent : klusterletAgent) (log : List Call) :
    (∀ secret client,
      env.secretGet log agent.namespace_ env.BootstrapHubKubeConfig = .ok secret →
      buildKubeClientWithSecret env secret = .ok client →
      decidedByProbes (checkBootstrapSecret env agent log).1 env client getBootstrapSSARs
        (log ++ [Call.secretGet agent.namespace_ env.BootstrapHubKubeConfig,
          Call.buildClient secret.Namespace secret.Name])
        "BootstrapSecretUnauthorized" "BootstrapSecretError") ∧
    (∀ secret client clusterName,
      env.secretGet log agent.namespace_ env.HubKubeConfig = .ok secret →
      secret.Data "kubeconfig" ≠ none →
      buildKubeClientWithSecret env secret = .ok client →
      (if agent.clusterName = "" then secret.Data "cluster-name" else some agent.clusterName) =
        some clusterName →
      decidedByProbes (checkHubConfigSecret env agent log).1 env client
        (getHubConfigSSARs clusterName)
        (log ++ [Call.secretGet agent.namespace_ env.HubKubeConfig,
          Call.buildClient secret.Namespace secret.Name])
        "HubKubeConfigUnauthorized" "HubKubeConfigError") := by
  constructor
  · intro secret client hget hbuild
    apply decidedByProbes_of_loop _ _ _ _ _ _ (by decide)
    · intro log3 h
      simp [checkBootstrapSecret, hget, hbuild, h]
    · intro review log3 h
      simp [checkBootstrapSecret, hget, hbuild, h]
    · intro review err log3 h
      simp [checkBootstrapSecret, hget, hbuild, h]
  · intro secret client clusterName hget hkube hbuild hname
    apply decidedByProbes_of_loop _ _ _ _ _ _ (by decide)
    · intro log3 h
      simp [checkHubConfigSecret, hget, hkube, hbuild, hname, h]
    · intro review log3 h
      simp [checkHubConfigSecret, hget, hkube, hbuild, hname, h]
    · intro review err log3 h
      simp [checkHubConfigSecret, hget, hkube, hbuild, hname, h]


/-- Worked example for C6: with `renew` denied, the hub-config check of the example secret is
decided by the probes for the cluster name `cluster1` read from the secret. -/
theorem check_decided_by_probes_witness :
    (exampleEnv [] "renew" "none" false).secretGet [] "ns1" "hub-kubeconfig-secret" =
      .ok (exampleSecret "ns1" "hub-kubeconfig-secret") ∧
    (exampleSecret "ns1" "hub-kubeconfig-secret").Data "kubeconfig" ≠ none ∧
    decidedByProbes
      (checkHubConfigSecret (exampleEnv [] "renew" "none" false)
        { clusterName := "", namespace_ := "ns1" } []).1
      (exampleEnv [] "renew" "none" false) ⟨0⟩ (getHubConfigSSARs "cluster1")
      ([] ++ [Call.secretGet "ns1" "hub-kubeconfig-secret",
        Call.buildClient "ns1" "hub-kubeconfig-secret"])
      "HubKubeConfigUnauthorized" "HubKubeConfigError" :=
  ⟨rfl, by decide, (check_decided_by_probes (exampleEnv [] "renew" "none" false)
    { clusterName := "", namespace_ := "ns1" } []).2
      (exampleSecret "ns1" "hub-kubeconfig-secret") ⟨0⟩ "cluster1" rfl (by decide) rfl rfl⟩

/-! ## Helper lemmas on the checks and the call log -/

theorem intercalate_single (sep x : String) : sep.intercalate [x] = x := by
  simp [String.intercalate, String.intercalate.go]

theorem checkAgentDegradedCondition_single (secretName degradedType : String)
    (agent : klusterletAgent) (f : degradedCheckFunc) (log : List Call) :
    checkAgentDegradedCondition secretName degradedType agent [f] log =
      match f agent log with
      | (none, log1) =>
        ({ Type_ := degradedType, Status := ConditionFalse
           Reason := secretName ++ "Functional"
           Message := secretName ++ " is functioning correctly" }, log1)
      | (some currCond, log1) =>
        ({ Type_ := degradedType, Status := ConditionTrue
           Reason := currCond.Reason, Message := currCond.Message }, log1) := by
  unfold checkAgentDegradedCondition
  rcases hf : f agent log with ⟨cond, log1⟩
  cases cond with
  | none => simp [checkAgentDegradedConditionLoop, hf]
  | some c => simp [checkAgentDegradedConditionLoop, hf, intercalate_single]

theorem createSelfSubjectAccessReviews_log (env : Env) (c : Client)
    (reviews : List SelfSubjectAccessReview) (log : List Call) :
    ∃ rs, (createSelfSubjectAccessReviews env c reviews log).2 = log ++ submitted c rs := by
  rcases createSelfSubjectAccessReviews_cases env c reviews log with ⟨-, hres⟩ | ⟨k, -, hres⟩
  · exact ⟨reviews, by rw [hres]⟩
  · exact ⟨reviews.take (k + 1), by rw [hres]⟩

theorem isCredentialCall_submitted (c : Client) (rs : List SelfSubjectAccessReview) :
    ∀ call ∈ submitted c rs, isCredentialCall call = true := by
  intro call hcall
  simp only [submitted, List.mem_map] at hcall
  obtain ⟨r, -, rfl⟩ := hcall
  rfl

theorem checkBootstrapSecret_log (env : Env) (agent : klusterletAgent) (log : List Call) :
    ∃ calls, (checkBootstrapSecret env agent log).2 = log ++ calls ∧
      ∀ call ∈ calls, isCredentialCall call = true := by
  cases hget : env.secretGet log agent.namespace_ env.BootstrapHubKubeConfig with
  | error e =>
    exact ⟨[Call.secretGet agent.namespace_ env.BootstrapHubKubeConfig],
      by simp [checkBootstrapSecret, hget], by simp [isCredentialCall]⟩
  | ok secret =>
    cases hbuild : buildKubeClientWithSecret env secret with
    | error e =>
      exact ⟨[Call.secretGet agent.namespace_ env.BootstrapHubKubeConfig,
        Call.buildClient secret.Namespace secret.Name],
        by simp [checkBootstrapSecret, hget, hbuild], by simp [isCredentialCall]⟩
    | ok client =>
      obtain ⟨rs, hrs⟩ := createSelfSubjectAccessReviews_log env client getBootstrapSSARs
        (log ++ [Call.secretGet agent.namespace_ env.BootstrapHubKubeConfig,
          Call.buildClient secret.Namespace secret.Name])
      refine ⟨[Call.secretGet agent.namespace_ env.BootstrapHubKubeConfig,
        Call.buildClient secret.Namespace secret.Name] ++ submitted client rs, ?_, ?_⟩
      · rcases hr : createSelfSubjectAccessReviews env client getBootstrapSSARs
          (log ++ [Call.secretGet agent.namespace_ env.BootstrapHubKubeConfig,
            Call.buildClient secret.Namespace secret.Name]) with ⟨⟨a, fr, e⟩, l3⟩
        rw [hr] at hrs
        simp only at hrs
        cases e <;> cases a <;> simp [checkBootstrapSecret, hget, hbuild, hr, hrs]
      · intro call hcall
        rcases List.mem_append.1 hcall with h | h
        · simp at h
          rcases h with rfl | rfl <;> rfl
        · exact isCredentialCall_submitted client rs call h

theorem checkHubConfigSecret_log (env : Env) (agent : klusterletAgent) (log : List Call) :
    ∃ calls, (checkHubConfigSecret env agent log).2 = log ++ calls ∧
      ∀ call ∈ calls, isCredentialCall call = true := by
  cases hget : env.secretGet log agent.namespace_ env.HubKubeConfig with
  | error e =>
    exact ⟨[Call.secretGet agent.namespace_ env.HubKubeConfig],
      by simp [checkHubConfigSecret, hget], by simp [isCredentialCall]⟩
  | ok secret =>
    by_cases hkube : secret.Data "kubeconfig" = none
    · exact ⟨[Call.secretGet agent.namespace_ env.HubKubeConfig],
        by simp [checkHubConfigSecret, hget, hkube], by simp [isCredentialCall]⟩
    cases hbuild : buildKubeClientWithSecret env secret with
    | error e =>
      exact ⟨[Call.secretGet agent.namespace_ env.HubKubeConfig,
        Call.buildClient secret.Namespace secret.Name],
        by simp [checkHubConfigSecret, hget, hkube, hbuild], by simp [isCredentialCall]⟩
    | ok client =>
      cases hname : (if agent.clusterName = "" then secret.Data "cluster-name"
          else some agent.clusterName) with
      | none =>
        exact ⟨[Call.secretGet agent.namespace_ env.HubKubeConfig,
          Call.buildClient secret.Namespace secret.Name],
          by simp [checkHubConfigSecret, hget, hkube, hbuild, hname],
          by simp [isCredentialCall]⟩
      | some clusterName =>
        obtain ⟨rs, hrs⟩ := createSelfSubjectAccessReviews_log env client
          (getHubConfigSSARs clusterName)
          (log ++ [Call.secretGet agent.namespace_ env.HubKubeConfig,
            Call.buildClient secret.Namespace secret.Name])
        refine ⟨[Call.secretGet agent.namespace_ env.HubKubeConfig,
          Call.buildClient secret.Namespace secret.Name] ++ submitted client rs, ?_, ?_⟩
        · rcases hr : createSelfSubjectAccessReviews env client (getHubConfigSSARs clusterName)
            (log ++ [Call.secretGet agent.namespace_ env.HubKubeConfig,
              Call.buildClient secret.Namespace secret.Name]) with ⟨⟨a, fr, e⟩, l3⟩
          rw [hr] at hrs
          simp only at hrs
          cases e <;> cases a <;>
            simp [checkHubConfigSecret, hget, hkube, hbuild, hname, hr, hrs]
        · intro call hcall
          rcases List.mem_append.1 hcall with h | h
          · simp at h
            rcases h with rfl | rfl <;> rfl
          · exact isCredentialCall_submitted client rs call h

theorem statusWrites_append (a b : List Call) :
    statusWrites (a ++ b) = statusWrites a ++ statusWrites b := by
  simp [statusWrites, List.filterMap_append]

theorem statusWrites_credential (calls : List Call)
    (h : ∀ call ∈ calls, isCredentialCall call = true) : statusWrites calls = [] := by
  induction calls with
  | nil => rfl
  | cons c cs ih =>
    have hc := h c (by simp)
    have hcs := ih fun call hcall => h call (by simp [hcall])
    cases c <;> simp_all [statusWrites, isCredentialCall]

theorem statusWrites_requeueAfterWrite (env : Env) (k : String) (cond : Condition)
    (log : List Call) : statusWrites (requeueAfterWrite env k cond log) = [] := by
  unfold requeueAfterWrite
  split <;> simp [statusWrites]

theorem updateStatusOrRequeue_eq (env : Env) (k : String) (cond : Condition)
    (log : List Call) :
    updateStatusOrRequeue env k cond log =
      log ++ [Call.updateStatus k cond] ++ requeueAfterWrite env k cond log := by
  unfold updateStatusOrRequeue requeueAfterWrite
  cases env.UpdateKlusterletStatus log k cond <;> simp

theorem statusWrites_updateStatusOrRequeue (env : Env) (k : String) (cond : Condition)
    (log : List Call) :
    statusWrites (updateStatusOrRequeue env k cond log) = statusWrites log ++ [(k, cond)] := by
  rw [updateStatusOrRequeue_eq, statusWrites_append, statusWrites_append,
    statusWrites_requeueAfterWrite]
  simp [statusWrites]

theorem statusWrites_checkHubConfigSecret (env : Env) (agent : klusterletAgent)
    (log : List Call) :
    statusWrites (checkHubConfigSecret env agent log).2 = statusWrites log := by
  obtain ⟨calls, hlog, hcred⟩ := checkHubConfigSecret_log env agent log
  rw [hlog, statusWrites_append, statusWrites_credential calls hcred, List.append_nil]

theorem statusWrites_checkBootstrapSecret (env : Env) (agent : klusterletAgent)
    (log : List Call) :
    statusWrites (checkBootstrapSecret env agent log).2 = statusWrites log := by
  obtain ⟨calls, hlog, hcred⟩ := checkBootstrapSecret_log env agent log
  rw [hlog, statusWrites_append, statusWrites_credential calls hcred, List.append_nil]

theorem checkAgentDegradedCondition_single_log (secretName degradedType : String)
    (agent : klusterletAgent) (f : degradedCheckFunc) (log : List Call) :
    (checkAgentDegradedCondition secretName degradedType agent [f] log).2 = (f agent log).2 := by
  rw [checkAgentDegradedCondition_single]
  rcases f agent log with ⟨cond, log1⟩
  cases cond <;> rfl

theorem checkAgentDegradedCondition_single_status (secretName degradedType : String)
    (agent : klusterletAgent) (f : degradedCheckFunc) (log : List Call) :
    (checkAgentDegradedCondition secretName degradedType agent [f] log).1.Status =
        ConditionFalse ↔ (f agent log).1 = none := by
  rw [checkAgentDegradedCondition_single]
  rcases f agent log with ⟨cond, log1⟩
  cases cond <;> simp [ConditionTrue, ConditionFalse]

/-! ## C3, C4: the composite condition -/

/-- C3: when the hub-config check comes back functional (`checkHubConfigSecret` returns nil,
so the hub-config degraded condition has status `False`), the guarded run makes no call after
the hub-config check other than one status write and, if that write fails, the delayed re-add:
no bootstrap secret fetch, client construction or permission probe; and the only condition the
run writes is `HubConnectionDegraded` with status `False` and reason
`HubConnectionFunctional`. -/
theorem hub_functional_skips_bootstrap (env : Env) (klusterletName : String)
    (klusterlet : Klusterlet) (log : List Call)
    (h : (checkHubConfigSecret env (agentOf klusterlet) log).1 = none) :
    (checkAgentDegradedCondition hubConfigSecret hubConfigSecretDegraded (agentOf klusterlet)
      [checkHubConfigSecret env] log).1.Status = ConditionFalse ∧
    syncGoroutineBody env klusterletName klusterlet log =
      (checkHubConfigSecret env (agentOf klusterlet) log).2 ++
        [Call.updateStatus klusterletName hubConnectionFunctionalCondition] ++
        requeueAfterWrite env klusterletName hubConnectionFunctionalCondition
          (checkHubConfigSecret env (agentOf klusterlet) log).2 ∧
    (∀ call ∈ (syncGoroutineBody env klusterletName klusterlet log).drop
        (checkHubConfigSecret env (agentOf klusterlet) log).2.length,
      isCredentialCall call = false) ∧
    statusWrites (syncGoroutineBody env klusterletName klusterlet log) =
      statusWrites log ++ [(klusterletName, hubConnectionFunctionalCondition)] ∧
    hubConnectionFunctionalCondition.Type_ = "HubConnectionDegraded" ∧
    hubConnectionFunctionalCondition.Status = "False" ∧
    hubConnectionFunctionalCondition.Reason = "HubConnectionFunctional" := by
  have hstatus := (checkAgentDegradedCondition_single_status hubConfigSecret
    hubConfigSecretDegraded (agentOf klusterlet) (checkHubConfigSecret env) log).2 h
  have hlog := checkAgentDegradedCondition_single_log hubConfigSecret
    hubConfigSecretDegraded (agentOf klusterlet) (checkHubConfigSecret env) log
  have hbody : syncGoroutineBody env klusterletName klusterlet log =
      updateStatusOrRequeue env klusterletName hubConnectionFunctionalCondition
        (checkHubConfigSecret env (agentOf klusterlet) log).2 := by
    unfold syncGoroutineBody
    rw [← hlog]
    simp only [hstatus, if_true]
    rfl
  refine ⟨hstatus, ?_, ?_, ?_, rfl, rfl, rfl⟩
  · rw [hbody, updateStatusOrRequeue_eq]
  · rw [hbody, updateStatusOrRequeue_eq, List.append_assoc, List.drop_left]
    intro call hcall
    unfold requeueAfterWrite at hcall
    split at hcall <;> simp at hcall <;> rcases hcall with rfl | rfl <;> rfl
  · rw [hbody, statusWrites_updateStatusOrRequeue, statusWrites_checkHubConfigSecret]

/-- Worked example for C3: with both secrets present and every probe allowed, the hub-config
check returns nil and the run writes the functional condition and nothing else. -/
theorem hub_functional_skips_bootstrap_witness :
    (checkHubConfigSecret (exampleEnv [] "none" "none" false) (agentOf {}) []).1 = none ∧
    statusWrites (syncGoroutineBody (exampleEnv [] "none" "none" false) "klusterlet" {} []) =
      statusWrites [] ++ [("klusterlet", hubConnectionFunctionalCondition)] :=
  ⟨by decide, (hub_functional_skips_bootstrap (exampleEnv [] "none" "none" false) "klusterlet"
    {} [] (by decide)).2.2.2.1⟩

/-- The bootstrap check starts with the fetch of the bootstrap secret. -/
theorem checkBootstrapSecret_fetches (env : Env) (agent : klusterletAgent) (log : List Call) :
    ∃ rest, (checkBootstrapSecret env agent log).2 =
      log ++ Call.secretGet agent.namespace_ env.BootstrapHubKubeConfig :: rest := by
  cases hget : env.secretGet log agent.namespace_ env.BootstrapHubKubeConfig with
  | error e => exact ⟨[], by simp [checkBootstrapSecret, hget]⟩
  | ok secret =>
    cases hbuild : buildKubeClientWithSecret env secret with
    | error e =>
      exact ⟨[Call.buildClient secret.Namespace secret.Name],
        by simp [checkBootstrapSecret, hget, hbuild]⟩
    | ok client =>
      obtain ⟨rs, hrs⟩ := createSelfSubjectAccessReviews_log env client getBootstrapSSARs
        (log ++ [Call.secretGet agent.namespace_ env.BootstrapHubKubeConfig,
          Call.buildClient secret.Namespace secret.Name])
      refine ⟨Call.buildClient secret.Namespace secret.Name :: submitted client rs, ?_⟩
      rcases hr : createSelfSubjectAccessReviews env client getBootstrapSSARs
        (log ++ [Call.secretGet agent.namespace_ env.BootstrapHubKubeConfig,
          Call.buildClient secret.Namespace secret.Name]) with ⟨⟨a, fr, e⟩, l3⟩
      rw [hr] at hrs
      simp only at hrs
      cases e <;> cases a <;> simp [checkBootstrapSecret, hget, hbuild, hr, hrs]

/-- C4: when the hub-config check is not functional, the bootstrap check is evaluated as well
(starting with the fetch of the bootstrap secret, after the hub-config check), and the one
condition written is `HubConnectionDegraded` with status `True`, reason the bootstrap
condition's reason, then `,`, then the hub-config condition's reason, and message the bootstrap
message, a newline, the hub-config message; this holds whether or not the bootstrap check came
back functional, in which case the bootstrap reason is `BootstrapSecretFunctional`. -/
theorem hub_degraded_merges_bootstrap (env : Env) (klusterletName : String)
    (klusterlet : Klusterlet) (log : List Call)
    (h : (checkHubConfigSecret env (agentOf klusterlet) log).1 ≠ none) :
    (hubConfigDegradedCondition env klusterlet log).1.Status ≠ ConditionFalse ∧
    (hubConfigDegradedCondition env klusterlet log).2 =
      (checkHubConfigSecret env (agentOf klusterlet) log).2 ∧
    (∃ rest, (bootstrapDegradedCondition env klusterlet log).2 =
      (checkHubConfigSecret env (agentOf klusterlet) log).2 ++
        Call.secretGet (agentOf klusterlet).namespace_ env.BootstrapHubKubeConfig :: rest) ∧
    syncGoroutineBody env klusterletName klusterlet log =
      (bootstrapDegradedCondition env klusterlet log).2 ++
        [Call.updateStatus klusterletName (mergedDegradedCondition env klusterlet log)] ++
        requeueAfterWrite env klusterletName (mergedDegradedCondition env klusterlet log)
          (bootstrapDegradedCondition env klusterlet log).2 ∧
    statusWrites (syncGoroutineBody env klusterletName klusterlet log) =
      statusWrites log ++ [(klusterletName, mergedDegradedCondition env klusterlet log)] ∧
    (mergedDegradedCondition env klusterlet log).Type_ = "HubConnectionDegraded" ∧
    (mergedDegradedCondition env klusterlet log).Status = "True" ∧
    (mergedDegradedCondition env klusterlet log).Reason =
      (bootstrapDegradedCondition env klusterlet log).1.Reason ++ "," ++
        (hubConfigDegradedCondition env klusterlet log).1.Reason ∧
    (mergedDegradedCondition env klusterlet log).Message =
      (bootstrapDegradedCondition env klusterlet log).1.Message ++ "\n" ++
        (hubConfigDegradedCondition env klusterlet log).1.Message ∧
    ((checkBootstrapSecret env (agentOf klusterlet)
        (checkHubConfigSecret env (agentOf klusterlet) log).2).1 = none →
      (bootstrapDegradedCondition env klusterlet log).1.Reason = "BootstrapSecretFunctional") := by
  have hstatus : (hubConfigDegradedCondition env klusterlet log).1.Status ≠ ConditionFalse :=
    fun hs => h ((checkAgentDegradedCondition_single_status hubConfigSecret
      hubConfigSecretDegraded (agentOf klusterlet) (checkHubConfigSecret env) log).1 hs)
  have hlog : (hubConfigDegradedCondition env klusterlet log).2 =
      (checkHubConfigSecret env (agentOf klusterlet) log).2 :=
    checkAgentDegradedCondition_single_log hubConfigSecret
      hubConfigSecretDegraded (agentOf klusterlet) (checkHubConfigSecret env) log
  have hblog : (bootstrapDegradedCondition env klusterlet log).2 =
      (checkBootstrapSecret env (agentOf klusterlet)
        (checkHubConfigSecret env (agentOf klusterlet) log).2).2 := by
    unfold bootstrapDegradedCondition
    rw [checkAgentDegradedCondition_single_log, hlog]
  have hbody : syncGoroutineBody env klusterletName klusterlet log =
      updateStatusOrRequeue env klusterletName (mergedDegradedCondition env klusterlet log)
        (bootstrapDegradedCondition env klusterlet log).2 := by
    have hs : ¬ (checkAgentDegradedCondition hubConfigSecret hubConfigSecretDegraded
        (agentOf klusterlet) [checkHubConfigSecret env] log).1.Status = ConditionFalse := hstatus
    unfold syncGoroutineBody
    simp only [hs, if_false]
    rfl
  refine ⟨hstatus, hlog, ?_, ?_, ?_, rfl, rfl, rfl, rfl, ?_⟩
  · rw [hblog]
    exact checkBootstrapSecret_fetches env (agentOf klusterlet) _
  · rw [hbody, updateStatusOrRequeue_eq]
  · rw [hbody, statusWrites_updateStatusOrRequeue, hblog, statusWrites_checkBootstrapSecret,
      statusWrites_checkHubConfigSecret]
  · intro hnone
    unfold bootstrapDegradedCondition
    rw [checkAgentDegradedCondition_single, hlog]
    rcases hb : checkBootstrapSecret env (agentOf klusterlet)
      (checkHubConfigSecret env (agentOf klusterlet) log).2 with ⟨cond, log1⟩
    rw [hb] at hnone
    simp only at hnone
    subst hnone
    rfl

/-- Worked example for C4: hub-config secret absent and every bootstrap probe allowed gives
the single write of `HubConnectionDegraded` with status `True` and reason
`BootstrapSecretFunctional,HubKubeConfigSecretMissing`. -/
theorem hub_degraded_merges_bootstrap_witness :
    (checkHubConfigSecret (exampleEnv ["hub-kubeconfig-secret"] "none" "none" false)
      (agentOf {}) []).1 ≠ none ∧
    statusWrites (syncGoroutineBody (exampleEnv ["hub-kubeconfig-secret"] "none" "none" false)
      "klusterlet" {} []) = statusWrites [] ++ [("klusterlet",
        mergedDegradedCondition (exampleEnv ["hub-kubeconfig-secret"] "none" "none" false)
          {} [])] ∧
    (mergedDegradedCondition (exampleEnv ["hub-kubeconfig-secret"] "none" "none" false)
      {} []).Reason = "BootstrapSecretFunctional,HubKubeConfigSecretMissing" ∧
    (mergedDegradedCondition (exampleEnv ["hub-kubeconfig-secret"] "none" "none" false)
      {} []).Status = "True" :=
  ⟨by decide, (hub_degraded_merges_bootstrap
    (exampleEnv ["hub-kubeconfig-secret"] "none" "none" false) "klusterlet" {} []
    (by decide)).2.2.2.2.1, by decide, by decide⟩

/-! ## C7, C8, C9, C10: the reconcile guard -/

theorem inSSARChecking_add (l : klusterletLocker) (k k2 : String) :
    inSSARChecking (addSSARChecking l k) k2 = (decide (k2 = k) || inSSARChecking l k2) := by
  simp [inSSARChecking, addSSARChecking]

theorem inSSARChecking_delete (l : klusterletLocker) (k k2 : String) :
    inSSARChecking (deleteSSARChecking l k) k2 = (decide (k2 ≠ k) && inSSARChecking l k2) := by
  simp [inSSARChecking, deleteSSARChecking]

/-- A key in the guard stays there under operations that do not delete it. -/
theorem inSSARChecking_applyGuardOps (k : String) (ops : List GuardOp)
    (hops : ∀ op ∈ ops, op ≠ GuardOp.delete k) (l : klusterletLocker)
    (h : inSSARChecking l k = true) : inSSARChecking (applyGuardOps l ops) k = true := by
  induction ops generalizing l with
  | nil => exact h
  | cons op ops ih =>
    have hrest : ∀ o ∈ ops, o ≠ GuardOp.delete k := fun o ho => hops o (by simp [ho])
    have hop : op ≠ GuardOp.delete k := hops op (by simp)
    show inSSARChecking (applyGuardOps (applyGuardOp l op) ops) k = true
    apply ih hrest
    cases op with
    | add k2 => simp [applyGuardOp, inSSARChecking_add, h]
    | delete k2 =>
      have hne : k ≠ k2 := fun hk => hop (by rw [hk])
      simp [applyGuardOp, inSSARChecking_delete, h, hne]

/-- C7: once `k` has been added to the guard and not deleted since (whatever other keys were
added or deleted in between), `inSSARChecking k` is true and a call of `sync` for `k` is
refused: it starts nothing, leaves the guard alone and re-adds the key after
`SSARReSyncTime`; after `deleteSSARChecking k`, `inSSARChecking k` is false and `sync` for `k`
starts a run again. -/
theorem guard_exclusive (env : Env) (l : klusterletLocker) (k : String) (ops : List GuardOp)
    (log : List Call) (klusterlet : Klusterlet)
    (hops : ∀ op ∈ ops, op ≠ GuardOp.delete k) (hk : k ≠ "")
    (hget : env.klusterletGet log k = .ok klusterlet) :
    inSSARChecking (applyGuardOps (addSSARChecking l k) ops) k = true ∧
    (sync env k (applyGuardOps (addSSARChecking l k) ops) log).started = none ∧
    (sync env k (applyGuardOps (addSSARChecking l k) ops) log).locker =
      applyGuardOps (addSSARChecking l k) ops ∧
    (sync env k (applyGuardOps (addSSARChecking l k) ops) log).log =
      log ++ [Call.addAfter k SSARReSyncTime] ∧
    inSSARChecking (deleteSSARChecking (applyGuardOps (addSSARChecking l k) ops) k) k = false ∧
    (sync env k (deleteSSARChecking (applyGuardOps (addSSARChecking l k) ops) k) log).started =
      some (k, klusterlet) := by
  have hin : inSSARChecking (applyGuardOps (addSSARChecking l k) ops) k = true :=
    inSSARChecking_applyGuardOps k ops hops _ (by simp [inSSARChecking_add])
  have hout : inSSARChecking
      (deleteSSARChecking (applyGuardOps (addSSARChecking l k) ops) k) k = false := by
    simp [inSSARChecking_delete]
  refine ⟨hin, ?_, ?_, ?_, hout, ?_⟩
  · simp [sync, hk, hget, hin]
  · simp [sync, hk, hget, hin]
  · simp [sync, hk, hget, hin]
  · simp [sync, hk, hget, hout]

/-- Worked example for C7: `k` is acquired, two other keys come and go, and `sync` for `k` is
refused until `k` is released. -/
theorem guard_exclusive_witness :
    inSSARChecking (applyGuardOps (addSSARChecking ⟨∅⟩ "k")
      [GuardOp.add "other", GuardOp.delete "other"]) "k" = true ∧
    (sync (exampleEnv [] "none" "none" false) "k" (applyGuardOps (addSSARChecking ⟨∅⟩ "k")
      [GuardOp.add "other", GuardOp.delete "other"]) []).started = none ∧
    (sync (exampleEnv [] "none" "none" false) "k" (deleteSSARChecking (applyGuardOps
      (addSSARChecking ⟨∅⟩ "k") [GuardOp.add "other", GuardOp.delete "other"]) "k") []).started =
      some ("k", { Name := "k" }) :=
  have h := guard_exclusive (exampleEnv [] "none" "none" false) ⟨∅⟩ "k"
    [GuardOp.add "other", GuardOp.delete "other"] [] { Name := "k" } (by decide) (by decide) rfl
  ⟨h.1, h.2.1, h.2.2.2.2.2⟩

/-- C9: `deleteSSARChecking k` on a guard that does not hold `k` changes nothing, applying it
twice gives the same guard as applying it once, and `addSSARChecking k` applied twice gives
the same guard as applied once. -/
theorem guard_idempotent (l : klusterletLocker) (k : String) :
    (inSSARChecking l k = false → deleteSSARChecking l k = l) ∧
    deleteSSARChecking (deleteSSARChecking l k) k = deleteSSARChecking l k ∧
    addSSARChecking (addSSARChecking l k) k = addSSARChecking l k := by
  refine ⟨fun h => ?_, ?_, ?_⟩
  · have hk : k ∉ l.klusterletInChecking := by simpa [inSSARChecking] using h
    cases l
    simp only [deleteSSARChecking]
    rw [Finset.erase_eq_of_not_mem hk]
  · simp [deleteSSARChecking]
  · simp [addSSARChecking]

/-- Worked example for C9: releasing `k` on a guard that holds only `other` changes nothing. -/
theorem guard_idempotent_witness :
    inSSARChecking (addSSARChecking ⟨∅⟩ "other") "k" = false ∧
    deleteSSARChecking (addSSARChecking ⟨∅⟩ "other") "k" = addSSARChecking ⟨∅⟩ "other" :=
  ⟨by decide, (guard_idempotent (addSSARChecking ⟨∅⟩ "other") "k").1 (by decide)⟩

/-- The first two lock-protected steps of the interleaving model, run back to back, are what
`sync` does to the guard for a key whose klusterlet exists. -/
theorem sync_as_steps (env : Env) (k : String) (l : klusterletLocker) (log : List Call)
    (klusterlet : Klusterlet) (hk : k ≠ "") (hget : env.klusterletGet log k = .ok klusterlet) :
    stepSync k (stepSync k l SyncPc.atCheck).1 (stepSync k l SyncPc.atCheck).2 =
      ((sync env k l log).locker,
        if (sync env k l log).started.isSome then SyncPc.started else SyncPc.requeued) := by
  cases hin : inSSARChecking l k <;> simp [stepSync, sync, hk, hget, hin]

/-- The third step of the interleaving model, the release, is what the goroutine started by
`sync` does to the guard when its run is over. -/
theorem syncGoroutine_as_step (env : Env) (k : String) (klusterlet : Klusterlet)
    (l : klusterletLocker) (log : List Call) :
    stepSync k l SyncPc.started = ((syncGoroutine env k klusterlet l log).1, SyncPc.finished) := by
  rfl

/-- C8, the defect: the membership check and the insert of `sync` are two separate
lock-protected steps, not one atomic acquire.  Two calls of `sync` for the key `k` on an
empty guard, scheduled check, check, insert, insert, both see the key absent, both insert it
and both start a run, so two runs for `k` are in flight at once, with `k` in the guard.  When
the first of them finishes, its deferred release takes `k` out of the guard although the other
run is still in flight. -/
theorem sync_check_then_add_race :
    bothStarted (runSchedule "k" [true, false, true, false]
      { locker := ⟨∅⟩, first := SyncPc.atCheck, second := SyncPc.atCheck }) ∧
    (runSchedule "k" [true, false]
      { locker := ⟨∅⟩, first := SyncPc.atCheck, second := SyncPc.atCheck }).first =
        SyncPc.atAdd ∧
    (runSchedule "k" [true, false]
      { locker := ⟨∅⟩, first := SyncPc.atCheck, second := SyncPc.atCheck }).second =
        SyncPc.atAdd ∧
    inSSARChecking (runSchedule "k" [true, false, true, false]
      { locker := ⟨∅⟩, first := SyncPc.atCheck, second := SyncPc.atCheck }).locker "k" = true ∧
    (runSchedule "k" [true, false, true, false, true]
      { locker := ⟨∅⟩, first := SyncPc.atCheck, second := SyncPc.atCheck }).second =
        SyncPc.started ∧
    inSSARChecking (runSchedule "k" [true, false, true, false, true]
      { locker := ⟨∅⟩, first := SyncPc.atCheck, second := SyncPc.atCheck }).locker "k" =
        false := by
  unfold bothStarted
  decide

/-- The status writes of the guarded run: exactly one, of type `HubConnectionDegraded`, for
the key of the run. -/
theorem statusWrites_syncGoroutineBody (env : Env) (k : String) (klusterlet : Klusterlet)
    (log : List Call) :
    ∃ cond, cond.Type_ = hubConnectionDegraded ∧
      statusWrites (syncGoroutineBody env k klusterlet log) = statusWrites log ++ [(k, cond)] := by
  unfold syncGoroutineBody
  by_cases hs : (checkAgentDegradedCondition hubConfigSecret hubConfigSecretDegraded
      (agentOf klusterlet) [checkHubConfigSecret env] log).1.Status = ConditionFalse
  · simp only [hs, if_true]
    refine ⟨hubConnectionFunctionalCondition, rfl, ?_⟩
    rw [statusWrites_updateStatusOrRequeue, checkAgentDegradedCondition_single_log,
      statusWrites_checkHubConfigSecret]
    rfl
  · simp only [hs, if_false]
    refine ⟨mergedDegradedCondition env klusterlet log, rfl, ?_⟩
    show statusWrites (updateStatusOrRequeue env k (mergedDegradedCondition env klusterlet log)
      (bootstrapDegradedCondition env klusterlet log).2) = _
    rw [statusWrites_updateStatusOrRequeue]
    congr 1
    unfold bootstrapDegradedCondition hubConfigDegradedCondition
    rw [checkAgentDegradedCondition_single_log, statusWrites_checkBootstrapSecret,
      checkAgentDegradedCondition_single_log, statusWrites_checkHubConfigSecret]

/-- C10: when the goroutine started by `sync` for a key finishes, on whatever guard and call
log it finds and whatever the probes and the status write answer, the key is no longer in the
guard, the membership of every other key is what it was, and the run has added exactly one
status write, a `HubConnectionDegraded` condition for that key. -/
theorem guarded_run_releases_key (env : Env) (key : String) (l : klusterletLocker)
    (log : List Call) (k : String) (klusterlet : Klusterlet)
    (hstart : (sync env key l log).started = some (k, klusterlet))
    (l2 : klusterletLocker) (log2 : List Call) :
    k = key ∧
    inSSARChecking (sync env key l log).locker key = true ∧
    inSSARChecking (syncGoroutine env k klusterlet l2 log2).1 key = false ∧
    (∀ k2, k2 ≠ key →
      inSSARChecking (syncGoroutine env k klusterlet l2 log2).1 k2 = inSSARChecking l2 k2) ∧
    ∃ cond, cond.Type_ = hubConnectionDegraded ∧
      statusWrites (syncGoroutine env k klusterlet l2 log2).2 =
        statusWrites log2 ++ [(key, cond)] := by
  have hsync : k = key ∧ inSSARChecking (sync env key l log).locker key = true := by
    unfold sync at hstart ⊢
    by_cases hkey : key = ""
    · simp [hkey] at hstart
    · cases hget : env.klusterletGet log key with
      | error err =>
        by_cases hnf : err.notFound = true <;> simp [hkey, hget, hnf] at hstart
      | ok kl =>
        cases hin : inSSARChecking l key with
        | true => simp [hkey, hget, hin] at hstart
        | false =>
          simp [hkey, hget, hin] at hstart
          obtain ⟨rfl, -⟩ := hstart
          simp [hkey, inSSARChecking_add]
  obtain ⟨hk, hheld⟩ := hsync
  subst hk
  refine ⟨rfl, hheld, ?_, ?_, ?_⟩
  · simp [syncGoroutine, inSSARChecking_delete]
  · intro k2 hk2
    simp [syncGoroutine, inSSARChecking_delete, hk2]
  · exact statusWrites_syncGoroutineBody env k klusterlet log2

/-- Worked example for C10: `sync` starts a run for `k` on a guard holding `other`; when the
run finishes with the hub-config secret missing and the status write failing, `k` is out of the
guard, `other` is still in, and one status write was added. -/
theorem guarded_run_releases_key_witness :
    (sync (exampleEnv ["hub-kubeconfig-secret"] "none" "none" true) "k"
      (addSSARChecking ⟨∅⟩ "other") []).started = some ("k", { Name := "k" }) ∧
    inSSARChecking (syncGoroutine (exampleEnv ["hub-kubeconfig-secret"] "none" "none" true) "k"
      { Name := "k" } (addSSARChecking (addSSARChecking ⟨∅⟩ "other") "k") []).1 "k" = false ∧
    inSSARChecking (syncGoroutine (exampleEnv ["hub-kubeconfig-secret"] "none" "none" true) "k"
      { Name := "k" } (addSSARChecking (addSSARChecking ⟨∅⟩ "other") "k") []).1 "other" =
      inSSARChecking (addSSARChecking (addSSARChecking ⟨∅⟩ "other") "k") "other" :=
  have h := guarded_run_releases_key (exampleEnv ["hub-kubeconfig-secret"] "none" "none" true)
    "k" (addSSARChecking ⟨∅⟩ "other") [] "k" { Name := "k" } (by decide)
    (addSSARChecking (addSSARChecking ⟨∅⟩ "other") "k") []
  ⟨by decide, h.2.2.1, h.2.2.2.1 "other" (by decide)⟩

/-! ## C11: a refused call of `sync` -/

/-- A call of `sync` never puts the empty key into the guard. -/
theorem sync_keeps_empty_key_out (env : Env) (key : String) (l : klusterletLocker)
    (log : List Call) (h : inSSARChecking l "" = false) :
    inSSARChecking (sync env key l log).locker "" = false := by
  unfold sync
  by_cases hkey : key = ""
  · simp [hkey, h]
  · have hne : ¬ "" = key := fun e => hkey e.symm
    cases hget : env.klusterletGet log key with
    | error err => by_cases hnf : err.notFound = true <;> simp [hkey, hnf, h]
    | ok kl =>
      cases hin : inSSARChecking l key <;> simp [hkey, hin, h, inSSARChecking_add, hne]

/-- C11: for a key that is already in the guard when `sync` is called and whose klusterlet
exists, `sync` starts no run, makes no status write and no credential call, leaves the guard
unchanged, adds to the log exactly one delayed re-add of that key with the delay
`SSARReSyncTime`, which is thirty seconds, and returns no error.  The guard never holds the
empty key (`sync_keeps_empty_key_out`), which is the hypothesis `hinv`. -/
theorem sync_refused_requeues (env : Env) (key : String) (l : klusterletLocker)
    (log : List Call) (klusterlet : Klusterlet)
    (hinv : inSSARChecking l "" = false) (hin : inSSARChecking l key = true)
    (hget : env.klusterletGet log key = .ok klusterlet) :
    (sync env key l log).started = none ∧
    (sync env key l log).err = none ∧
    (sync env key l log).locker = l ∧
    (sync env key l log).log = log ++ [Call.addAfter key SSARReSyncTime] ∧
    statusWrites (sync env key l log).log = statusWrites log ∧
    requeues (sync env key l log).log = requeues log ++ [(key, SSARReSyncTime)] ∧
    SSARReSyncTime = 30 * 1000000000 := by
  have hkey : key ≠ "" := by
    intro hk
    rw [hk, hinv] at hin
    exact absurd hin (by simp)
  have hlog : (sync env key l log).log = log ++ [Call.addAfter key SSARReSyncTime] := by
    simp [sync, hkey, hget, hin]
  refine ⟨?_, ?_, ?_, hlog, ?_, ?_, rfl⟩
  · simp [sync, hkey, hget, hin]
  · simp [sync, hkey, hget, hin]
  · simp [sync, hkey, hget, hin]
  · rw [hlog, statusWrites_append]
    simp [statusWrites]
  · rw [hlog]
    simp [requeues, List.filterMap_append]

/-- Worked example for C11: `k` is held, `sync` for `k` only re-adds the key. -/
theorem sync_refused_requeues_witness :
    inSSARChecking (addSSARChecking ⟨∅⟩ "k") "" = false ∧
    inSSARChecking (addSSARChecking ⟨∅⟩ "k") "k" = true ∧
    (sync (exampleEnv [] "none" "none" false) "k" (addSSARChecking ⟨∅⟩ "k") []).log =
      [] ++ [Call.addAfter "k" SSARReSyncTime] :=
  ⟨by decide, by decide, (sync_refused_requeues (exampleEnv [] "none" "none" false) "k"
    (addSSARChecking ⟨∅⟩ "k") [] { Name := "k" } (by decide) (by decide) rfl).2.2.2.1⟩

/-! ## C14: a hub-config secret without kubeconfig -/

/-- C14: when the hub-config secret was fetched but has no `kubeconfig` entry,
`checkHubConfigSecret` returns the reason `HubKubeConfigMissing` and the only call it has made
is the secret fetch: no client construction, no permission probe. -/
theorem hub_kubeconfig_missing_short_circuit (env : Env) (agent : klusterletAgent)
    (log : List Call) (secret : Secret)
    (hget : env.secretGet log agent.namespace_ env.HubKubeConfig = .ok secret)
    (hkube : secret.Data "kubeconfig" = none) :
    ∃ cond, cond.Reason = "HubKubeConfigMissing" ∧
      checkHubConfigSecret env agent log =
        (some cond, log ++ [Call.secretGet agent.namespace_ env.HubKubeConfig]) := by
  simp [checkHubConfigSecret, hget, hkube]

/-- Worked example for C14: a hub-config secret with no data. -/
theorem hub_kubeconfig_missing_short_circuit_witness :
    ∃ cond, cond.Reason = "HubKubeConfigMissing" ∧
      checkHubConfigSecret emptySecretEnv { clusterName := "c1", namespace_ := "ns1" } [] =
        (some cond, [] ++ [Call.secretGet "ns1" "hub-kubeconfig-secret"]) :=
  hub_kubeconfig_missing_short_circuit emptySecretEnv
    { clusterName := "c1", namespace_ := "ns1" } []
    { Namespace := "ns1", Name := "hub-kubeconfig-secret", Data := fun _ => none } rfl rfl


/-! ## C13: every terminal state becomes a condition -/

theorem intercalate_go_length (sep : String) (rs : List String) (acc : String) :
    acc.length ≤ (String.intercalate.go acc sep rs).length := by
  induction rs generalizing acc with
  | nil => simp [String.intercalate.go]
  | cons r rs ih =>
    simp only [String.intercalate.go]
    exact le_trans (by simp [String.length_append]; omega) (ih (acc ++ sep ++ r))

theorem string_ne_empty_iff (s : String) : s ≠ "" ↔ 0 < s.length := by
  constructor
  · intro h
    rcases Nat.eq_zero_or_pos s.length with h0 | h0
    · have hdata : s.data = [] := List.length_eq_zero.1 h0
      exact absurd (String.ext hdata) h
    · exact h0
  · intro h he
    rw [he] at h
    simp at h

theorem intercalate_ne_empty (sep : String) (rs : List String) (hne : rs ≠ [])
    (hall : ∀ r ∈ rs, r ≠ "") : sep.intercalate rs ≠ "" := by
  cases rs with
  | nil => exact absurd rfl hne
  | cons r rs =>
    rw [string_ne_empty_iff]
    have hr : 0 < r.length := (string_ne_empty_iff r).1 (hall r (by simp))
    exact lt_of_lt_of_le hr (intercalate_go_length sep rs r)

/-- The reasons `checkBootstrapSecret` can return. -/
theorem checkBootstrapSecret_reason (env : Env) (agent : klusterletAgent) (log : List Call)
    (cond : Condition) (h : (checkBootstrapSecret env agent log).1 = some cond) :
    cond.Reason ∈ ["BootstrapSecretMissing", "BootstrapSecretError",
      "BootstrapSecretUnauthorized"] := by
  cases hget : env.secretGet log agent.namespace_ env.BootstrapHubKubeConfig with
  | error e =>
    simp [checkBootstrapSecret, hget] at h
    simp [← h]
  | ok secret =>
    cases hbuild : buildKubeClientWithSecret env secret with
    | error e =>
      simp [checkBootstrapSecret, hget, hbuild] at h
      simp [← h]
    | ok client =>
      rcases hr : createSelfSubjectAccessReviews env client getBootstrapSSARs
        (log ++ [Call.secretGet agent.namespace_ env.BootstrapHubKubeConfig,
          Call.buildClient secret.Namespace secret.Name]) with ⟨⟨a, fr, e⟩, l3⟩
      cases e <;> cases a <;>
        simp [checkBootstrapSecret, hget, hbuild, hr] at h <;> simp [← h]

/-- The reasons `checkHubConfigSecret` can return. -/
theorem checkHubConfigSecret_reason (env : Env) (agent : klusterletAgent) (log : List Call)
    (cond : Condition) (h : (checkHubConfigSecret env agent log).1 = some cond) :
    cond.Reason ∈ ["HubKubeConfigSecretMissing", "HubKubeConfigMissing", "HubKubeConfigError",
      "ClusterNameMissing", "HubKubeConfigUnauthorized"] := by
  cases hget : env.secretGet log agent.namespace_ env.HubKubeConfig with
  | error e =>
    simp [checkHubConfigSecret, hget] at h
    simp [← h]
  | ok secret =>
    by_cases hkube : secret.Data "kubeconfig" = none
    · simp [checkHubConfigSecret, hget, hkube] at h
      simp [← h]
    cases hbuild : buildKubeClientWithSecret env secret with
    | error e =>
      simp [checkHubConfigSecret, hget, hkube, hbuild] at h
      simp [← h]
    | ok client =>
      cases hname : (if agent.clusterName = "" then secret.Data "cluster-name"
          else some agent.clusterName) with
      | none =>
        simp [checkHubConfigSecret, hget, hkube, hbuild, hname] at h
        simp [← h]
      | some clusterName =>
        rcases hr : createSelfSubjectAccessReviews env client (getHubConfigSSARs clusterName)
          (log ++ [Call.secretGet agent.namespace_ env.HubKubeConfig,
            Call.buildClient secret.Namespace secret.Name]) with ⟨⟨a, fr, e⟩, l3⟩
        cases e <;> cases a <;>
          simp [checkHubConfigSecret, hget, hkube, hbuild, hname, hr] at h <;> simp [← h]

/-- The reasons collected by the loop of `checkAgentDegradedCondition` satisfy whatever the
reasons of the single checks satisfy. -/
theorem checkAgentDegradedConditionLoop_reasons (agent : klusterletAgent) (P : String → Prop)
    (fns : List degradedCheckFunc)
    (hfns : ∀ f ∈ fns, ∀ log cond, (f agent log).1 = some cond → P cond.Reason)
    (rs ms : List String) (log : List Call) (hrs : ∀ r ∈ rs, P r) :
    ∀ r ∈ (checkAgentDegradedConditionLoop agent fns rs ms log).1.1, P r := by
  induction fns generalizing rs ms log with
  | nil => simpa [checkAgentDegradedConditionLoop] using hrs
  | cons f fns ih =>
    have hrest : ∀ g ∈ fns, ∀ log cond, (g agent log).1 = some cond → P cond.Reason :=
      fun g hg => hfns g (by simp [hg])
    rcases hf : f agent log with ⟨cond, log1⟩
    cases cond with
    | none =>
      simp only [checkAgentDegradedConditionLoop, hf]
      exact ih hrest rs ms log1 hrs
    | some c =>
      simp only [checkAgentDegradedConditionLoop, hf]
      apply ih hrest
      intro r hr
      rcases List.mem_append.1 hr with h | h
      · exact hrs r h
      · have hc : P c.Reason := hfns f (by simp) log c (by rw [hf])
        simp at h
        rw [h]
        exact hc

/-- C13: the health probe has no undefined step and every terminal state becomes a condition.
Whenever `createSelfSubjectAccessReviews` returns `allowed = false` the review it returns is
not nil, so the checks can dereference it; and `checkAgentDegradedCondition` over the two
credential checks always returns a condition of the requested type, with status `True` or
`False` and a reason that is not empty. -/
theorem health_probe_never_panics (env : Env) :
    (∀ c reviews log, (createSelfSubjectAccessReviews env c reviews log).1.1 = false →
      (createSelfSubjectAccessReviews env c reviews log).1.2.1.isSome = true) ∧
    (∀ secretName degradedType agent fns log,
      (∀ f ∈ fns, f = checkBootstrapSecret env ∨ f = checkHubConfigSecret env) →
      (checkAgentDegradedCondition secretName degradedType agent fns log).1.Type_ =
        degradedType ∧
      ((checkAgentDegradedCondition secretName degradedType agent fns log).1.Status =
          ConditionTrue ∨
        (checkAgentDegradedCondition secretName degradedType agent fns log).1.Status =
          ConditionFalse) ∧
      (checkAgentDegradedCondition secretName degradedType agent fns log).1.Reason ≠ "") := by
  constructor
  · intro c reviews log h
    rcases createSelfSubjectAccessReviews_cases env c reviews log with
      ⟨-, hres⟩ | ⟨k, hk, hres⟩
    · rw [hres] at h
      simp at h
    · rw [hres]
      simp [List.getElem?_eq_getElem hk.1]
  · intro secretName degradedType agent fns log hfns
    have hreasons := checkAgentDegradedConditionLoop_reasons agent (fun r => r ≠ "") fns
      (fun f hf log cond hcond => by
        rcases hfns f hf with rfl | rfl
        · have := checkBootstrapSecret_reason env agent log cond hcond
          simp at this
          rcases this with h | h | h <;> rw [h] <;> decide
        · have := checkHubConfigSecret_reason env agent log cond hcond
          simp at this
          rcases this with h | h | h | h | h <;> rw [h] <;> decide)
      [] [] log (by simp)
    unfold checkAgentDegradedCondition
    rcases hloop : checkAgentDegradedConditionLoop agent fns [] [] log with ⟨⟨rs, ms⟩, log1⟩
    rw [hloop] at hreasons
    by_cases hlen : rs.length = 0
    · dsimp only
      rw [if_pos hlen]
      refine ⟨rfl, Or.inr rfl, ?_⟩
      show secretName ++ "Functional" ≠ ""
      rw [string_ne_empty_iff, String.length_append]
      exact Nat.lt_of_lt_of_le (by decide : 0 < "Functional".length) (Nat.le_add_left _ _)
    · dsimp only
      rw [if_neg hlen]
      refine ⟨rfl, Or.inl rfl, ?_⟩
      exact intercalate_ne_empty "," rs (fun h => hlen (by simp [h])) hreasons

/-- Worked example for C13: the hub-config condition of the example environment with `get`
denied has type `HubConfigSecretDegraded` and a reason that is not empty. -/
theorem health_probe_never_panics_witness :
    (checkAgentDegradedCondition hubConfigSecret hubConfigSecretDegraded
      { clusterName := "", namespace_ := "ns1" }
      [checkHubConfigSecret (exampleEnv [] "get" "none" false)] []).1.Type_ =
        hubConfigSecretDegraded ∧
    (checkAgentDegradedCondition hubConfigSecret hubConfigSecretDegraded
      { clusterName := "", namespace_ := "ns1" }
      [checkHubConfigSecret (exampleEnv [] "get" "none" false)] []).1.Reason ≠ "" :=
  have h := (health_probe_never_panics (exampleEnv [] "get" "none" false)).2
    hubConfigSecret hubConfigSecretDegraded { clusterName := "", namespace_ := "ns1" }
    [checkHubConfigSecret (exampleEnv [] "get" "none" false)] []
    (fun f hf => Or.inr (by simpa using hf))
  ⟨h.1, h.2.2⟩

/-! ## C12: cancellation during a probe run -/

theorem requeues_append (a b : List Call) : requeues (a ++ b) = requeues a ++ requeues b := by
  simp [requeues, List.filterMap_append]

theorem requeues_credential (calls : List Call)
    (h : ∀ call ∈ calls, isCredentialCall call = true) : requeues calls = [] := by
  induction calls with
  | nil => rfl
  | cons c cs ih =>
    have hc := h c (by simp)
    have hcs := ih fun call hcall => h call (by simp [hcall])
    cases c <;> simp_all [requeues, isCredentialCall]

theorem requeues_updateStatusOrRequeue (env : Env) (k : String) (cond : Condition)
    (log : List Call) :
    requeues (updateStatusOrRequeue env k cond log) =
      requeues log ++
        if (env.UpdateKlusterletStatus log k cond).isSome then [(k, SSARReSyncTime)]
        else [] := by
  unfold updateStatusOrRequeue
  cases env.UpdateKlusterletStatus log k cond <;> simp [requeues, List.filterMap_append]

/-- The guarded run when the hub-config check returned a condition. -/
theorem syncGoroutineBody_degraded (env : Env) (k : String) (klusterlet : Klusterlet)
    (log : List Call) (h : (checkHubConfigSecret env (agentOf klusterlet) log).1 ≠ none) :
    syncGoroutineBody env k klusterlet log =
      updateStatusOrRequeue env k (mergedDegradedCondition env klusterlet log)
        (bootstrapDegradedCondition env klusterlet log).2 := by
  have hs : ¬ (checkAgentDegradedCondition hubConfigSecret hubConfigSecretDegraded
      (agentOf klusterlet) [checkHubConfigSecret env] log).1.Status = ConditionFalse :=
    fun hs => h ((checkAgentDegradedCondition_single_status hubConfigSecret
      hubConfigSecretDegraded (agentOf klusterlet) (checkHubConfigSecret env) log).1 hs)
  unfold syncGoroutineBody
  simp only [hs, if_false]
  rfl

theorem storedWritesFrom_append (env : Env) (before x y : List Call) :
    storedWritesFrom env before (x ++ y) =
      storedWritesFrom env before x ++ storedWritesFrom env (before ++ x) y := by
  induction x generalizing before with
  | nil => simp [storedWritesFrom]
  | cons c cs ih =>
    show _ ++ storedWritesFrom env (before ++ [c]) (cs ++ y) = _
    rw [ih]
    simp [storedWritesFrom, List.append_assoc]

theorem storedWritesFrom_credential (env : Env) (before calls : List Call)
    (h : ∀ call ∈ calls, isCredentialCall call = true) :
    storedWritesFrom env before calls = [] := by
  induction calls generalizing before with
  | nil => rfl
  | cons c cs ih =>
    have hc := h c (by simp)
    have hcs := ih (before ++ [c]) fun call hcall => h call (by simp [hcall])
    cases c <;> simp_all [storedWritesFrom, isCredentialCall]

theorem storedWrites_append (env : Env) (log calls : List Call) :
    storedWrites env (log ++ calls) = storedWrites env log ++ storedWritesFrom env log calls := by
  unfold storedWrites
  rw [storedWritesFrom_append, List.nil_append]

theorem logBeforeWrite_credential (env : Env) (klusterlet : Klusterlet) (log : List Call) :
    ∃ calls, logBeforeWrite env klusterlet log = log ++ calls ∧
      ∀ call ∈ calls, isCredentialCall call = true := by
  obtain ⟨c1, h1, hc1⟩ := checkHubConfigSecret_log env (agentOf klusterlet) log
  unfold logBeforeWrite
  by_cases hfun : (checkHubConfigSecret env (agentOf klusterlet) log).1 = none
  · rw [if_pos hfun]
    exact ⟨c1, h1, hc1⟩
  · rw [if_neg hfun]
    obtain ⟨c2, h2, hc2⟩ := checkBootstrapSecret_log env (agentOf klusterlet)
      (checkHubConfigSecret env (agentOf klusterlet) log).2
    refine ⟨c1 ++ c2, ?_, ?_⟩
    · unfold bootstrapDegradedCondition hubConfigDegradedCondition
      rw [checkAgentDegradedCondition_single_log, checkAgentDegradedCondition_single_log,
        h2, h1, List.append_assoc]
    · intro call hcall
      rcases List.mem_append.1 hcall with h | h
      · exact hc1 call h
      · exact hc2 call h

theorem syncGoroutineBody_eq_write (env : Env) (k : String) (klusterlet : Klusterlet)
    (log : List Call) :
    ∃ cond, syncGoroutineBody env k klusterlet log =
      updateStatusOrRequeue env k cond (logBeforeWrite env klusterlet log) := by
  unfold logBeforeWrite
  by_cases hfun : (checkHubConfigSecret env (agentOf klusterlet) log).1 = none
  · rw [if_pos hfun]
    have hstatus := (checkAgentDegradedCondition_single_status hubConfigSecret
      hubConfigSecretDegraded (agentOf klusterlet) (checkHubConfigSecret env) log).2 hfun
    have hlog := checkAgentDegradedCondition_single_log hubConfigSecret
      hubConfigSecretDegraded (agentOf klusterlet) (checkHubConfigSecret env) log
    refine ⟨hubConnectionFunctionalCondition, ?_⟩
    unfold syncGoroutineBody
    rw [← hlog]
    simp only [hstatus, if_true]
    rfl
  · rw [if_neg hfun]
    exact ⟨mergedDegradedCondition env klusterlet log,
      syncGoroutineBody_degraded env k klusterlet log hfun⟩

/-- C12: when the context is cancelled during the probe run, at a point `cancelPoint` of the
call log no later than the end of the run's probes, and the network calls honour the
cancellation (from then on the secret fetches and permission probes fail with the context
error, and so does the status writer, which is handed the same context), the guarded run
stores no status write: what has been stored is what was stored before the run, so the
previous conditions are intact.  The run releases the guard, and it leaves the key to the
next attempt, re-added once after `SSARReSyncTime`. -/
theorem cancelled_run_stores_nothing (env : Env) (k : String) (klusterlet : Klusterlet)
    (l : klusterletLocker) (log cancelPoint : List Call)
    (hcancel : cancelledAt env cancelPoint)
    (hmid : cancelPoint <+: logBeforeWrite env klusterlet log) :
    storedWrites env (syncGoroutine env k klusterlet l log).2 = storedWrites env log ∧
    inSSARChecking (syncGoroutine env k klusterlet l log).1 k = false ∧
    requeues (syncGoroutine env k klusterlet l log).2 =
      requeues log ++ [(k, SSARReSyncTime)] := by
  obtain ⟨cond, hbody⟩ := syncGoroutineBody_eq_write env k klusterlet log
  obtain ⟨calls, hpre, hcred⟩ := logBeforeWrite_credential env klusterlet log
  have hwrite : env.UpdateKlusterletStatus (logBeforeWrite env klusterlet log) k cond =
      some contextCanceled := (hcancel _ hmid).2.2 k cond
  refine ⟨?_, ?_, ?_⟩
  · show storedWrites env (syncGoroutineBody env k klusterlet log) = _
    rw [hbody, updateStatusOrRequeue_eq, List.append_assoc, storedWrites_append]
    have hnew : storedWritesFrom env (logBeforeWrite env klusterlet log)
        ([Call.updateStatus k cond] ++
          requeueAfterWrite env k cond (logBeforeWrite env klusterlet log)) = [] := by
      simp [requeueAfterWrite, storedWritesFrom, hwrite]
    rw [hnew, List.append_nil, hpre, storedWrites_append,
      storedWritesFrom_credential env log calls hcred, List.append_nil]
  · simp [syncGoroutine, inSSARChecking_delete]
  · show requeues (syncGoroutineBody env k klusterlet log) = _
    rw [hbody, requeues_updateStatusOrRequeue, hwrite, hpre, requeues_append,
      requeues_credential calls hcred]
    simp

theorem cancelledAt_cancelledAfterEnv (n : Nat) (cancelPoint : List Call)
    (h : n ≤ cancelPoint.length) : cancelledAt (cancelledAfterEnv n) cancelPoint := by
  intro log hlog
  have hlen : n ≤ log.length := Nat.le_trans h hlog.length_le
  refine ⟨?_, ?_, ?_⟩
  · intro ns name
    simp [cancelledAfterEnv, hlen]
  · intro client review
    simp [cancelledAfterEnv, hlen]
  · intro klusterletName cond
    simp [cancelledAfterEnv, hlen]

/-- Worked example for C12: the context is cancelled after the secret fetch, the client
construction and two permission probes of the hub-config check; the third probe fails with
`context canceled`, and the run stores nothing, releases `k` and re-adds it once. -/
theorem cancelled_run_stores_nothing_witness :
    probeError (cancelledAfterEnv 4) ⟨0⟩ (getHubConfigSSARs "cluster1")
      [Call.secretGet "open-cluster-management-agent" "hub-kubeconfig-secret",
        Call.buildClient "open-cluster-management-agent" "hub-kubeconfig-secret"] 2 =
      some contextCanceled ∧
    storedWrites (cancelledAfterEnv 4)
        (syncGoroutine (cancelledAfterEnv 4) "k" {} (addSSARChecking ⟨∅⟩ "k") []).2 =
      storedWrites (cancelledAfterEnv 4) [] ∧
    inSSARChecking
      (syncGoroutine (cancelledAfterEnv 4) "k" {} (addSSARChecking ⟨∅⟩ "k") []).1 "k" = false ∧
    requeues (syncGoroutine (cancelledAfterEnv 4) "k" {} (addSSARChecking ⟨∅⟩ "k") []).2 =
      requeues [] ++ [("k", SSARReSyncTime)] :=
  ⟨by decide,
    cancelled_run_stores_nothing (cancelledAfterEnv 4) "k" {} (addSSARChecking ⟨∅⟩ "k") []
      ((logBeforeWrite (cancelledAfterEnv 4) {} []).take 4)
      (cancelledAt_cancelledAfterEnv 4 _ (by decide)) (List.take_prefix 4 _)⟩

/-! ## C15, C16, C17: the condition upsert -/

/-- The four cases of `TestUpdateStatusCondition`, with the test clock at `100`, ten seconds
before at `90` and ten seconds after at `110`: the model gives the expected `updated` flag and
conditions that match the expected ones the way the test compares them. -/
theorem upsert_agrees_with_tests :
    (upsert 100 [] (newCondition "test" "True" "my-reason" "my-message" none)).2 = true ∧
    List.zipWith matchesExpected [newCondition "test" "True" "my-reason" "my-message" none]
      (upsert 100 [] (newCondition "test" "True" "my-reason" "my-message" none)).1 = [true] ∧
    (upsert 100 [newCondition "two" "True" "my-reason" "my-message" none]
      (newCondition "one" "True" "my-reason" "my-message" none)).2 = true ∧
    List.zipWith matchesExpected
      [newCondition "two" "True" "my-reason" "my-message" none,
        newCondition "one" "True" "my-reason" "my-message" none]
      (upsert 100 [newCondition "two" "True" "my-reason" "my-message" none]
        (newCondition "one" "True" "my-reason" "my-message" none)).1 = [true, true] ∧
    (upsert 100 [newCondition "two" "True" "my-reason" "my-message" none,
        newCondition "one" "True" "my-reason" "my-message" none]
      (newCondition "one" "False" "my-different-reason" "my-othermessage" none)).2 = true ∧
    List.zipWith matchesExpected
      [newCondition "two" "True" "my-reason" "my-message" none,
        newCondition "one" "False" "my-different-reason" "my-othermessage" none]
      (upsert 100 [newCondition "two" "True" "my-reason" "my-message" none,
          newCondition "one" "True" "my-reason" "my-message" none]
        (newCondition "one" "False" "my-different-reason" "my-othermessage" none)).1 =
      [true, true] ∧
    (upsert 100 [newCondition "two" "True" "my-reason" "my-message" none,
        newCondition "one" "True" "my-reason" "my-message" (some 90)]
      (newCondition "one" "True" "my-reason" "my-message" (some 110))).2 = false ∧
    List.zipWith matchesExpected
      [newCondition "two" "True" "my-reason" "my-message" none,
        newCondition "one" "True" "my-reason" "my-message" (some 90)]
      (upsert 100 [newCondition "two" "True" "my-reason" "my-message" none,
          newCondition "one" "True" "my-reason" "my-message" (some 90)]
        (newCondition "one" "True" "my-reason" "my-message" (some 110))).1 = [true, true] := by
  decide

/-- An entry of the given type in a list with one entry per type is found by the upsert where
it stands: everything before it has another type. -/
theorem upsert_at (now : Nat) (conditions : List Condition) (newCondition : Condition)
    (i : Nat) (entry : Condition)
    (huniq : (conditions.map fun c => c.Type_).Nodup)
    (hentry : conditions[i]? = some entry) (htype : entry.Type_ = newCondition.Type_) :
    upsert now conditions newCondition =
      if entry.Status ≠ newCondition.Status then
        (conditions.set i { entry with
            Status := newCondition.Status
            Reason := newCondition.Reason
            Message := newCondition.Message
            LastTransitionTime := now }, true)
      else if entry.Reason = newCondition.Reason ∧ entry.Message = newCondition.Message then
        (conditions, false)
      else
        (conditions.set i { entry with
            Reason := newCondition.Reason
            Message := newCondition.Message }, true) := by
  induction conditions generalizing i with
  | nil => simp at hentry
  | cons c cs ih =>
    have hnodup : (cs.map fun c => c.Type_).Nodup := (List.nodup_cons.1 huniq).2
    have hnotin : c.Type_ ∉ cs.map fun c => c.Type_ := (List.nodup_cons.1 huniq).1
    cases i with
    | zero =>
      simp at hentry
      subst hentry
      unfold upsert
      simp only [htype, if_true, List.set_cons_zero]
    | succ j =>
      simp at hentry
      have hmem : entry ∈ cs := List.getElem?_mem hentry
      have hne : c.Type_ ≠ newCondition.Type_ := by
        intro hc
        apply hnotin
        rw [hc, ← htype]
        exact List.mem_map_of_mem _ hmem
      unfold upsert
      rw [if_neg hne, ih j hnodup hentry]
      split
      · rfl
      · split <;> rfl


/-- C15: in a list with one entry per type that already holds an entry of the new condition's
type with the same status, reason and message, the upsert reports `changed = false` and
returns the list as it was; the entry is still there with the transition time it had, whatever
transition time the new condition carries. -/
theorem upsert_same_is_noop (now : Nat) (conditions : List Condition)
    (newCondition entry : Condition)
    (huniq : (conditions.map fun c => c.Type_).Nodup)
    (hmem : entry ∈ conditions) (htype : entry.Type_ = newCondition.Type_)
    (hstatus : entry.Status = newCondition.Status)
    (hreason : entry.Reason = newCondition.Reason)
    (hmessage : entry.Message = newCondition.Message) :
    upsert now conditions newCondition = (conditions, false) ∧
    entry ∈ (upsert now conditions newCondition).1 := by
  obtain ⟨i, hi⟩ := List.mem_iff_getElem?.1 hmem
  have h := upsert_at now conditions newCondition i entry huniq hi htype
  simp only [hstatus, hreason, hmessage, ne_eq, not_true_eq_false, if_false, and_self,
    if_true] at h
  exact ⟨h, by rw [h]; exact hmem⟩

/-- Worked example for C15, the case `leave existing transition time` of the test: the
stored entry of type `one` keeps the time `90` although the new condition carries `110`. -/
theorem upsert_same_is_noop_witness :
    upsert 100 [newCondition "two" "True" "my-reason" "my-message" none,
        newCondition "one" "True" "my-reason" "my-message" (some 90)]
      (newCondition "one" "True" "my-reason" "my-message" (some 110)) =
      ([newCondition "two" "True" "my-reason" "my-message" none,
        newCondition "one" "True" "my-reason" "my-message" (some 90)], false) ∧
    newCondition "one" "True" "my-reason" "my-message" (some 90) ∈
      (upsert 100 [newCondition "two" "True" "my-reason" "my-message" none,
          newCondition "one" "True" "my-reason" "my-message" (some 90)]
        (newCondition "one" "True" "my-reason" "my-message" (some 110))).1 :=
  upsert_same_is_noop 100 _ (newCondition "one" "True" "my-reason" "my-message" (some 110))
    (newCondition "one" "True" "my-reason" "my-message" (some 90)) (by decide) (by decide)
    rfl rfl rfl rfl

/-- C16: on a list with no entry of the new condition's type, the empty list included, the
upsert reports `changed = true` and returns the old list, in its order and unchanged, with the
new condition appended at the end, its transition time set to the current time; the result has
exactly one entry of the new type. -/
theorem upsert_new_type_appends (now : Nat) (conditions : List Condition)
    (newCondition : Condition)
    (hnone : ∀ c ∈ conditions, c.Type_ ≠ newCondition.Type_) :
    upsert now conditions newCondition =
      (conditions ++ [{ newCondition with LastTransitionTime := now }], true) ∧
    ((upsert now conditions newCondition).1.filter
      fun c => decide (c.Type_ = newCondition.Type_)).length = 1 := by
  have hup : upsert now conditions newCondition =
      (conditions ++ [{ newCondition with LastTransitionTime := now }], true) := by
    induction conditions with
    | nil => rfl
    | cons c cs ih =>
      have hc : c.Type_ ≠ newCondition.Type_ := hnone c (by simp)
      have hcs := ih fun d hd => hnone d (by simp [hd])
      unfold upsert
      rw [if_neg hc, hcs]
      rfl
  refine ⟨hup, ?_⟩
  rw [hup, List.filter_append]
  have hnil : conditions.filter (fun c => decide (c.Type_ = newCondition.Type_)) = [] := by
    rw [List.filter_eq_nil_iff]
    intro c hc
    simpa using hnone c hc
  rw [hnil]
  simp

/-- Worked example for C16, the case `add to non-conflicting` of the test. -/
theorem upsert_new_type_appends_witness :
    upsert 100 [newCondition "two" "True" "my-reason" "my-message" none]
      (newCondition "one" "True" "my-reason" "my-message" none) =
      ([newCondition "two" "True" "my-reason" "my-message" none] ++
        [{ newCondition "one" "True" "my-reason" "my-message" none with
            LastTransitionTime := 100 }], true) :=
  (upsert_new_type_appends 100 [newCondition "two" "True" "my-reason" "my-message" none]
    (newCondition "one" "True" "my-reason" "my-message" none) (by decide)).1

/-- C17 as stated fails: a condition is added at time `7` and its status is changed at the
same time `7`; the entry's transition time is `7` before and `7` after, so it is not strictly
later than the one it had. -/
theorem upsert_same_instant_not_later :
    (upsert 7 [] (newCondition "Ready" "True" "R1" "M1" none)).1 =
      [newCondition "Ready" "True" "R1" "M1" (some 7)] ∧
    upsert 7 [newCondition "Ready" "True" "R1" "M1" (some 7)]
      (newCondition "Ready" "False" "R2" "M2" none) =
      ([newCondition "Ready" "False" "R2" "M2" (some 7)], true) ∧
    ¬ ((newCondition "Ready" "True" "R1" "M1" (some 7)).LastTransitionTime <
      (newCondition "Ready" "False" "R2" "M2" (some 7)).LastTransitionTime) := by
  decide

/-- C17 amended: in a list with one entry per type holding at position `i` an entry of the new
condition's type with a different status, the upsert reports `changed = true` and replaces
that entry's status, reason and message in place (same position, same length, every other
position untouched) and sets its transition time to the current time, which is strictly later
than the one it had whenever that one is earlier than the current time. -/
theorem upsert_changed_status_replaces (now : Nat) (conditions : List Condition)
    (newCondition : Condition) (i : Nat) (entry : Condition)
    (huniq : (conditions.map fun c => c.Type_).Nodup)
    (hentry : conditions[i]? = some entry) (htype : entry.Type_ = newCondition.Type_)
    (hstatus : entry.Status ≠ newCondition.Status) :
    upsert now conditions newCondition =
      (conditions.set i { entry with
          Status := newCondition.Status
          Reason := newCondition.Reason
          Message := newCondition.Message
          LastTransitionTime := now }, true) ∧
    (upsert now conditions newCondition).1.length = conditions.length ∧
    (∀ j, j ≠ i → (upsert now conditions newCondition).1[j]? = conditions[j]?) ∧
    ((upsert now conditions newCondition).1[i]?.map fun c => c.LastTransitionTime) =
      some now ∧
    (entry.LastTransitionTime < now →
      ∃ e, (upsert now conditions newCondition).1[i]? = some e ∧
        entry.LastTransitionTime < e.LastTransitionTime) := by
  have h := upsert_at now conditions newCondition i entry huniq hentry htype
  rw [if_pos hstatus] at h
  have hi : i < conditions.length := by
    rcases Nat.lt_or_ge i conditions.length with hlt | hge
    · exact hlt
    · rw [List.getElem?_eq_none hge] at hentry
      exact absurd hentry (by simp)
  refine ⟨h, ?_, ?_, ?_, ?_⟩
  · rw [h]
    simp
  · intro j hj
    rw [h]
    exact List.getElem?_set_ne (Ne.symm hj)
  · rw [h]
    simp [List.getElem?_set, hi]
  · intro hlt
    rw [h]
    refine ⟨{ entry with
      Status := newCondition.Status
      Reason := newCondition.Reason
      Message := newCondition.Message
      LastTransitionTime := now }, by simp [List.getElem?_set, hi], hlt⟩

/-- Worked example for C17, the case `change existing status` of the test at time `100`. -/
theorem upsert_changed_status_replaces_witness :
    upsert 100 [newCondition "two" "True" "my-reason" "my-message" none,
        newCondition "one" "True" "my-reason" "my-message" (some 90)]
      (newCondition "one" "False" "my-different-reason" "my-othermessage" none) =
      ([newCondition "two" "True" "my-reason" "my-message" none,
        newCondition "one" "False" "my-different-reason" "my-othermessage" (some 100)],
        true) :=
  (upsert_changed_status_replaces 100
    [newCondition "two" "True" "my-reason" "my-message" none,
      newCondition "one" "True" "my-reason" "my-message" (some 90)]
    (newCondition "one" "False" "my-different-reason" "my-othermessage" none) 1
    (newCondition "one" "True" "my-reason" "my-message" (some 90))
    (by decide) rfl rfl (by decide)).1

/-! ## C18: the generation tracker -/

/-- The three cases of `TestUpdateGeneration`: the model gives the expected `updated` flag and
the expected generation lists. -/
theorem record_agrees_with_tests :
    record [] (deploymentGeneration "test" "test" 0) =
      ([deploymentGeneration "test" "test" 0], true) ∧
    record [deploymentGeneration "test" "test" 0] (deploymentGeneration "test2" "test" 0) =
      ([deploymentGeneration "test" "test" 0, deploymentGeneration "test2" "test" 0], true) ∧
    record [deploymentGeneration "test" "test" 0, deploymentGeneration "test2" "test" 0]
      (deploymentGeneration "test" "test" 1) =
      ([deploymentGeneration "test" "test" 1, deploymentGeneration "test2" "test" 0], true) := by
  decide

theorem sameIdentity_iff (a b : GenerationStatus) :
    sameIdentity a b ↔ identityOf a = identityOf b := by
  simp [sameIdentity, identityOf]

/-- An entry with the identity of the new record, in a list with one entry per identity, is
found by `record` where it stands. -/
theorem record_at (generations : List GenerationStatus) (newGeneration : GenerationStatus)
    (i : Nat) (entry : GenerationStatus)
    (huniq : (generations.map identityOf).Nodup)
    (hentry : generations[i]? = some entry) (hsame : sameIdentity entry newGeneration) :
    record generations newGeneration =
      if entry.LastGeneration = newGeneration.LastGeneration then (generations, false)
      else (generations.set i
        { entry with LastGeneration := newGeneration.LastGeneration }, true) := by
  induction generations generalizing i with
  | nil => simp at hentry
  | cons g gs ih =>
    have hnodup : (gs.map identityOf).Nodup := (List.nodup_cons.1 huniq).2
    have hnotin : identityOf g ∉ gs.map identityOf := (List.nodup_cons.1 huniq).1
    cases i with
    | zero =>
      simp at hentry
      subst hentry
      unfold record
      simp only [hsame, if_true, List.set_cons_zero]
    | succ j =>
      simp at hentry
      have hmem : entry ∈ gs := List.getElem?_mem hentry
      have hne : ¬ sameIdentity g newGeneration := by
        intro hg
        apply hnotin
        rw [(sameIdentity_iff g newGeneration).1 hg,
          ← (sameIdentity_iff entry newGeneration).1 hsame]
        exact List.mem_map_of_mem _ hmem
      unfold record
      rw [if_neg hne, ih j hnodup hentry]
      split <;> rfl

/-- C18: on a generation list with one entry per identity, a new record whose identity is at
position `i` with a different generation changes that entry's `LastGeneration` in place (same
position, same length, every other position untouched) and reports `changed = true`; a new
record whose identity is not in the list is appended at the end, the length grows by one, and
`changed = true`. -/
theorem record_updates_in_place_or_appends (generations : List GenerationStatus)
    (newGeneration : GenerationStatus) (huniq : (generations.map identityOf).Nodup) :
    (∀ i entry, generations[i]? = some entry → sameIdentity entry newGeneration →
      entry.LastGeneration ≠ newGeneration.LastGeneration →
      record generations newGeneration =
        (generations.set i { entry with LastGeneration := newGeneration.LastGeneration },
          true) ∧
      (record generations newGeneration).1.length = generations.length ∧
      ∀ j, j ≠ i → (record generations newGeneration).1[j]? = generations[j]?) ∧
    ((∀ g ∈ generations, ¬ sameIdentity g newGeneration) →
      record generations newGeneration = (generations ++ [newGeneration], true) ∧
      (record generations newGeneration).1.length = generations.length + 1) := by
  constructor
  · intro i entry hentry hsame hgen
    have h := record_at generations newGeneration i entry huniq hentry hsame
    rw [if_neg hgen] at h
    refine ⟨h, ?_, ?_⟩
    · rw [h]
      simp
    · intro j hj
      rw [h]
      exact List.getElem?_set_ne (Ne.symm hj)
  · intro hnone
    have hrec : record generations newGeneration = (generations ++ [newGeneration], true) := by
      clear huniq
      induction generations with
      | nil => rfl
      | cons g gs ih =>
        have hg : ¬ sameIdentity g newGeneration := hnone g (by simp)
        have hgs := ih fun d hd => hnone d (by simp [hd])
        unfold record
        rw [if_neg hg, hgs]
        rfl
    exact ⟨hrec, by rw [hrec]; simp⟩

/-- Worked example for C18, the cases `change existing status` and `add to non-conflicting`
of the test. -/
theorem record_updates_in_place_or_appends_witness :
    record [deploymentGeneration "test" "test" 0, deploymentGeneration "test2" "test" 0]
      (deploymentGeneration "test" "test" 1) =
      ([deploymentGeneration "test" "test" 0, deploymentGeneration "test2" "test" 0].set 0
        { deploymentGeneration "test" "test" 0 with LastGeneration := 1 }, true) ∧
    record [deploymentGeneration "test" "test" 0] (deploymentGeneration "test2" "test" 0) =
      ([deploymentGeneration "test" "test" 0] ++ [deploymentGeneration "test2" "test" 0],
        true) :=
  ⟨((record_updates_in_place_or_appends
      [deploymentGeneration "test" "test" 0, deploymentGeneration "test2" "test" 0]
      (deploymentGeneration "test" "test" 1) (by decide)).1 0
      (deploymentGeneration "test" "test" 0) rfl (by decide) (by decide)).1,
    ((record_updates_in_place_or_appends [deploymentGeneration "test" "test" 0]
      (deploymentGeneration "test2" "test" 0) (by decide)).2 (by decide)).1⟩

/-! ## C19: applying a webhook configuration -/

theorem getObject_append_self (store : List ManagedObject) (required : ManagedObject)
    (h : getObject store required = none) :
    getObject (store ++ [required]) required = some required := by
  unfold getObject at h ⊢
  rw [List.find?_append, h]
  simp [sameObject]

theorem getObject_same (store : List ManagedObject) (required existing : ManagedObject)
    (h : getObject store required = some existing) : sameObject existing required := by
  unfold getObject at h
  simpa using List.find?_some h

theorem getObject_updateObject (store : List ManagedObject)
    (required existing updated : ManagedObject)
    (h : getObject store required = some existing) (hsame : sameObject updated required) :
    getObject (updateObject store updated) required = some updated := by
  unfold getObject updateObject at *
  induction store with
  | nil => simp at h
  | cons o os ih =>
    by_cases ho : sameObject o required
    · have hou : sameObject o updated := by
        unfold sameObject at *
        exact ⟨ho.1.trans hsame.1.symm, ho.2.1.trans hsame.2.1.symm,
          ho.2.2.trans hsame.2.2.symm⟩
      simp [List.find?, hou, hsame]
    · have hou : ¬ sameObject o updated := by
        intro hc
        apply ho
        unfold sameObject at *
        exact ⟨hc.1.trans hsame.1, hc.2.1.trans hsame.2.1, hc.2.2.trans hsame.2.2⟩
      have hrest : List.find? (fun o => decide (sameObject o required)) os = some existing := by
        simpa [List.find?, ho] using h
      simp [List.find?, hou, ho, ih hrest]

/-- The apply contract for one object, for every store. -/
theorem applyObject_appliesIdempotently : appliesIdempotently applyObject id := by
  intro store required
  simp only [id]
  refine ⟨fun hnone => ?_, fun existing hget heq => ?_, fun existing hget hne => ?_⟩
  · have h1 : applyObject store required = (store ++ [required], true, none) := by
      simp [applyObject, hnone]
    have h2 := getObject_append_self store required hnone
    refine ⟨by rw [h1], by rw [h1]; exact h2, ?_⟩
    rw [h1]
    simp [applyObject, h2]
  · simp [applyObject, hget, heq]
  · have h1 : applyObject store required =
        (updateObject store { existing with Content := required.Content }, true, none) := by
      simp [applyObject, hget, hne]
    refine ⟨by rw [h1], ?_⟩
    rw [h1]
    exact getObject_updateObject store required existing _ hget
      (getObject_same store required existing hget)

/-- C19: `ApplyValidatingWebhookConfiguration` and `ApplyMutatingWebhookConfiguration` are
idempotent in the sense of `appliesIdempotently`.  On a store with no object of that name the
desired configuration is created, `applied = true`, and applying it again gives
`applied = false`; on a store holding an equal object `applied = false`; on a store holding an
object of that name with different content, in particular a different webhook service,
`applied = true`; none of them returns an error. -/
theorem apply_webhook_configuration_idempotent :
    appliesIdempotently ApplyValidatingWebhookConfiguration
      (fun r => { r with Kind := "ValidatingWebhookConfiguration" }) ∧
    appliesIdempotently ApplyMutatingWebhookConfiguration
      (fun r => { r with Kind := "MutatingWebhookConfiguration" }) ∧
    (∀ store name svc1 ns1 svc2 ns2, svc1 ≠ svc2 →
      getObject store (newValidatingWebhookConfiguration name svc2 ns2) =
        some (newValidatingWebhookConfiguration name svc1 ns1) →
      (ApplyValidatingWebhookConfiguration store
        (newValidatingWebhookConfiguration name svc2 ns2)).2 = (true, none)) ∧
    (∀ store name svc1 ns1 svc2 ns2, svc1 ≠ svc2 →
      getObject store (newMutatingWebhookConfiguration name svc2 ns2) =
        some (newMutatingWebhookConfiguration name svc1 ns1) →
      (ApplyMutatingWebhookConfiguration store
        (newMutatingWebhookConfiguration name svc2 ns2)).2 = (true, none)) := by
  have hv : appliesIdempotently ApplyValidatingWebhookConfiguration
      (fun r => { r with Kind := "ValidatingWebhookConfiguration" }) := fun store required =>
    applyObject_appliesIdempotently store { required with Kind := "ValidatingWebhookConfiguration" }
  have hm : appliesIdempotently ApplyMutatingWebhookConfiguration
      (fun r => { r with Kind := "MutatingWebhookConfiguration" }) := fun store required =>
    applyObject_appliesIdempotently store { required with Kind := "MutatingWebhookConfiguration" }
  refine ⟨hv, hm, ?_, ?_⟩
  · intro store name svc1 ns1 svc2 ns2 hsvc hget
    refine ((hv store (newValidatingWebhookConfiguration name svc2 ns2)).2.2 _ hget ?_).1
    simp [newValidatingWebhookConfiguration, hsvc]
  · intro store name svc1 ns1 svc2 ns2 hsvc hget
    refine ((hm store (newMutatingWebhookConfiguration name svc2 ns2)).2.2 _ hget ?_).1
    simp [newMutatingWebhookConfiguration, hsvc]

/-- Worked example for C19, the three cases of `TestApplyValidatingWebhookConfiguration`:
create on the empty store, skip on an equal object, update on another service. -/
theorem apply_webhook_configuration_idempotent_witness :
    (ApplyValidatingWebhookConfiguration []
      (newValidatingWebhookConfiguration "test" "svc1" "svc1")).2 = (true, none) ∧
    ApplyValidatingWebhookConfiguration
      (ApplyValidatingWebhookConfiguration []
        (newValidatingWebhookConfiguration "test" "svc1" "svc1")).1
      (newValidatingWebhookConfiguration "test" "svc1" "svc1") =
      ((ApplyValidatingWebhookConfiguration []
        (newValidatingWebhookConfiguration "test" "svc1" "svc1")).1, false, none) ∧
    (ApplyValidatingWebhookConfiguration [newValidatingWebhookConfiguration "test" "svc1" "svc1"]
      (newValidatingWebhookConfiguration "test" "svc2" "svc2")).2 = (true, none) :=
  have h := (apply_webhook_configuration_idempotent.1 []
    (newValidatingWebhookConfiguration "test" "svc1" "svc1")).1 rfl
  ⟨h.1, h.2.2, apply_webhook_configuration_idempotent.2.2.1
    [newValidatingWebhookConfiguration "test" "svc1" "svc1"] "test" "svc1" "svc1" "svc2" "svc2"
    (by decide) rfl⟩

/-! ## C20: the batch apply -/

theorem applyOne_resourceName (manifests : String → Except Err ManagedObject)
    (store : List ManagedObject) (file : String) :
    (applyOne manifests store file).2.resourceName = file := by
  unfold applyOne
  cases manifests file with
  | error err => rfl
  | ok required => by_cases h : required.Kind ∈ supportedKinds <;> simp [h]

theorem applyOne_failed (manifests : String → Except Err ManagedObject)
    (store : List ManagedObject) (file : String) (out : ApplyOutcome)
    (h : failedOutcome manifests file = some out) :
    applyOne manifests store file = (store, out) := by
  unfold failedOutcome at h
  unfold applyOne
  cases hm : manifests file with
  | error err =>
    rw [hm] at h
    simp only [Option.some.injEq] at h
    rw [← h]
  | ok required =>
    rw [hm] at h
    by_cases hk : required.Kind ∈ supportedKinds
    · simp [hk] at h
    · simp only [hk, if_false, Option.some.injEq] at h
      simp only [hk, if_false]
      rw [← h]

theorem ApplyDirectly_names (manifests : String → Except Err ManagedObject)
    (store : List ManagedObject) (files : List String) :
    (ApplyDirectly manifests store files).2.map (fun o => o.resourceName) = files := by
  induction files generalizing store with
  | nil => rfl
  | cons f fs ih =>
    simp only [ApplyDirectly, List.map_cons, applyOne_resourceName, ih]

theorem ApplyDirectly_length (manifests : String → Except Err ManagedObject)
    (store : List ManagedObject) (files : List String) :
    (ApplyDirectly manifests store files).2.length = files.length := by
  have h := congrArg List.length (ApplyDirectly_names manifests store files)
  simpa using h

theorem ApplyDirectly_append (manifests : String → Except Err ManagedObject)
    (store : List ManagedObject) (a b : List String) :
    ApplyDirectly manifests store (a ++ b) =
      ((ApplyDirectly manifests (ApplyDirectly manifests store a).1 b).1,
        (ApplyDirectly manifests store a).2 ++
          (ApplyDirectly manifests (ApplyDirectly manifests store a).1 b).2) := by
  induction a generalizing store with
  | nil => rfl
  | cons f fs ih =>
    show ApplyDirectly manifests store (f :: (fs ++ b)) = _
    simp only [ApplyDirectly, ih, List.cons_append]

/-- C20: `ApplyDirectly` never aborts on one resource.  It returns one outcome per key of the
batch, in key order.  A key the resolver cannot find gets an outcome with the resolver's
error, a key whose manifest has a kind tag that is not recognised, such as `Kind1`, gets an
outcome with `UnsupportedResourceKind`; and such a failing key changes nothing for its
siblings: the store afterwards and the outcomes of the other keys are those of the batch
without the failing key, with the failing key's outcome at its position. -/
theorem ApplyDirectly_never_aborts (manifests : String → Except Err ManagedObject)
    (store : List ManagedObject) :
    (∀ files, (ApplyDirectly manifests store files).2.length = files.length ∧
      (ApplyDirectly manifests store files).2.map (fun o => o.resourceName) = files) ∧
    (∀ file err, manifests file = .error err →
      failedOutcome manifests file =
        some { resourceName := file, kind := "", applied := false, error := some err }) ∧
    (∀ file required, manifests file = .ok required → required.Kind ∉ supportedKinds →
      failedOutcome manifests file =
        some { resourceName := file, kind := required.Kind, applied := false
               error := some UnsupportedResourceKind }) ∧
    "Kind1" ∉ supportedKinds ∧
    (∀ pre bad post out, failedOutcome manifests bad = some out →
      ApplyDirectly manifests store (pre ++ bad :: post) =
        ((ApplyDirectly manifests store (pre ++ post)).1,
          (ApplyDirectly manifests store (pre ++ post)).2.take pre.length ++
            out :: (ApplyDirectly manifests store (pre ++ post)).2.drop pre.length)) := by
  refine ⟨fun files => ⟨ApplyDirectly_length manifests store files,
    ApplyDirectly_names manifests store files⟩, ?_, ?_, by decide, ?_⟩
  · intro file err h
    simp [failedOutcome, h]
  · intro file required h hk
    simp [failedOutcome, h, hk]
  · intro pre bad post out hfail
    have hlen := ApplyDirectly_length manifests store pre
    rw [ApplyDirectly_append, ApplyDirectly_append]
    simp only [ApplyDirectly, applyOne_failed manifests _ bad out hfail]
    rw [List.take_left' hlen, List.drop_left' hlen]

/-- Worked example for C20, after `TestApplyDirectly`: the unhandled `kind1` and a file the
resolver does not know, in a batch with the secret; the secret is applied as in the batch
without them. -/
theorem ApplyDirectly_never_aborts_witness :
    failedOutcome testManifests "kind1" =
      some { resourceName := "kind1", kind := "Kind1", applied := false
             error := some UnsupportedResourceKind } ∧
    ApplyDirectly testManifests [] (["apiservice"] ++ "kind1" :: ["secret"]) =
      ((ApplyDirectly testManifests [] (["apiservice"] ++ ["secret"])).1,
        (ApplyDirectly testManifests [] (["apiservice"] ++ ["secret"])).2.take 1 ++
          { resourceName := "kind1", kind := "Kind1", applied := false
            error := some UnsupportedResourceKind } ::
          (ApplyDirectly testManifests [] (["apiservice"] ++ ["secret"])).2.drop 1) ∧
    (ApplyDirectly testManifests [] ["apiservice", "kind1", "secret", "nosuchfile"]).2.map
      (fun o => (o.resourceName, o.applied, o.error.map fun e => e.msg)) =
      [("apiservice", true, none), ("kind1", false, some "UnsupportedResourceKind"),
        ("secret", true, none), ("nosuchfile", false, some "Failed to find file")] :=
  ⟨by decide, (ApplyDirectly_never_aborts testManifests []).2.2.2.2 ["apiservice"] "kind1"
    ["secret"] _ (by decide), by decide⟩

/-! ## C24, C25, C26: the two probe sets -/

theorem getBootstrapSSARs_eq :
    getBootstrapSSARs =
      [ probeFor { Group := "cluster.open-cluster-management.io", Resource := "managedclusters",
                   Verb := "create" },
        probeFor { Group := "cluster.open-cluster-management.io", Resource := "managedclusters",
                   Verb := "get" },
        probeFor { Group := "certificates.k8s.io", Resource := "certificatesigningrequests",
                   Verb := "create" },
        probeFor { Group := "certificates.k8s.io", Resource := "certificatesigningrequests",
                   Verb := "get" },
        probeFor { Group := "certificates.k8s.io", Resource := "certificatesigningrequests",
                   Verb := "list" },
        probeFor { Group := "certificates.k8s.io", Resource := "certificatesigningrequests",
                   Verb := "watch" } ] := by
  rfl

/-- C24: `getBootstrapSSARs` takes no argument, so its result depends on neither the agent
nor the secret, and it is exactly six probes in this order: `create` and `get` on
`managedclusters` in the group `cluster.open-cluster-management.io`, then `create`, `get`,
`list` and `watch` on `certificatesigningrequests` in the group `certificates.k8s.io`, each
with empty name, namespace and subresource. -/
theorem getBootstrapSSARs_fixed :
    getBootstrapSSARs =
      [ probeFor { Group := "cluster.open-cluster-management.io", Resource := "managedclusters",
                   Subresource := "", Name := "", Namespace := "", Verb := "create" },
        probeFor { Group := "cluster.open-cluster-management.io", Resource := "managedclusters",
                   Subresource := "", Name := "", Namespace := "", Verb := "get" },
        probeFor { Group := "certificates.k8s.io", Resource := "certificatesigningrequests",
                   Subresource := "", Name := "", Namespace := "", Verb := "create" },
        probeFor { Group := "certificates.k8s.io", Resource := "certificatesigningrequests",
                   Subresource := "", Name := "", Namespace := "", Verb := "get" },
        probeFor { Group := "certificates.k8s.io", Resource := "certificatesigningrequests",
                   Subresource := "", Name := "", Namespace := "", Verb := "list" },
        probeFor { Group := "certificates.k8s.io", Resource := "certificatesigningrequests",
                   Subresource := "", Name := "", Namespace := "", Verb := "watch" } ] ∧
    getBootstrapSSARs.length = 6 := by
  decide

theorem getHubConfigSSARs_eq (c : String) :
    getHubConfigSSARs c =
        [ probeFor { Group := "certificates.k8s.io", Resource := "certificatesigningrequests",
                     Verb := "get" },
          probeFor { Group := "certificates.k8s.io", Resource := "certificatesigningrequests",
                     Verb := "list" },
          probeFor { Group := "certificates.k8s.io", Resource := "certificatesigningrequests",
                     Verb := "watch" },
          probeFor { Group := "cluster.open-cluster-management.io",
                     Resource := "managedclusters", Name := c, Verb := "get" },
          probeFor { Group := "cluster.open-cluster-management.io",
                     Resource := "managedclusters", Name := c, Verb := "list" },
          probeFor { Group := "cluster.open-cluster-management.io",
                     Resource := "managedclusters", Name := c, Verb := "update" },
          probeFor { Group := "cluster.open-cluster-management.io",
                     Resource := "managedclusters", Name := c, Verb := "watch" },
          probeFor { Group := "cluster.open-cluster-management.io",
                     Resource := "managedclusters", Subresource := "status", Name := c,
                     Verb := "patch" },
          probeFor { Group := "cluster.open-cluster-management.io",
                     Resource := "managedclusters", Subresource := "status", Name := c,
                     Verb := "update" },
          probeFor { Group := "register.open-cluster-management.io",
                     Resource := "managedclusters", Subresource := "clientcertificates",
                     Verb := "renew" },
          probeFor { Group := "coordination.k8s.io", Resource := "leases",
                     Name := "cluster-lease-" ++ c, Namespace := c, Verb := "get" },
          probeFor { Group := "coordination.k8s.io", Resource := "leases",
                     Name := "cluster-lease-" ++ c, Namespace := c, Verb := "update" },
          probeFor { Resource := "events", Namespace := c, Verb := "create" },
          probeFor { Resource := "events", Namespace := c, Verb := "patch" },
          probeFor { Resource := "events", Namespace := c, Verb := "update" },
          probeFor { Group := "events.k8s.io", Resource := "events", Namespace := c,
                     Verb := "create" },
          probeFor { Group := "events.k8s.io", Resource := "events", Namespace := c,
                     Verb := "patch" },
          probeFor { Group := "events.k8s.io", Resource := "events", Namespace := c,
                     Verb := "update" },
          probeFor { Group := "work.open-cluster-management.io", Resource := "manifestworks",
                     Namespace := c, Verb := "get" },
          probeFor { Group := "work.open-cluster-management.io", Resource := "manifestworks",
                     Namespace := c, Verb := "list" },
          probeFor { Group := "work.open-cluster-management.io", Resource := "manifestworks",
                     Namespace := c, Verb := "watch" },
          probeFor { Group := "work.open-cluster-management.io", Resource := "manifestworks",
                     Namespace := c, Verb := "update" },
          probeFor { Group := "work.open-cluster-management.io", Resource := "manifestworks",
                     Subresource := "status", Namespace := c, Verb := "patch" },
          probeFor { Group := "work.open-cluster-management.io", Resource := "manifestworks",
                     Subresource := "status", Namespace := c, Verb := "update" } ] := by
  rfl

/-- C25: for every cluster name `c` the list `getHubConfigSSARs c` contains `get` and
`update` on the `coordination.k8s.io` lease named `cluster-lease-` followed by `c` in the
namespace `c`, `patch` and `update` on the `status` subresource of the `managedclusters`
named `c`, `get`, `list`, `watch` and `update` on `manifestworks` and `patch` and `update`
on its `status` subresource in the namespace `c`; and every probe of the list with a
non-empty namespace has the namespace `c`, and every probe with a non-empty name has the
name `c` or `cluster-lease-` followed by `c`. -/
theorem getHubConfigSSARs_scoped (c : String) :
    (∀ verb ∈ ["get", "update"],
      probeFor { Group := "coordination.k8s.io", Resource := "leases",
                 Name := "cluster-lease-" ++ c, Namespace := c, Verb := verb } ∈
        getHubConfigSSARs c) ∧
    (∀ verb ∈ ["patch", "update"],
      probeFor { Group := "cluster.open-cluster-management.io", Resource := "managedclusters",
                 Subresource := "status", Name := c, Verb := verb } ∈ getHubConfigSSARs c) ∧
    (∀ verb ∈ ["get", "list", "watch", "update"],
      probeFor { Group := "work.open-cluster-management.io", Resource := "manifestworks",
                 Namespace := c, Verb := verb } ∈ getHubConfigSSARs c) ∧
    (∀ verb ∈ ["patch", "update"],
      probeFor { Group := "work.open-cluster-management.io", Resource := "manifestworks",
                 Subresource := "status", Namespace := c, Verb := verb } ∈
        getHubConfigSSARs c) ∧
    (∀ review ∈ getHubConfigSSARs c, ∃ attrs, review.Spec.ResourceAttributes = some attrs ∧
      (attrs.Namespace ≠ "" → attrs.Namespace = c) ∧
      (attrs.Name ≠ "" → attrs.Name = c ∨ attrs.Name = "cluster-lease-" ++ c)) := by
  refine ⟨?_, ?_, ?_, ?_, ?_⟩
  · intro verb hverb
    rw [getHubConfigSSARs_eq]
    simp only [List.mem_cons, List.mem_singleton, List.not_mem_nil, or_false] at hverb
    rcases hverb with rfl | rfl <;> simp
  · intro verb hverb
    rw [getHubConfigSSARs_eq]
    simp only [List.mem_cons, List.mem_singleton, List.not_mem_nil, or_false] at hverb
    rcases hverb with rfl | rfl <;> simp
  · intro verb hverb
    rw [getHubConfigSSARs_eq]
    simp only [List.mem_cons, List.mem_singleton, List.not_mem_nil, or_false] at hverb
    rcases hverb with rfl | rfl | rfl | rfl <;> simp
  · intro verb hverb
    rw [getHubConfigSSARs_eq]
    simp only [List.mem_cons, List.mem_singleton, List.not_mem_nil, or_false] at hverb
    rcases hverb with rfl | rfl <;> simp
  · intro review hreview
    rw [getHubConfigSSARs_eq] at hreview
    simp only [List.mem_cons, List.mem_singleton, List.not_mem_nil, or_false] at hreview
    rcases hreview with rfl | rfl | rfl | rfl | rfl | rfl | rfl | rfl | rfl | rfl | rfl | rfl |
      rfl | rfl | rfl | rfl | rfl | rfl | rfl | rfl | rfl | rfl | rfl | rfl <;>
      exact ⟨_, rfl, by simp⟩

/-- Worked example for C25: for the cluster `cluster1` the hub-config probes contain `update`
on the lease `cluster-lease-cluster1` in the namespace `cluster1`. -/
theorem getHubConfigSSARs_scoped_witness :
    "update" ∈ ["get", "update"] ∧
    probeFor { Group := "coordination.k8s.io", Resource := "leases",
               Name := "cluster-lease-" ++ "cluster1", Namespace := "cluster1",
               Verb := "update" } ∈ getHubConfigSSARs "cluster1" :=
  ⟨by decide, (getHubConfigSSARs_scoped "cluster1").1 "update" (by decide)⟩

/-- C26, counterexample: `create` on `certificatesigningrequests` is a bootstrap probe, and
it does not occur among the hub-config probes of the cluster `cluster1`. -/
theorem bootstrap_create_not_in_hub_probes :
    probeFor { Group := "certificates.k8s.io", Resource := "certificatesigningrequests",
               Verb := "create" } ∈ getBootstrapSSARs ∧
    probeFor { Group := "certificates.k8s.io", Resource := "certificatesigningrequests",
               Verb := "create" } ∉ getHubConfigSSARs "cluster1" := by
  decide

/-- C26, amended: for every cluster name, the bootstrap probes that also occur among the
hub-config probes are exactly `get`, `list` and `watch` on `certificatesigningrequests`,
and `get` on `managedclusters` only when the cluster name is empty; `create` on
`managedclusters` and `create` on `certificatesigningrequests` are never among the
hub-config probes. -/
theorem bootstrap_probes_shared_with_hub (c : String) :
    ∀ review ∈ getBootstrapSSARs,
      (review ∈ getHubConfigSSARs c ↔
        review ∈
          [ probeFor { Group := "certificates.k8s.io",
                       Resource := "certificatesigningrequests", Verb := "get" },
            probeFor { Group := "certificates.k8s.io",
                       Resource := "certificatesigningrequests", Verb := "list" },
            probeFor { Group := "certificates.k8s.io",
                       Resource := "certificatesigningrequests", Verb := "watch" } ] ∨
        (c = "" ∧
          review = probeFor { Group := "cluster.open-cluster-management.io",
                              Resource := "managedclusters", Verb := "get" })) := by
  intro review hreview
  rw [getBootstrapSSARs_eq] at hreview
  simp only [List.mem_cons, List.mem_singleton, List.not_mem_nil, or_false] at hreview
  rw [getHubConfigSSARs_eq]
  rcases hreview with rfl | rfl | rfl | rfl | rfl | rfl <;> simp [probeFor, eq_comm]

/-- Worked example for C26: among the hub-config probes of `cluster1`, the bootstrap probe
`list` on `certificatesigningrequests` occurs. -/
theorem bootstrap_probes_shared_with_hub_witness :
    probeFor { Group := "certificates.k8s.io", Resource := "certificatesigningrequests",
               Verb := "list" } ∈ getBootstrapSSARs ∧
    probeFor { Group := "certificates.k8s.io", Resource := "certificatesigningrequests",
               Verb := "list" } ∈ getHubConfigSSARs "cluster1" :=
  ⟨by decide, (bootstrap_probes_shared_with_hub "cluster1" _ (by decide)).2
    (Or.inl (by decide))⟩

/-! ## C27: the rate ceiling of the probe client -/

/-- C27: when a connection configuration can be loaded from the secret,
`buildKubeClientWithSecret` returns what `NewForConfig` makes of the loaded configuration
with QPS 2 and burst 5 put in place of whatever QPS and burst it carried (host and
certificate data unchanged); when loading fails it returns the load error, and so no
client. -/
theorem buildKubeClientWithSecret_rate_ceiling (env : Env) (secret : Secret) :
    (∀ restConfig, env.LoadClientConfigFromSecret secret = .ok restConfig →
      buildKubeClientWithSecret env secret =
        env.NewForConfig
          { Host := restConfig.Host, CertData := restConfig.CertData,
            KeyData := restConfig.KeyData, QPS := 2, Burst := 5 }) ∧
    (∀ err, env.LoadClientConfigFromSecret secret = .error err →
      buildKubeClientWithSecret env secret = .error err) := by
  constructor
  · intro restConfig h
    simp [buildKubeClientWithSecret, h]
  · intro err h
    simp [buildKubeClientWithSecret, h]

/-- Worked example for C27: the loaded configuration carries QPS 100 and burst 200, and the
client is built from the configuration with QPS 2 and burst 5. -/
theorem buildKubeClientWithSecret_rate_ceiling_witness :
    throttleEnv.LoadClientConfigFromSecret (exampleSecret "ns1" "hub-kubeconfig-secret") =
      .ok { Host := "https://hub:443", QPS := 100, Burst := 200 } ∧
    buildKubeClientWithSecret throttleEnv (exampleSecret "ns1" "hub-kubeconfig-secret") =
      throttleEnv.NewForConfig
        { Host := "https://hub:443", CertData := none, KeyData := none, QPS := 2, Burst := 5 } :=
  ⟨rfl, (buildKubeClientWithSecret_rate_ceiling throttleEnv
    (exampleSecret "ns1" "hub-kubeconfig-secret")).1
      { Host := "https://hub:443", QPS := 100, Burst := 200 } rfl⟩

/-! ## C30: one probe per verb -/

/-- C30: `generateSelfSubjectAccessReviews` returns a list as long as the verb list whose
`i`-th probe carries the `i`-th verb and the group, resource, subresource, name and
namespace of the given resource (so repeated verbs give repeated probes), and the empty
verb list gives the empty list. -/
theorem generateSelfSubjectAccessReviews_per_verb (resource : ResourceAttributes)
    (verbs : List String) :
    (generateSelfSubjectAccessReviews resource verbs).length = verbs.length ∧
    (∀ i : Nat, (generateSelfSubjectAccessReviews resource verbs)[i]? =
      verbs[i]?.map fun verb =>
        probeFor { Group := resource.Group, Resource := resource.Resource,
                   Subresource := resource.Subresource, Name := resource.Name,
                   Namespace := resource.Namespace, Verb := verb }) ∧
    generateSelfSubjectAccessReviews resource [] = [] := by
  refine ⟨?_, ?_, rfl⟩
  · simp [generateSelfSubjectAccessReviews]
  · intro i
    simp [generateSelfSubjectAccessReviews, probeFor]

/-! ## C29: the merged condition of a list of checks -/

theorem checkAgentDegradedConditionLoop_eq (agent : klusterletAgent)
    (fns : List degradedCheckFunc) (reasons messages : List String) (log : List Call) :
    checkAgentDegradedConditionLoop agent fns reasons messages log =
      ((reasons ++ (degradedResults agent fns log).map fun c => c.Reason,
        messages ++ (degradedResults agent fns log).map fun c => c.Message),
        checkLog agent fns log) := by
  induction fns generalizing reasons messages log with
  | nil => simp [checkAgentDegradedConditionLoop, degradedResults, checkResults, checkLog]
  | cons f rest ih =>
    rcases hf : f agent log with ⟨cond, log1⟩
    cases cond with
    | none =>
      simp only [checkAgentDegradedConditionLoop, hf, ih]
      simp [degradedResults, checkResults, checkLog, hf]
    | some c =>
      simp only [checkAgentDegradedConditionLoop, hf, ih]
      simp [degradedResults, checkResults, checkLog, hf]

theorem degradedResults_eq_nil (agent : klusterletAgent) (fns : List degradedCheckFunc)
    (log : List Call) :
    degradedResults agent fns log = [] ↔ ∀ result ∈ checkResults agent fns log, result = none := by
  unfold degradedResults
  rw [List.filterMap_eq_nil_iff]
  simp

/-- C29: for every secret name, degraded type and list of check functions,
`checkAgentDegradedCondition` calls each check function once, in list order, on the call log
the one before it left (whatever that one returned), and returns a condition of the given
degraded type.  Its status is `False` exactly when every check returned no condition, and
then its reason is the secret name followed by `Functional`; otherwise its status is `True`,
its reason is the reasons of the non-nil results joined by `,` in check order, and its
message is their messages joined by newlines. -/
theorem checkAgentDegradedCondition_merges (secretName degradedType : String)
    (agent : klusterletAgent) (degradedCheckFns : List degradedCheckFunc) (log : List Call) :
    (checkAgentDegradedCondition secretName degradedType agent degradedCheckFns log).2 =
      checkLog agent degradedCheckFns log ∧
    (checkResults agent degradedCheckFns log).length = degradedCheckFns.length ∧
    (checkAgentDegradedCondition secretName degradedType agent degradedCheckFns log).1.Type_ =
      degradedType ∧
    (((checkAgentDegradedCondition secretName degradedType agent degradedCheckFns log).1.Status =
        ConditionFalse ∧
      (checkAgentDegradedCondition secretName degradedType agent degradedCheckFns log).1.Reason =
        secretName ++ "Functional") ↔
      ∀ result ∈ checkResults agent degradedCheckFns log, result = none) ∧
    (¬ (∀ result ∈ checkResults agent degradedCheckFns log, result = none) →
      (checkAgentDegradedCondition secretName degradedType agent degradedCheckFns log).1 =
        { Type_ := degradedType
          Status := ConditionTrue
          Reason := ",".intercalate
            ((degradedResults agent degradedCheckFns log).map fun c => c.Reason)
          Message := "\n".intercalate
            ((degradedResults agent degradedCheckFns log).map fun c => c.Message) }) := by
  have hlen : (checkResults agent degradedCheckFns log).length = degradedCheckFns.length := by
    induction degradedCheckFns generalizing log with
    | nil => rfl
    | cons f rest ih => simp [checkResults, ih]
  have hnil := degradedResults_eq_nil agent degradedCheckFns log
  unfold checkAgentDegradedCondition
  rw [checkAgentDegradedConditionLoop_eq]
  by_cases hall : degradedResults agent degradedCheckFns log = []
  · have hall2 := hnil.1 hall
    simp [hall, hlen]
    exact ⟨hall2, fun x hx hne => absurd (hall2 x hx) hne⟩
  · have hall2 : ¬ ∀ result ∈ checkResults agent degradedCheckFns log, result = none :=
      fun h => hall (hnil.2 h)
    simp [hall, hall2, hlen, ConditionTrue, ConditionFalse]

/-- Worked example for C29: of three checks the first and the third report a condition; the
merged condition is degraded, with the two reasons joined by a comma. -/
theorem checkAgentDegradedCondition_merges_witness :
    ¬ (∀ result ∈ checkResults { clusterName := "", namespace_ := "ns1" }
        [failingCheck "A" "first", passingCheck "B", failingCheck "C" "third"] [],
      result = none) ∧
    (checkAgentDegradedCondition "HubConfigSecret" "HubConnectionDegraded"
        { clusterName := "", namespace_ := "ns1" }
        [failingCheck "A" "first", passingCheck "B", failingCheck "C" "third"] []).1 =
      { Type_ := "HubConnectionDegraded", Status := "True", Reason := "A,C",
        Message := "first\nthird" } :=
  ⟨by decide, (checkAgentDegradedCondition_merges "HubConfigSecret" "HubConnectionDegraded"
    { clusterName := "", namespace_ := "ns1" }
    [failingCheck "A" "first", passingCheck "B", failingCheck "C" "third"] []).2.2.2.2
      (by decide)⟩

/-! ## C28: where the cluster name of the hub-config probes comes from -/

theorem checkHubConfigSecret_probes (env : Env) (agent : klusterletAgent) (log : List Call)
    (secret : Secret) (client : Client) (clusterName : String)
    (hget : env.secretGet log agent.namespace_ env.HubKubeConfig = .ok secret)
    (hkube : secret.Data "kubeconfig" ≠ none)
    (hbuild : buildKubeClientWithSecret env secret = .ok client)
    (hname : (if agent.clusterName = "" then secret.Data "cluster-name"
      else some agent.clusterName) = some clusterName) :
    (checkHubConfigSecret env agent log).2 =
        (createSelfSubjectAccessReviews env client (getHubConfigSSARs clusterName)
          (log ++ [Call.secretGet agent.namespace_ env.HubKubeConfig,
            Call.buildClient secret.Namespace secret.Name])).2 ∧
    decidedByProbes (checkHubConfigSecret env agent log).1 env client
      (getHubConfigSSARs clusterName)
      (log ++ [Call.secretGet agent.namespace_ env.HubKubeConfig,
        Call.buildClient secret.Namespace secret.Name])
      "HubKubeConfigUnauthorized" "HubKubeConfigError" := by
  constructor
  · rcases hr : createSelfSubjectAccessReviews env client (getHubConfigSSARs clusterName)
      (log ++ [Call.secretGet agent.namespace_ env.HubKubeConfig,
        Call.buildClient secret.Namespace secret.Name]) with ⟨⟨a, fr, e⟩, l3⟩
    cases e <;> cases a <;> simp [checkHubConfigSecret, hget, hkube, hbuild, hname, hr]
  · apply decidedByProbes_of_loop _ _ _ _ _ _ (by decide)
    · intro log3 h
      simp [checkHubConfigSecret, hget, hkube, hbuild, hname, h]
    · intro review log3 h
      simp [checkHubConfigSecret, hget, hkube, hbuild, hname, h]
    · intro review err log3 h
      simp [checkHubConfigSecret, hget, hkube, hbuild, hname, h]

/-- C28: in `checkHubConfigSecret`, once the secret is fetched, holds a kubeconfig and the
client is built: if the agent has a non-empty cluster name, the probes submitted are those of
`getHubConfigSSARs` for that name and they decide the outcome, with no mention of the
`cluster-name` entry of the secret; if the agent has an empty cluster name and the secret has
a `cluster-name` entry, the probes are those for the value of that entry; if the agent has an
empty cluster name and the secret has no such entry, the check returns the reason
`ClusterNameMissing` and the call log ends with the client construction: no probe is
submitted. -/
theorem checkHubConfigSecret_cluster_name_fallback (env : Env) (agent : klusterletAgent)
    (log : List Call) (secret : Secret) (client : Client)
    (hget : env.secretGet log agent.namespace_ env.HubKubeConfig = .ok secret)
    (hkube : secret.Data "kubeconfig" ≠ none)
    (hbuild : buildKubeClientWithSecret env secret = .ok client) :
    (agent.clusterName ≠ "" →
      (checkHubConfigSecret env agent log).2 =
          (createSelfSubjectAccessReviews env client (getHubConfigSSARs agent.clusterName)
            (log ++ [Call.secretGet agent.namespace_ env.HubKubeConfig,
              Call.buildClient secret.Namespace secret.Name])).2 ∧
      decidedByProbes (checkHubConfigSecret env agent log).1 env client
        (getHubConfigSSARs agent.clusterName)
        (log ++ [Call.secretGet agent.namespace_ env.HubKubeConfig,
          Call.buildClient secret.Namespace secret.Name])
        "HubKubeConfigUnauthorized" "HubKubeConfigError") ∧
    (agent.clusterName = "" → ∀ value, secret.Data "cluster-name" = some value →
      (checkHubConfigSecret env agent log).2 =
          (createSelfSubjectAccessReviews env client (getHubConfigSSARs value)
            (log ++ [Call.secretGet agent.namespace_ env.HubKubeConfig,
              Call.buildClient secret.Namespace secret.Name])).2 ∧
      decidedByProbes (checkHubConfigSecret env agent log).1 env client
        (getHubConfigSSARs value)
        (log ++ [Call.secretGet agent.namespace_ env.HubKubeConfig,
          Call.buildClient secret.Namespace secret.Name])
        "HubKubeConfigUnauthorized" "HubKubeConfigError") ∧
    (agent.clusterName = "" → secret.Data "cluster-name" = none →
      ∃ cond, cond.Reason = "ClusterNameMissing" ∧
        checkHubConfigSecret env agent log =
          (some cond, log ++ [Call.secretGet agent.namespace_ env.HubKubeConfig,
            Call.buildClient secret.Namespace secret.Name])) := by
  refine ⟨?_, ?_, ?_⟩
  · intro hne
    exact checkHubConfigSecret_probes env agent log secret client agent.clusterName hget hkube
      hbuild (by simp [hne])
  · intro hempty value hvalue
    exact checkHubConfigSecret_probes env agent log secret client value hget hkube hbuild
      (by simp [hempty, hvalue])
  · intro hempty hnone
    simp [checkHubConfigSecret, hget, hkube, hbuild, hempty, hnone]

/-- Worked example for C28: the agent names the cluster `cluster9` while the secret's
`cluster-name` entry says `cluster1`; the probes submitted are those for `cluster9`. -/
theorem checkHubConfigSecret_cluster_name_fallback_witness :
    (exampleEnv [] "none" "none" false).secretGet [] "ns1" "hub-kubeconfig-secret" =
      .ok (exampleSecret "ns1" "hub-kubeconfig-secret") ∧
    (exampleSecret "ns1" "hub-kubeconfig-secret").Data "kubeconfig" ≠ none ∧
    (exampleSecret "ns1" "hub-kubeconfig-secret").Data "cluster-name" = some "cluster1" ∧
    (checkHubConfigSecret (exampleEnv [] "none" "none" false)
        { clusterName := "cluster9", namespace_ := "ns1" } []).2 =
      (createSelfSubjectAccessReviews (exampleEnv [] "none" "none" false) ⟨0⟩
        (getHubConfigSSARs "cluster9")
        ([] ++ [Call.secretGet "ns1" "hub-kubeconfig-secret",
          Call.buildClient "ns1" "hub-kubeconfig-secret"])).2 :=
  ⟨rfl, by decide, by decide,
    ((checkHubConfigSecret_cluster_name_fallback (exampleEnv [] "none" "none" false)
      { clusterName := "cluster9", namespace_ := "ns1" } []
      (exampleSecret "ns1" "hub-kubeconfig-secret") ⟨0⟩ rfl (by decide) rfl).1
        (by decide)).1⟩

/-! ## C21: the deletion path -/

theorem CleanUp_append_ok (manifests : String → Except Err ManagedObject)
    (store : List ManagedObject) (before rest : List String)
    (h : (CleanUp manifests store before).2 = none) :
    CleanUp manifests store (before ++ rest) =
      CleanUp manifests (CleanUp manifests store before).1 rest := by
  induction before generalizing store with
  | nil => rfl
  | cons f fs ih =>
    rcases hone : CleanUpStaticObject manifests store f with ⟨store1, err⟩
    cases err with
    | none =>
      simp only [CleanUp, hone, List.cons_append] at h ⊢
      exact ih store1 h
    | some e => simp [CleanUp, hone] at h

/-- C21: for every resolver and every store, `CleanUpStaticObject` on a key whose manifest is
of one of the kinds `ValidatingWebhookConfiguration`, `MutatingWebhookConfiguration`,
`APIService`, `Secret`, `CustomResourceDefinition` and whose object the store does not hold
returns no error and leaves the store alone; on a key whose manifest has a kind that is not
recognised it returns an error and leaves the store alone.  Over a list of keys, `CleanUp`
processes them in order and stops at the first error: when the keys `before` are cleaned up
without error and the key `file` then fails with `err`, the result for
`before ++ file :: after` is `err` and the store that `before` left, whatever `after` is, so
no key after the failing one is deleted. -/
theorem CleanUp_absent_ok_and_stops_at_first_error
    (manifests : String → Except Err ManagedObject) (store : List ManagedObject) :
    (∀ file required, manifests file = .ok required →
      required.Kind ∈ ["ValidatingWebhookConfiguration", "MutatingWebhookConfiguration",
        "APIService", "Secret", "CustomResourceDefinition"] →
      getObject store required = none →
      CleanUpStaticObject manifests store file = (store, none)) ∧
    (∀ file required, manifests file = .ok required → required.Kind ∉ supportedKinds →
      ∃ err, CleanUpStaticObject manifests store file = (store, some err)) ∧
    (∀ before file after err, (CleanUp manifests store before).2 = none →
      (CleanUpStaticObject manifests (CleanUp manifests store before).1 file).2 = some err →
      CleanUp manifests store (before ++ file :: after) =
        ((CleanUp manifests store before).1, some err) ∧
      ∀ o ∈ (CleanUp manifests store before).1,
        o ∈ (CleanUp manifests store (before ++ file :: after)).1) := by
  refine ⟨?_, ?_, ?_⟩
  · intro file required hfile hkind habsent
    have hsup : required.Kind ∈ supportedKinds := by
      simp only [List.mem_cons, List.mem_singleton, List.not_mem_nil, or_false] at hkind
      rcases hkind with h | h | h | h | h <;> rw [h] <;> decide
    simp [CleanUpStaticObject, hfile, hsup, deleteObject, habsent, NotFound]
  · intro file required hfile hkind
    exact ⟨UnsupportedResourceKind, by simp [CleanUpStaticObject, hfile, hkind]⟩
  · intro before file after err hbefore hfail
    have hstore : (CleanUpStaticObject manifests (CleanUp manifests store before).1 file).1 =
        (CleanUp manifests store before).1 := by
      unfold CleanUpStaticObject at hfail ⊢
      cases hm : manifests file with
      | error e => simp
      | ok required =>
        simp only [hm] at hfail ⊢
        by_cases hsup : required.Kind ∈ supportedKinds
        · simp only [hsup, if_true] at hfail ⊢
          unfold deleteObject at hfail ⊢
          cases hget : getObject (CleanUp manifests store before).1 required with
          | none => simp [NotFound]
          | some o => simp [hget] at hfail
        · simp [hsup]
    have heq : CleanUp manifests store (before ++ file :: after) =
        ((CleanUp manifests store before).1, some err) := by
      rw [CleanUp_append_ok manifests store before (file :: after) hbefore]
      rcases hone : CleanUpStaticObject manifests (CleanUp manifests store before).1 file with
        ⟨store1, e⟩
      rw [hone] at hfail hstore
      simp only at hfail hstore
      simp [CleanUp, hone, hfail, hstore]
    refine ⟨heq, ?_⟩
    intro o ho
    rw [heq]
    exact ho

/-- Worked example for C21: the store holds the secret and the validating webhook
configuration of the test; cleaning up `secret`, `kind1`, `validatingwebhooks` deletes the
secret, fails on the kind `Kind1`, and leaves the webhook configuration in the store. -/
theorem CleanUp_absent_ok_and_stops_at_first_error_witness :
    (CleanUp deleteTestManifests
        [newUnstructured "v1" "Secret" "ns1" "n1" (Content.secretData [("key1", "key1")]),
          newValidatingWebhookConfiguration "" "svc1" "svc1"] ["secret"]).2 = none ∧
    CleanUp deleteTestManifests
        [newUnstructured "v1" "Secret" "ns1" "n1" (Content.secretData [("key1", "key1")]),
          newValidatingWebhookConfiguration "" "svc1" "svc1"]
        (["secret"] ++ "kind1" :: ["validatingwebhooks"]) =
      ((CleanUp deleteTestManifests
        [newUnstructured "v1" "Secret" "ns1" "n1" (Content.secretData [("key1", "key1")]),
          newValidatingWebhookConfiguration "" "svc1" "svc1"] ["secret"]).1,
        some UnsupportedResourceKind) :=
  ⟨by decide, ((CleanUp_absent_ok_and_stops_at_first_error deleteTestManifests
    [newUnstructured "v1" "Secret" "ns1" "n1" (Content.secretData [("key1", "key1")]),
      newValidatingWebhookConfiguration "" "svc1" "svc1"]).2.2
    ["secret"] "kind1" ["validatingwebhooks"] UnsupportedResourceKind (by decide)
      (by decide)).1⟩

/-! ## C22: loading the connection configuration from a secret -/

/-- C22: for every secret without a `kubeconfig` entry `LoadClientConfigFromSecret` fails
with the error `unable to find kubeconfig in secret <namespace> <name>`, namespace and name
both quoted; for every secret whose kubeconfig decodes and names no certificate and no key
file it succeeds; and for every secret whose kubeconfig decodes and names a certificate file
and a key file that are entries of the same secret it succeeds, and `CertData` and `KeyData`
of the configuration returned are the bytes of those entries. -/
theorem LoadClientConfigFromSecret_contract (fmt : Fmt)
    (decode : String → Except Err KubeConfig) (secret : Secret) :
    (secret.Data "kubeconfig" = none →
      LoadClientConfigFromSecret fmt decode secret =
        .error { notFound := false
                 msg := "unable to find kubeconfig in secret " ++ fmt.q secret.Namespace ++
                   " " ++ fmt.q secret.Name }) ∧
    (∀ kubeconfigData config, secret.Data "kubeconfig" = some kubeconfigData →
      decode kubeconfigData = .ok config →
      config.ClientCertificate = "" → config.ClientKey = "" →
      ∃ restConfig, LoadClientConfigFromSecret fmt decode secret = .ok restConfig) ∧
    (∀ kubeconfigData config certData keyData, secret.Data "kubeconfig" = some kubeconfigData →
      decode kubeconfigData = .ok config →
      config.ClientCertificate ≠ "" → config.ClientKey ≠ "" →
      secret.Data config.ClientCertificate = some certData →
      secret.Data config.ClientKey = some keyData →
      ∃ restConfig, LoadClientConfigFromSecret fmt decode secret = .ok restConfig ∧
        restConfig.CertData = some certData ∧ restConfig.KeyData = some keyData) := by
  refine ⟨?_, ?_, ?_⟩
  · intro h
    simp [LoadClientConfigFromSecret, h]
  · intro kubeconfigData config h hdecode hcert hkey
    exact ⟨{ Host := config.Server }, by
      simp [LoadClientConfigFromSecret, h, hdecode, referencedEntry, hcert, hkey]⟩
  · intro kubeconfigData config certData keyData h hdecode hcert hkey hcertData hkeyData
    exact ⟨{ Host := config.Server, CertData := some certData, KeyData := some keyData }, by
      simp [LoadClientConfigFromSecret, h, hdecode, referencedEntry, hcert, hkey, hcertData,
        hkeyData]⟩

/-- Worked example for C22, the cases of `TestLoadClientConfigFromSecret`: the secret without
kubeconfig gives the error of the test, and the kubeconfig that names `tls.crt` and `tls.key`
gives the certificate and key data of those entries. -/
theorem LoadClientConfigFromSecret_contract_witness :
    LoadClientConfigFromSecret exampleFmt decodeTestKubeConfig
        (newKubeConfigSecret "ns1" "secret1" "" "" "") =
      .error { notFound := false
               msg := "unable to find kubeconfig in secret \"ns1\" \"secret1\"" } ∧
    ∃ restConfig,
      LoadClientConfigFromSecret exampleFmt decodeTestKubeConfig
          (newKubeConfigSecret "ns1" "secret1" (newKubeConfig "tls.crt" "tls.key")
            "--- TRUNCATED ---" "--- REDACTED ---") = .ok restConfig ∧
      restConfig.CertData = some "--- TRUNCATED ---" ∧
      restConfig.KeyData = some "--- REDACTED ---" :=
  ⟨(LoadClientConfigFromSecret_contract exampleFmt decodeTestKubeConfig
      (newKubeConfigSecret "ns1" "secret1" "" "" "")).1 (by decide),
    (LoadClientConfigFromSecret_contract exampleFmt decodeTestKubeConfig
      (newKubeConfigSecret "ns1" "secret1" (newKubeConfig "tls.crt" "tls.key")
        "--- TRUNCATED ---" "--- REDACTED ---")).2.2
      (newKubeConfig "tls.crt" "tls.key")
      { Server := "https://test-host:443", ClientCertificate := "tls.crt"
        ClientKey := "tls.key" }
      "--- TRUNCATED ---" "--- REDACTED ---" (by decide) rfl (by decide) (by decide)
      (by decide) (by decide)⟩

/-! ## C23: the node placement of an applied deployment -/

/-- C23: for every node placement, the empty one included, and every resolver that gives a
deployment manifest for the key, `ApplyDeployment` on the empty store with the empty
generation list returns no error, and the deployment then stored under the identity of the
manifest has a pod template whose node selector is the node selector of the placement and
whose toleration list is the toleration list of the placement, the rest of the template
being that of the manifest. -/
theorem ApplyDeployment_injects_node_placement (nodePlacement : NodePlacement)
    (manifests : String → Except Err ManagedObject) (file : String)
    (deployment : ManagedObject) (template : PodTemplate)
    (hfile : manifests file = .ok deployment) (hkind : deployment.Kind = "Deployment")
    (hcontent : deployment.Content = Content.deployment template) :
    (ApplyDeployment [] [] nodePlacement manifests file).2.2 = none ∧
    ∃ stored podTemplate,
      getObject (ApplyDeployment [] [] nodePlacement manifests file).1 deployment =
        some stored ∧
      podTemplateOf stored = some podTemplate ∧
      podTemplate.NodeSelector = nodePlacement.NodeSelector ∧
      podTemplate.Tolerations = nodePlacement.Tolerations ∧
      podTemplate.Containers = template.Containers := by
  refine ⟨by simp [ApplyDeployment, hfile, hkind, hcontent, getObject],
    { deployment with
      Content := Content.deployment
        { template with
          NodeSelector := nodePlacement.NodeSelector
          Tolerations := nodePlacement.Tolerations } },
    { template with
      NodeSelector := nodePlacement.NodeSelector
      Tolerations := nodePlacement.Tolerations }, ?_, rfl, rfl, rfl, rfl⟩
  simp [ApplyDeployment, hfile, hkind, hcontent, getObject, sameObject]

/-- Worked example for C23, the second case of `TestApplyDeployment`: with the node selector
and the toleration for `node-role.kubernetes.io/infra`, no error is returned and the stored
deployment carries both in its pod template, next to the container of the manifest. -/
theorem ApplyDeployment_injects_node_placement_witness :
    (ApplyDeployment [] []
        { NodeSelector := [("node-role.kubernetes.io/infra", "")]
          Tolerations := [{ Key := "node-role.kubernetes.io/infra", Operator := "Exists"
                            Effect := "NoSchedule" }] }
        (fun _ => .ok (newDeploymentUnstructured "cluster-manager-registration-controller"
          "open-cluster-management-hub"))
        "cluster-manager-registration-controller").2.2 = none ∧
    ∃ stored podTemplate,
      getObject
        (ApplyDeployment [] []
          { NodeSelector := [("node-role.kubernetes.io/infra", "")]
            Tolerations := [{ Key := "node-role.kubernetes.io/infra", Operator := "Exists"
                              Effect := "NoSchedule" }] }
          (fun _ => .ok (newDeploymentUnstructured "cluster-manager-registration-controller"
            "open-cluster-management-hub"))
          "cluster-manager-registration-controller").1
        (newDeploymentUnstructured "cluster-manager-registration-controller"
          "open-cluster-management-hub") = some stored ∧
      podTemplateOf stored = some podTemplate ∧
      podTemplate.NodeSelector = [("node-role.kubernetes.io/infra", "")] ∧
      podTemplate.Tolerations =
        [{ Key := "node-role.kubernetes.io/infra", Operator := "Exists"
           Effect := "NoSchedule" }] ∧
      podTemplate.Containers =
        [("hub-registration-controller",
          "quay.io/open-cluster-management/registration:latest")] :=
  ApplyDeployment_injects_node_placement
    { NodeSelector := [("node-role.kubernetes.io/infra", "")]
      Tolerations := [{ Key := "node-role.kubernetes.io/infra", Operator := "Exists"
                        Effect := "NoSchedule" }] }
    (fun _ => .ok (newDeploymentUnstructured "cluster-manager-registration-controller"
      "open-cluster-management-hub"))
    "cluster-manager-registration-controller"
    (newDeploymentUnstructured "cluster-manager-registration-controller"
      "open-cluster-management-hub")
    { Containers := [("hub-registration-controller",
        "quay.io/open-cluster-management/registration:latest")] }
    rfl (by decide) rfl

/-! ## C31: a failed status write re-adds the key once -/

theorem sync_started (env : Env) (key : String) (l : klusterletLocker) (log : List Call)
    (k : String) (klusterlet : Klusterlet)
    (hstart : (sync env key l log).started = some (k, klusterlet)) :
    k = key ∧ key ≠ "" ∧ env.klusterletGet log key = .ok klusterlet ∧
    inSSARChecking l key = false ∧
    (sync env key l log).err = none ∧ (sync env key l log).log = log := by
  unfold sync at hstart ⊢
  by_cases hkey : key = ""
  · simp [hkey] at hstart
  · cases hget : env.klusterletGet log key with
    | error err =>
      by_cases hnf : err.notFound = true <;> simp [hkey, hget, hnf] at hstart
    | ok kl =>
      cases hin : inSSARChecking l key with
      | true => simp [hkey, hget, hin] at hstart
      | false =>
        simp [hkey, hget, hin] at hstart
        obtain ⟨rfl, rfl⟩ := hstart
        simp [hkey]

theorem syncGoroutineBody_functional (env : Env) (k : String) (klusterlet : Klusterlet)
    (log : List Call) (h : (checkHubConfigSecret env (agentOf klusterlet) log).1 = none) :
    syncGoroutineBody env k klusterlet log =
      updateStatusOrRequeue env k hubConnectionFunctionalCondition
        (checkHubConfigSecret env (agentOf klusterlet) log).2 := by
  have hstatus := (checkAgentDegradedCondition_single_status hubConfigSecret
    hubConfigSecretDegraded (agentOf klusterlet) (checkHubConfigSecret env) log).2 h
  have hlog := checkAgentDegradedCondition_single_log hubConfigSecret
    hubConfigSecretDegraded (agentOf klusterlet) (checkHubConfigSecret env) log
  unfold syncGoroutineBody
  rw [← hlog]
  simp only [hstatus, if_true]
  rfl

theorem requeues_checkHubConfigSecret (env : Env) (agent : klusterletAgent)
    (log : List Call) : requeues (checkHubConfigSecret env agent log).2 = requeues log := by
  obtain ⟨calls, hlog, hcred⟩ := checkHubConfigSecret_log env agent log
  rw [hlog, requeues_append, requeues_credential calls hcred, List.append_nil]

theorem requeues_checkBootstrapSecret (env : Env) (agent : klusterletAgent)
    (log : List Call) : requeues (checkBootstrapSecret env agent log).2 = requeues log := by
  obtain ⟨calls, hlog, hcred⟩ := checkBootstrapSecret_log env agent log
  rw [hlog, requeues_append, requeues_credential calls hcred, List.append_nil]

theorem requeues_bootstrapDegradedCondition (env : Env) (klusterlet : Klusterlet)
    (log : List Call) :
    requeues (bootstrapDegradedCondition env klusterlet log).2 = requeues log := by
  unfold bootstrapDegradedCondition hubConfigDegradedCondition
  rw [checkAgentDegradedCondition_single_log, checkAgentDegradedCondition_single_log,
    requeues_checkBootstrapSecret, requeues_checkHubConfigSecret]

/-- C31: a call of `sync` that starts a guarded run has itself returned no error and
scheduled nothing.  The run, on whatever call log it starts: on the hub-functional path
(the hub-config check returned nil) and on the degraded path alike, when the status write
returns an error the run schedules exactly one delayed re-add, of the key of the run after
`SSARReSyncTime`, and when the write succeeds it schedules nothing. -/
theorem status_write_failure_requeues_once (env : Env) (key : String) (l : klusterletLocker)
    (log : List Call) (k : String) (klusterlet : Klusterlet)
    (hstart : (sync env key l log).started = some (k, klusterlet)) (log2 : List Call) :
    (sync env key l log).err = none ∧
    requeues (sync env key l log).log = requeues log ∧
    ((checkHubConfigSecret env (agentOf klusterlet) log2).1 = none →
      (∀ err, env.UpdateKlusterletStatus (checkHubConfigSecret env (agentOf klusterlet) log2).2
          key hubConnectionFunctionalCondition = some err →
        requeues (syncGoroutineBody env k klusterlet log2) =
          requeues log2 ++ [(key, SSARReSyncTime)]) ∧
      (env.UpdateKlusterletStatus (checkHubConfigSecret env (agentOf klusterlet) log2).2
          key hubConnectionFunctionalCondition = none →
        requeues (syncGoroutineBody env k klusterlet log2) = requeues log2)) ∧
    ((checkHubConfigSecret env (agentOf klusterlet) log2).1 ≠ none →
      (∀ err, env.UpdateKlusterletStatus (bootstrapDegradedCondition env klusterlet log2).2
          key (mergedDegradedCondition env klusterlet log2) = some err →
        requeues (syncGoroutineBody env k klusterlet log2) =
          requeues log2 ++ [(key, SSARReSyncTime)]) ∧
      (env.UpdateKlusterletStatus (bootstrapDegradedCondition env klusterlet log2).2
          key (mergedDegradedCondition env klusterlet log2) = none →
        requeues (syncGoroutineBody env k klusterlet log2) = requeues log2)) := by
  obtain ⟨rfl, -, -, -, herr, hlog⟩ := sync_started env key l log k klusterlet hstart
  refine ⟨herr, by rw [hlog], ?_, ?_⟩
  · intro hfun
    rw [syncGoroutineBody_functional env k klusterlet log2 hfun,
      requeues_updateStatusOrRequeue, requeues_checkHubConfigSecret]
    constructor
    · intro err hw
      simp [hw]
    · intro hw
      simp [hw]
  · intro hdeg
    rw [syncGoroutineBody_degraded env k klusterlet log2 hdeg,
      requeues_updateStatusOrRequeue, requeues_bootstrapDegradedCondition]
    constructor
    · intro err hw
      simp [hw]
    · intro hw
      simp [hw]

/-- Worked example for C31: the hub-config secret is missing and the status write fails; the
run started by `sync` for `k` re-adds `k` once, after `SSARReSyncTime`. -/
theorem status_write_failure_requeues_once_witness :
    (sync (exampleEnv ["hub-kubeconfig-secret"] "none" "none" true) "k" ⟨∅⟩ []).started =
      some ("k", { Name := "k" }) ∧
    (checkHubConfigSecret (exampleEnv ["hub-kubeconfig-secret"] "none" "none" true)
      (agentOf { Name := "k" }) []).1 ≠ none ∧
    requeues (syncGoroutineBody (exampleEnv ["hub-kubeconfig-secret"] "none" "none" true) "k"
      { Name := "k" } []) = requeues [] ++ [("k", SSARReSyncTime)] :=
  ⟨by decide, by decide,
    ((status_write_failure_requeues_once
      (exampleEnv ["hub-kubeconfig-secret"] "none" "none" true) "k" ⟨∅⟩ [] "k" { Name := "k" }
      (by decide) []).2.2.2 (by decide)).1 { notFound := false, msg := "conflict" } rfl⟩

/-! ## C32: keys without a target, and the namespace of the probes -/

theorem secretFetches_append (a b : List Call) :
    secretFetches (a ++ b) = secretFetches a ++ secretFetches b := by
  simp [secretFetches, List.filterMap_append]

theorem secretFetches_submitted (c : Client) (rs : List SelfSubjectAccessReview) :
    secretFetches (submitted c rs) = [] := by
  induction rs with
  | nil => rfl
  | cons r rs ih =>
    simp only [submitted, List.map_cons] at ih ⊢
    simp only [secretFetches, List.filterMap_cons] at ih ⊢
    exact ih

theorem secretFetches_createSelfSubjectAccessReviews (env : Env) (c : Client)
    (reviews : List SelfSubjectAccessReview) (log : List Call) :
    secretFetches (createSelfSubjectAccessReviews env c reviews log).2 = secretFetches log := by
  obtain ⟨rs, hrs⟩ := createSelfSubjectAccessReviews_log env c reviews log
  rw [hrs, secretFetches_append, secretFetches_submitted, List.append_nil]

theorem secretFetches_checkHubConfigSecret (env : Env) (agent : klusterletAgent)
    (log : List Call) :
    secretFetches (checkHubConfigSecret env agent log).2 =
      secretFetches log ++ [(agent.namespace_, env.HubKubeConfig)] := by
  cases hget : env.secretGet log agent.namespace_ env.HubKubeConfig with
  | error e => simp [checkHubConfigSecret, hget, secretFetches, List.filterMap_append]
  | ok secret =>
    by_cases hkube : secret.Data "kubeconfig" = none
    · simp [checkHubConfigSecret, hget, hkube, secretFetches, List.filterMap_append]
    cases hbuild : buildKubeClientWithSecret env secret with
    | error e =>
      simp [checkHubConfigSecret, hget, hkube, hbuild, secretFetches, List.filterMap_append]
    | ok client =>
      cases hname : (if agent.clusterName = "" then secret.Data "cluster-name"
          else some agent.clusterName) with
      | none =>
        simp [checkHubConfigSecret, hget, hkube, hbuild, hname, secretFetches,
          List.filterMap_append]
      | some clusterName =>
        have hs := secretFetches_createSelfSubjectAccessReviews env client
          (getHubConfigSSARs clusterName)
          (log ++ [Call.secretGet agent.namespace_ env.HubKubeConfig,
            Call.buildClient secret.Namespace secret.Name])
        rcases hr : createSelfSubjectAccessReviews env client (getHubConfigSSARs clusterName)
          (log ++ [Call.secretGet agent.namespace_ env.HubKubeConfig,
            Call.buildClient secret.Namespace secret.Name]) with ⟨⟨a, fr, e⟩, l3⟩
        rw [hr] at hs
        simp only at hs
        have hl3 : secretFetches l3 =
            secretFetches log ++ [(agent.namespace_, env.HubKubeConfig)] := by
          rw [hs]
          simp [secretFetches, List.filterMap_append]
        cases e <;> cases a <;>
          simp [checkHubConfigSecret, hget, hkube, hbuild, hname, hr, hl3]

theorem secretFetches_checkBootstrapSecret (env : Env) (agent : klusterletAgent)
    (log : List Call) :
    secretFetches (checkBootstrapSecret env agent log).2 =
      secretFetches log ++ [(agent.namespace_, env.BootstrapHubKubeConfig)] := by
  cases hget : env.secretGet log agent.namespace_ env.BootstrapHubKubeConfig with
  | error e => simp [checkBootstrapSecret, hget, secretFetches, List.filterMap_append]
  | ok secret =>
    cases hbuild : buildKubeClientWithSecret env secret with
    | error e =>
      simp [checkBootstrapSecret, hget, hbuild, secretFetches, List.filterMap_append]
    | ok client =>
      have hs := secretFetches_createSelfSubjectAccessReviews env client getBootstrapSSARs
        (log ++ [Call.secretGet agent.namespace_ env.BootstrapHubKubeConfig,
          Call.buildClient secret.Namespace secret.Name])
      rcases hr : createSelfSubjectAccessReviews env client getBootstrapSSARs
        (log ++ [Call.secretGet agent.namespace_ env.BootstrapHubKubeConfig,
          Call.buildClient secret.Namespace secret.Name]) with ⟨⟨a, fr, e⟩, l3⟩
      rw [hr] at hs
      simp only at hs
      have hl3 : secretFetches l3 =
          secretFetches log ++ [(agent.namespace_, env.BootstrapHubKubeConfig)] := by
        rw [hs]
        simp [secretFetches, List.filterMap_append]
      cases e <;> cases a <;> simp [checkBootstrapSecret, hget, hbuild, hr, hl3]

theorem secretFetches_updateStatusOrRequeue (env : Env) (k : String) (cond : Condition)
    (log : List Call) :
    secretFetches (updateStatusOrRequeue env k cond log) = secretFetches log := by
  unfold updateStatusOrRequeue
  cases env.UpdateKlusterletStatus log k cond <;>
    simp [secretFetches, List.filterMap_append]

theorem agentOf_namespace (klusterlet : Klusterlet) :
    (agentOf klusterlet).namespace_ = probeNamespace klusterlet := by
  rfl

/-- C32: for the empty key, and for a key whose klusterlet lookup says not found, `sync`
returns no error, starts no run, adds nothing to the call log (no probe, nothing scheduled)
and leaves the guard as it was; for a non-empty key whose lookup fails with any other error
it returns that error, with the guard, the call log and no run started.  When a run starts,
the agent it probes for has the namespace of the klusterlet spec, or
`open-cluster-management-agent` when that is empty, and the secret fetches of the run are in
that namespace: the hub-config secret on the hub-functional path, the hub-config secret and
then the bootstrap secret on the degraded path. -/
theorem sync_no_target_and_probe_namespace (env : Env) (l : klusterletLocker)
    (log : List Call) :
    sync env "" l log = { err := none, locker := l, log := log, started := none } ∧
    (∀ key err, env.klusterletGet log key = .error err → err.notFound = true →
      sync env key l log = { err := none, locker := l, log := log, started := none }) ∧
    (∀ key err, key ≠ "" → env.klusterletGet log key = .error err → err.notFound = false →
      sync env key l log = { err := some err, locker := l, log := log, started := none }) ∧
    (∀ key k klusterlet log2, (sync env key l log).started = some (k, klusterlet) →
      (agentOf klusterlet).namespace_ =
        (if klusterlet.Spec.Namespace = "" then "open-cluster-management-agent"
          else klusterlet.Spec.Namespace) ∧
      ((checkHubConfigSecret env (agentOf klusterlet) log2).1 = none →
        secretFetches (syncGoroutineBody env k klusterlet log2) =
          secretFetches log2 ++ [(probeNamespace klusterlet, env.HubKubeConfig)]) ∧
      ((checkHubConfigSecret env (agentOf klusterlet) log2).1 ≠ none →
        secretFetches (syncGoroutineBody env k klusterlet log2) =
          secretFetches log2 ++ [(probeNamespace klusterlet, env.HubKubeConfig),
            (probeNamespace klusterlet, env.BootstrapHubKubeConfig)])) := by
  refine ⟨by simp [sync], ?_, ?_, ?_⟩
  · intro key err hget hnf
    by_cases hkey : key = ""
    · simp [sync, hkey]
    · simp [sync, hkey, hget, hnf]
  · intro key err hkey hget hnf
    simp [sync, hkey, hget, hnf]
  · intro key k klusterlet log2 _
    refine ⟨rfl, ?_, ?_⟩
    · intro hfun
      rw [syncGoroutineBody_functional env k klusterlet log2 hfun,
        secretFetches_updateStatusOrRequeue, secretFetches_checkHubConfigSecret,
        agentOf_namespace]
    · intro hdeg
      rw [syncGoroutineBody_degraded env k klusterlet log2 hdeg,
        secretFetches_updateStatusOrRequeue]
      unfold bootstrapDegradedCondition hubConfigDegradedCondition
      rw [checkAgentDegradedCondition_single_log, secretFetches_checkBootstrapSecret,
        checkAgentDegradedCondition_single_log, secretFetches_checkHubConfigSecret,
        agentOf_namespace]
      simp

/-- Worked example for C32: a klusterlet whose spec names no namespace, with the hub-config
secret missing; the run started by `sync` fetches both secrets in
`open-cluster-management-agent`.  And a lookup that fails with another error is returned. -/
theorem sync_no_target_and_probe_namespace_witness :
    (sync (exampleEnv ["hub-kubeconfig-secret"] "none" "none" false) "k" ⟨∅⟩ []).started =
      some ("k", { Name := "k" }) ∧
    secretFetches (syncGoroutineBody (exampleEnv ["hub-kubeconfig-secret"] "none" "none" false)
        "k" { Name := "k" } []) =
      secretFetches [] ++
        [(probeNamespace { Name := "k" }, "hub-kubeconfig-secret"),
          (probeNamespace { Name := "k" }, "bootstrap-hub-kubeconfig")] ∧
    probeNamespace { Name := "k" } = "open-cluster-management-agent" ∧
    sync listerDownEnv "k" ⟨∅⟩ [] =
      { err := some { notFound := false, msg := "lister unavailable" }, locker := ⟨∅⟩
        log := [], started := none } :=
  ⟨by decide,
    ((sync_no_target_and_probe_namespace
      (exampleEnv ["hub-kubeconfig-secret"] "none" "none" false) ⟨∅⟩ []).2.2.2
      "k" "k" { Name := "k" } [] (by decide)).2.2 (by decide),
    by decide,
    (sync_no_target_and_probe_namespace listerDownEnv ⟨∅⟩ []).2.2.1 "k"
      { notFound := false, msg := "lister unavailable" } (by decide) rfl rfl⟩

end SSAR
